import Mathlib

/-!
Verification of the Kudryavtsev analytical permafrost model
(`Kudryavtsev_permafrost_model.ipynb`): a straight-line pipeline computing
the temperature at the top of permafrost (`Tps`, TTOP) and the active layer
thickness (`Zal`, ALT) from climate, snow, vegetation and soil-texture
inputs.

The script is embedded twice:

* a total, real-valued embedding (`Heat_Capacity` … `Zal`): every quantity
  is the real number the formulas denote, using Mathlib's total `sqrt`,
  `log`, `arcsin` (which return junk values outside their domains);
* an `Option`-valued embedding of the TTOP/ALT solver stage (`divD`,
  `sqrtD`, …, `ZalD`): each partial operation checks its mathematical
  domain and `none` models the IEEE NaN / error outcome that the Python
  code would silently propagate.  The branch `if Tps_numerator <= 0` is
  modelled on `none` the way IEEE compares NaN: `NaN <= 0` is false, so
  the `else` branch is taken.
-/

namespace Kudryavtsev

noncomputable section

open Real

/-- Primitive inputs of the pipeline, one field per input variable of the
notebook (climate, snow, vegetation, soil texture, soil water). -/
structure Inputs where
  Ta : ℝ
  Aa : ℝ
  Hsn : ℝ
  rho_sn : ℝ
  W_vol : ℝ
  Hvg1 : ℝ
  Hvg2 : ℝ
  Dvf : ℝ
  Dvt : ℝ
  percent_sand : ℝ
  percent_silt : ℝ
  percent_clay : ℝ

/-- Reference per-texture-class constant: bulk density of silt. -/
def Bulk_Density_Silt : ℝ := 1400

/-- Reference per-texture-class constant: heat capacity of silt. -/
def Heat_Capacity_Silt : ℝ := 730

/-- Reference per-texture-class constant: bulk density of sand. -/
def Bulk_Density_Sand : ℝ := 1300

/-- Reference per-texture-class constant: heat capacity of sand. -/
def Heat_Capacity_Sand : ℝ := 690

/-- Reference per-texture-class constant: bulk density of clay. -/
def Bulk_Density_Clay : ℝ := 1500

/-- Reference per-texture-class constant: heat capacity of clay. -/
def Heat_Capacity_Clay : ℝ := 900

/-- Frozen conductivity of silt: arithmetic mean of the dry (1.25) and wet
(2.40) reference values, as the notebook computes by reassignment. -/
def Kf_Silt : ℝ := (1.25 + 2.40) / 2

/-- Thawed conductivity of silt (mean of dry 1.05 and wet 1.90). -/
def Kt_Silt : ℝ := (1.05 + 1.90) / 2

/-- Frozen conductivity of sand (mean of dry 1.25 and wet 2.65). -/
def Kf_Sand : ℝ := (1.25 + 2.65) / 2

/-- Thawed conductivity of sand (mean of dry 1.05 and wet 2.15). -/
def Kt_Sand : ℝ := (1.05 + 2.15) / 2

/-- Frozen conductivity of clay (mean of dry 1.15 and wet 2.00). -/
def Kf_Clay : ℝ := (1.15 + 2.00) / 2

/-- Thawed conductivity of clay (mean of dry 0.90 and wet 1.70). -/
def Kt_Clay : ℝ := (0.90 + 1.70) / 2

/-- Composite soil heat capacity: weighted geometric mean of the per-class
constants (real exponents, `Real.rpow`). -/
noncomputable def Heat_Capacity (i : Inputs) : ℝ :=
  Heat_Capacity_Clay ^ i.percent_clay * Heat_Capacity_Sand ^ i.percent_sand *
    Heat_Capacity_Silt ^ i.percent_silt

/-- Composite soil bulk density: weighted geometric mean of the per-class
constants. -/
noncomputable def Bulk_Density (i : Inputs) : ℝ :=
  Bulk_Density_Clay ^ i.percent_clay * Bulk_Density_Sand ^ i.percent_sand *
    Bulk_Density_Silt ^ i.percent_silt

/-- Volumetric heat capacity of thawed ground. -/
noncomputable def Ct (i : Inputs) : ℝ :=
  Heat_Capacity i * Bulk_Density i + 4190 * i.W_vol

/-- Volumetric heat capacity of frozen ground. -/
noncomputable def Cf (i : Inputs) : ℝ :=
  Heat_Capacity i * Bulk_Density i + 2025 * i.W_vol

/-- Thermal conductivity of thawed ground: weighted geometric mean. -/
noncomputable def Kt (i : Inputs) : ℝ :=
  Kt_Silt ^ i.percent_silt * Kt_Clay ^ i.percent_clay * Kt_Sand ^ i.percent_sand

/-- Thermal conductivity of frozen ground: weighted geometric mean. -/
noncomputable def Kf (i : Inputs) : ℝ :=
  Kf_Silt ^ i.percent_silt * Kf_Clay ^ i.percent_clay * Kf_Sand ^ i.percent_sand

/-- Snow thermal conductivity from snow density:
`(rho_sn/1000)^2*3.233 - 1.01*(rho_sn/1000) + 0.138`. -/
def Ksn (rho_sn : ℝ) : ℝ :=
  rho_sn / 1000 * (rho_sn / 1000) * 3.233 - 1.01 * (rho_sn / 1000) + 0.138

/-- Snow heat capacity from snow density. -/
def Csn (rho_sn : ℝ) : ℝ := rho_sn * 2.09e3

/-- Annual period in seconds, `365*24*3600`. -/
def tao : ℝ := 365 * 24 * 3600

/-- Cold-season duration `tao*(0.5 - arcsin(Ta/Aa)/pi)`. -/
noncomputable def tao1 (i : Inputs) : ℝ :=
  tao * (0.5 - 1 / π * arcsin (i.Ta / i.Aa))

/-- Warm-season duration, the rest of the year. -/
noncomputable def tao2 (i : Inputs) : ℝ := tao - tao1 i

/-- Latent heat of the soil water phase change. -/
def L (i : Inputs) : ℝ := 3.35e8 * i.W_vol * 1

/-- Sensible/latent heat ratio for the amplitude. -/
noncomputable def alpha (i : Inputs) : ℝ := 2 * i.Aa * Cf i / L i

/-- Sensible/latent heat ratio for the mean temperature. -/
noncomputable def beta (i : Inputs) : ℝ := 2 * |i.Ta| * Cf i / L i

/-- Effective frozen heat capacity accounting for phase change. -/
noncomputable def Cef (i : Inputs) : ℝ :=
  Cf i * ((alpha i - beta i) /
    ((alpha i - beta i) - log ((alpha i + 1) / (beta i + 1))))

/-- Snow/ground thermal impedance-mismatch reflection coefficient. -/
noncomputable def mu (i : Inputs) : ℝ :=
  (sqrt (Ksn i.rho_sn * Csn i.rho_sn) - sqrt (Kf i * Cef i)) /
    (sqrt (Ksn i.rho_sn * Csn i.rho_sn) + sqrt (Kf i * Cef i))

/-- Argument of the exponential/cosine in the snow damping factor,
`2*Hsn*sqrt(pi*Csn/(tao*Ksn))` (a subterm the notebook repeats three
times inside `s`). -/
noncomputable def snowArg (i : Inputs) : ℝ :=
  2 * i.Hsn * sqrt (π * Csn i.rho_sn / (tao * Ksn i.rho_sn))

/-- Snow damping factor
`s = exp(snowArg) + 2*mu*cos(snowArg) + mu^2*exp(-snowArg)`. -/
noncomputable def s (i : Inputs) : ℝ :=
  exp (snowArg i) + 2 * mu i * cos (snowArg i) + mu i ^ 2 * exp (-snowArg i)

/-- Surface amplitude reduction caused by snow. -/
noncomputable def deta_A (i : Inputs) : ℝ :=
  i.Aa * (1 - (1 + mu i) / sqrt (s i))

/-- Season-weighted snow amplitude reduction. -/
noncomputable def deta_Asn (i : Inputs) : ℝ := deta_A i * tao1 i / tao * 0.5

/-- Mean-temperature shift caused by snow (first-harmonic factor 2/pi). -/
noncomputable def deta_Tsn (i : Inputs) : ℝ := 2 / π * deta_Asn i

/-- Snow-adjusted mean temperature fed to the vegetation stage. -/
noncomputable def Tvg (i : Inputs) : ℝ := i.Ta + deta_Tsn i

/-- Snow-adjusted amplitude fed to the vegetation stage. -/
noncomputable def Avg (i : Inputs) : ℝ := i.Aa - deta_Asn i

/-- Winter vegetation amplitude reduction; the notebook applies it to the
snow-adjusted range `Avg - |Tvg|`. -/
noncomputable def deta_A1 (i : Inputs) : ℝ :=
  (Avg i - |Tvg i|) * (1 - exp (-1 * i.Hvg1 * sqrt (π / (i.Dvf * 2 * tao1 i))))

/-- Summer vegetation amplitude reduction; the notebook applies it to the
raw air range `Aa - |Ta|`. -/
noncomputable def deta_A2 (i : Inputs) : ℝ :=
  (i.Aa - |i.Ta|) * (1 - exp (-1 * i.Hvg2 * sqrt (π / (i.Dvt * 2 * tao2 i))))

/-- Season-weighted net vegetation amplitude change. -/
noncomputable def deta_Av (i : Inputs) : ℝ :=
  (deta_A1 i * tao1 i + deta_A2 i * tao2 i) / tao

/-- Season-weighted net vegetation mean-temperature shift. -/
noncomputable def deta_Tv (i : Inputs) : ℝ :=
  (deta_A1 i * tao1 i - deta_A2 i * tao2 i) / tao * (2 / π)

/-- Ground-surface mean temperature after snow and vegetation. -/
noncomputable def Tgs (i : Inputs) : ℝ := Tvg i + deta_Tv i

/-- Ground-surface amplitude after snow and vegetation. -/
noncomputable def Ags (i : Inputs) : ℝ := Avg i - deta_Av i

/-- Numerator of the TTOP formula; its sign selects the regime. -/
noncomputable def Tps_numerator (Tgs Ags Kf Kt : ℝ) : ℝ :=
  0.5 * Tgs * (Kf + Kt) +
    Ags * (Kt - Kf) / π *
      (Tgs / Ags * arcsin (Tgs / Ags) + sqrt (1 - π * π / (Ags * Ags)))

/-- Regime flag: `-1` (Frozen) when `Tps_numerator <= 0`, else `1` (Thawed). -/
noncomputable def Flag (Tgs Ags Kf Kt : ℝ) : ℤ :=
  if Tps_numerator Tgs Ags Kf Kt ≤ 0 then -1 else 1

/-- Conductivity dividing the TTOP numerator, selected by the regime. -/
noncomputable def K_star (Tgs Ags Kf Kt : ℝ) : ℝ :=
  if Tps_numerator Tgs Ags Kf Kt ≤ 0 then Kf else Kt

/-- Heat capacity used downstream, selected by the regime. -/
noncomputable def C (Tgs Ags Kf Kt Cf Ct : ℝ) : ℝ :=
  if Tps_numerator Tgs Ags Kf Kt ≤ 0 then Cf else Ct

/-- Conductivity used downstream, selected by the regime. -/
noncomputable def K (Tgs Ags Kf Kt : ℝ) : ℝ :=
  if Tps_numerator Tgs Ags Kf Kt ≤ 0 then Kf else Kt

/-- Temperature at the top of permafrost (TTOP). -/
noncomputable def Tps (Tgs Ags Kf Kt : ℝ) : ℝ :=
  Tps_numerator Tgs Ags Kf Kt / K_star Tgs Ags Kf Kt

/-- Amplitude at the top of permafrost. -/
noncomputable def Aps (Tgs Ags Kf Kt Cf Ct L : ℝ) : ℝ :=
  (Ags - |Tps Tgs Ags Kf Kt|) /
      log ((Ags + L / (2 * C Tgs Ags Kf Kt Cf Ct)) /
        (|Tps Tgs Ags Kf Kt| + L / (2 * C Tgs Ags Kf Kt Cf Ct))) -
    L / (2 * C Tgs Ags Kf Kt Cf Ct)

/-- Characteristic thaw penetration depth. -/
noncomputable def Zc (Tgs Ags Kf Kt Cf Ct L : ℝ) : ℝ :=
  2 * (Ags - |Tps Tgs Ags Kf Kt|) *
      sqrt (K Tgs Ags Kf Kt * tao * C Tgs Ags Kf Kt Cf Ct / π) /
    (2 * Aps Tgs Ags Kf Kt Cf Ct L * C Tgs Ags Kf Kt Cf Ct + L)

/-- Active layer thickness (ALT). -/
noncomputable def Zal (Tgs Ags Kf Kt Cf Ct L : ℝ) : ℝ :=
  (2 * (Ags - |Tps Tgs Ags Kf Kt|) *
      sqrt (K Tgs Ags Kf Kt * tao * C Tgs Ags Kf Kt Cf Ct / π) +
    (2 * Aps Tgs Ags Kf Kt Cf Ct L * C Tgs Ags Kf Kt Cf Ct *
          Zc Tgs Ags Kf Kt Cf Ct L + L * Zc Tgs Ags Kf Kt Cf Ct L) * L *
        sqrt (K Tgs Ags Kf Kt * tao / (π * C Tgs Ags Kf Kt Cf Ct)) /
      (2 * Ags * C Tgs Ags Kf Kt Cf Ct * Zc Tgs Ags Kf Kt Cf Ct L +
        L * Zc Tgs Ags Kf Kt Cf Ct L +
        (2 * Aps Tgs Ags Kf Kt Cf Ct L * C Tgs Ags Kf Kt Cf Ct + L) *
          sqrt (K Tgs Ags Kf Kt * tao / (π * C Tgs Ags Kf Kt Cf Ct)))) /
    (2 * Aps Tgs Ags Kf Kt Cf Ct L * C Tgs Ags Kf Kt Cf Ct + L)

/-- Pipeline TTOP: the solver applied to the pipeline boundary values. -/
noncomputable def Tps_p (i : Inputs) : ℝ :=
  Tps (Tgs i) (Ags i) (Kf i) (Kt i)

/-- Pipeline ALT: the solver applied to the pipeline boundary values. -/
noncomputable def Zal_p (i : Inputs) : ℝ :=
  Zal (Tgs i) (Ags i) (Kf i) (Kt i) (Cf i) (Ct i) (L i)

/-! ### Domain-checked (`Option`-valued) embedding of the solver stage

`none` models the IEEE NaN (or Python error) produced when an operation
leaves its mathematical domain; NaN propagates through arithmetic exactly
as `none` propagates through `Option.bind`. -/

/-- Division checking for a zero divisor. -/
noncomputable def divD (x y : ℝ) : Option ℝ :=
  if y = 0 then none else some (x / y)

/-- Square root checking for a negative argument. -/
noncomputable def sqrtD (x : ℝ) : Option ℝ :=
  if 0 ≤ x then some (sqrt x) else none

/-- Logarithm checking for a non-positive argument. -/
noncomputable def logD (x : ℝ) : Option ℝ :=
  if 0 < x then some (log x) else none

/-- Inverse sine checking its `[-1, 1]` domain. -/
noncomputable def arcsinD (x : ℝ) : Option ℝ :=
  if |x| ≤ 1 then some (arcsin x) else none

/-- Domain-checked TTOP numerator. -/
noncomputable def Tps_numeratorD (Tgs Ags Kf Kt : ℝ) : Option ℝ := do
  let r ← divD Tgs Ags
  let a ← arcsinD r
  let q ← divD (π * π) (Ags * Ags)
  let sq ← sqrtD (1 - q)
  some (0.5 * Tgs * (Kf + Kt) + Ags * (Kt - Kf) / π * (r * a + sq))

/-- Regime conductivity when the numerator may be NaN: the Python test
`NaN <= 0` is false, so `none` takes the `else` (thawed) branch. -/
noncomputable def K_starD (Tgs Ags Kf Kt : ℝ) : ℝ :=
  match Tps_numeratorD Tgs Ags Kf Kt with
  | none => Kt
  | some v => if v ≤ 0 then Kf else Kt

/-- Regime heat capacity under the same NaN branch convention. -/
noncomputable def CD (Tgs Ags Kf Kt Cf Ct : ℝ) : ℝ :=
  match Tps_numeratorD Tgs Ags Kf Kt with
  | none => Ct
  | some v => if v ≤ 0 then Cf else Ct

/-- Regime conductivity `K` under the same NaN branch convention. -/
noncomputable def KD (Tgs Ags Kf Kt : ℝ) : ℝ :=
  match Tps_numeratorD Tgs Ags Kf Kt with
  | none => Kt
  | some v => if v ≤ 0 then Kf else Kt

/-- Domain-checked TTOP. -/
noncomputable def TpsD (Tgs Ags Kf Kt : ℝ) : Option ℝ := do
  let n ← Tps_numeratorD Tgs Ags Kf Kt
  divD n (K_starD Tgs Ags Kf Kt)

/-- Domain-checked amplitude at the top of permafrost. -/
noncomputable def ApsD (Tgs Ags Kf Kt Cf Ct L : ℝ) : Option ℝ := do
  let tps ← TpsD Tgs Ags Kf Kt
  let la ← divD L (2 * CD Tgs Ags Kf Kt Cf Ct)
  let ratio ← divD (Ags + la) (|tps| + la)
  let lg ← logD ratio
  let frac ← divD (Ags - |tps|) lg
  some (frac - la)

/-- Domain-checked characteristic depth. -/
noncomputable def ZcD (Tgs Ags Kf Kt Cf Ct L : ℝ) : Option ℝ := do
  let tps ← TpsD Tgs Ags Kf Kt
  let aps ← ApsD Tgs Ags Kf Kt Cf Ct L
  let q ← divD (KD Tgs Ags Kf Kt * tao * CD Tgs Ags Kf Kt Cf Ct) π
  let root ← sqrtD q
  divD (2 * (Ags - |tps|) * root) (2 * aps * CD Tgs Ags Kf Kt Cf Ct + L)

/-- Domain-checked active layer thickness. -/
noncomputable def ZalD (Tgs Ags Kf Kt Cf Ct L : ℝ) : Option ℝ := do
  let tps ← TpsD Tgs Ags Kf Kt
  let aps ← ApsD Tgs Ags Kf Kt Cf Ct L
  let zc ← ZcD Tgs Ags Kf Kt Cf Ct L
  let q1 ← divD (KD Tgs Ags Kf Kt * tao * CD Tgs Ags Kf Kt Cf Ct) π
  let root1 ← sqrtD q1
  let q2 ← divD (KD Tgs Ags Kf Kt * tao) (π * CD Tgs Ags Kf Kt Cf Ct)
  let root2 ← sqrtD q2
  let corr ← divD
    ((2 * aps * CD Tgs Ags Kf Kt Cf Ct * zc + L * zc) * L * root2)
    (2 * Ags * CD Tgs Ags Kf Kt Cf Ct * zc + L * zc +
      (2 * aps * CD Tgs Ags Kf Kt Cf Ct + L) * root2)
  divD (2 * (Ags - |tps|) * root1 + corr)
    (2 * aps * CD Tgs Ags Kf Kt Cf Ct + L)

/-- The snow damping factor as a function of the reflection coefficient
`m` and the (repeated) argument `u = snowArg`; `s i = snowS (mu i)
(snowArg i)` definitionally.  Abstracting the two lets the monotonicity
of `s` in the snow thickness be proved once. -/
def snowS (m u : ℝ) : ℝ := exp u + 2 * m * cos u + m ^ 2 * exp (-u)

/-- Modelled from the spec (§4.3): a vegetation season layer multiplies a
season temperature range by the insulation factor
`1 - exp(-H*sqrt(pi/(2*D*season_length)))`.  Used to compare the
notebook's `deta_A1`/`deta_A2` against the spec's description of which
range each layer is applied to. -/
def detaA_layer_spec (range H D seasonLen : ℝ) : ℝ :=
  range * (1 - exp (-(H * sqrt (π / (2 * D * seasonLen)))))

/-- The reference scenario of the notebook: Barrow, AK site values. -/
def refInputs : Inputs :=
  ⟨-10.81, 19.04, 0.28, 240, 0.41, 0, 0, 1.39e-6, 5.56e-8, 0.60, 0.30, 0.10⟩

/-- The reference scenario with all insulation removed (`Hsn = 0`,
`Hvg1 = Hvg2 = 0`), for exercising the zero-insulation degeneracy. -/
def noInsulationInputs : Inputs :=
  ⟨-10.81, 19.04, 0, 240, 0.41, 0, 0, 1.39e-6, 5.56e-8, 0.60, 0.30, 0.10⟩

/-- Input used to separate the summer vegetation layer from the spec's
description: snow present (`Hsn = 1`), summer vegetation present
(`Hvg2 = 1`), `Ta = -1`, `Aa = 2`, other fields as in the notebook. -/
def c8Inputs : Inputs :=
  ⟨-1, 2, 1, 240, 0.41, 0, 1, 1.39e-6, 5.56e-8, 0.60, 0.30, 0.10⟩

end

/-! ### Shared helper lemmas -/

section Helpers

open Real

/-- The snow conductivity quadratic has negative discriminant, so it is
positive everywhere. -/
theorem Ksn_pos (rho_sn : ℝ) : 0 < Ksn rho_sn := by
  unfold Ksn
  nlinarith [sq_nonneg (3.233 * (rho_sn / 1000) - 0.505)]

/-- For nonnegative `x`, `|sin x| ≤ x`. -/
theorem abs_sin_le_self {x : ℝ} (hx : 0 ≤ x) : |sin x| ≤ x := by
  rcases eq_or_lt_of_le hx with h | h
  · simp [← h]
  rcases le_or_lt x 1 with h1 | h1
  · have hs : 0 ≤ sin x :=
      sin_nonneg_of_nonneg_of_le_pi hx (by nlinarith [pi_gt_three])
    rw [abs_of_nonneg hs]
    exact (sin_lt h).le
  · have := neg_one_le_sin x
    have := sin_le_one x
    rw [abs_le]
    constructor <;> nlinarith

/-- Strict monotonicity of the snow damping factor in its argument, for
reflection coefficients in `[-1, 1]`. -/
theorem snowS_strictMono {m u1 u2 : ℝ} (hml : -1 ≤ m) (hmu : m ≤ 1)
    (h1 : 0 ≤ u1) (h12 : u1 < u2) : snowS m u1 < snowS m u2 := by
  have hv : 0 < (u1 + u2) / 2 := by linarith
  have hw : 0 < (u2 - u1) / 2 := by linarith
  set v := (u1 + u2) / 2 with hv_def
  set w := (u2 - u1) / 2 with hw_def
  have hu2 : u2 = v + w := by rw [hv_def, hw_def]; ring
  have hu1 : u1 = v - w := by rw [hv_def, hw_def]; ring
  have hcos : cos u2 - cos u1 = -2 * sin v * sin w := by
    rw [cos_sub_cos]
    have e1 : (u2 + u1) / 2 = v := by rw [hv_def]; ring
    have e2 : (u2 - u1) / 2 = w := by rw [hw_def]
    rw [e1, e2]
  have hexpv : 0 < exp v := exp_pos v
  have hexpw : 0 < exp w := exp_pos w
  have hsinh_v : 2 * v < exp v - exp (-v) := by
    have := self_lt_sinh_iff.mpr hv
    rw [sinh_eq] at this; linarith
  have hsinh_w : 2 * w < exp w - exp (-w) := by
    have := self_lt_sinh_iff.mpr hw
    rw [sinh_eq] at this; linarith
  have hsv : |sin v| ≤ v := abs_sin_le_self hv.le
  have hsw : |sin w| ≤ w := abs_sin_le_self hw.le
  have hm2 : m ^ 2 ≤ 1 := by nlinarith
  have hexpnv : exp (-v) ≤ exp v := exp_le_exp.mpr (by linarith)
  have hexpnvpos : 0 < exp (-v) := exp_pos _
  have hexpnwpos : 0 < exp (-w) := exp_pos _
  -- the difference of the two damping factors, in product form
  have hdiff : snowS m u2 - snowS m u1 =
      (exp w - exp (-w)) * (exp v - m ^ 2 * exp (-v)) - 4 * m * sin v * sin w := by
    unfold snowS
    rw [hu2, hu1]
    have e1 : exp (v + w) = exp v * exp w := exp_add v w
    have e2 : exp (v - w) = exp v * exp (-w) := by
      rw [sub_eq_add_neg, exp_add]
    have e3 : exp (-(v + w)) = exp (-v) * exp (-w) := by
      rw [neg_add, exp_add]
    have e4 : exp (-(v - w)) = exp (-v) * exp w := by
      rw [neg_sub, sub_eq_add_neg, exp_add, mul_comm]
    have e5 : cos (v + w) - cos (v - w) = -2 * sin v * sin w := by
      have := hcos; rw [hu2, hu1] at this; exact this
    rw [e1, e2, e3, e4]
    linear_combination (2 * m) * e5
  have hEw : 0 < exp w - exp (-w) := by linarith
  -- the cross term is dominated
  have habs : 4 * m * sin v * sin w ≤
      (exp w - exp (-w)) * (2 * |sin v|) := by
    have h1' : 4 * m * sin v * sin w ≤ 4 * |sin v| * |sin w| := by
      have : m * sin v * sin w ≤ |sin v| * |sin w| := by
        calc m * sin v * sin w ≤ |m * sin v * sin w| := le_abs_self _
          _ = |m| * |sin v| * |sin w| := by rw [abs_mul, abs_mul]
          _ ≤ 1 * |sin v| * |sin w| := by
              have hm : |m| ≤ 1 := abs_le.mpr ⟨hml, hmu⟩
              nlinarith [mul_nonneg (mul_nonneg (sub_nonneg.mpr hm)
                (abs_nonneg (sin v))) (abs_nonneg (sin w))]
          _ = |sin v| * |sin w| := by ring
      linarith
    have h2' : 4 * |sin v| * |sin w| ≤ (exp w - exp (-w)) * (2 * |sin v|) := by
      have hsw' : |sin w| ≤ (exp w - exp (-w)) / 2 := by linarith
      have := abs_nonneg (sin v)
      nlinarith
    linarith
  -- and the main term strictly dominates it
  have hmain : (exp w - exp (-w)) * (2 * |sin v|) <
      (exp w - exp (-w)) * (exp v - m ^ 2 * exp (-v)) := by
    have key : 2 * |sin v| < exp v - m ^ 2 * exp (-v) := by
      have : exp v - m ^ 2 * exp (-v) ≥ exp v - exp (-v) := by nlinarith
      linarith [hsv, hsinh_v]
    exact (mul_lt_mul_left hEw).mpr key
  linarith [hdiff, habs, hmain]

/-- The snow damping factor is positive for reflection coefficients in
`(-1, 1]` and nonnegative arguments. -/
theorem snowS_pos {m u : ℝ} (hml : -1 < m) (hmu : m ≤ 1) (hu : 0 ≤ u) :
    0 < snowS m u := by
  rcases eq_or_lt_of_le hu with h0 | h0
  · -- at zero thickness the factor is the square (1+m)^2
    rw [← h0]
    unfold snowS
    simp only [exp_zero, cos_zero, neg_zero]
    nlinarith
  · have h2 : 0 < exp (-u) := exp_pos _
    have h3 : exp (-u) < 1 := exp_lt_one_iff.mpr (by linarith)
    have hc1 : cos u ≤ 1 := cos_le_one u
    have hc2 : -1 ≤ cos u := neg_one_le_cos u
    have hmul : exp u * exp (-u) = 1 := by rw [← exp_add]; simp
    unfold snowS
    rcases le_or_lt m 0 with hm | hm
    · -- exp(-u) * s = (1 + m*exp(-u))^2 + 2*m*exp(-u)*(cos u - 1)
      have hmb : -1 < m * exp (-u) := by nlinarith
      have hsq : 0 < (1 + m * exp (-u)) ^ 2 := pow_pos (by linarith) 2
      have hcross : 0 ≤ 2 * m * exp (-u) * (cos u - 1) := by
        have : cos u - 1 ≤ 0 := by linarith
        have : 0 ≤ (-m) * (1 - cos u) := mul_nonneg (by linarith) (by linarith)
        nlinarith
      nlinarith [hsq, hcross, hmul, h2]
    · -- exp(-u) * s = (1 - m*exp(-u))^2 + 2*m*exp(-u)*(cos u + 1)
      have hmb : m * exp (-u) < 1 := by nlinarith
      have hsq : 0 < (1 - m * exp (-u)) ^ 2 := pow_pos (by linarith) 2
      have hcross : 0 ≤ 2 * m * exp (-u) * (cos u + 1) := by
        have h1' : 0 ≤ cos u + 1 := by linarith
        positivity
      nlinarith [hsq, hcross, hmul, h2]
/-- The reflection coefficient `mu` lies in `(-1, 1]` whenever the snow
product `Ksn*Csn` is positive. -/
theorem mu_bounds (i : Inputs) (h : 0 < Ksn i.rho_sn * Csn i.rho_sn) :
    -1 < mu i ∧ mu i ≤ 1 := by
  have ha : 0 < sqrt (Ksn i.rho_sn * Csn i.rho_sn) := sqrt_pos.mpr h
  have hb : 0 ≤ sqrt (Kf i * Cef i) := sqrt_nonneg _
  unfold mu
  constructor
  · rw [lt_div_iff₀ (by linarith)]
    linarith
  · rw [div_le_one (by linarith)]
    linarith

/-- The damping factor written through `snowS`. -/
theorem s_eq_snowS (i : Inputs) : s i = snowS (mu i) (snowArg i) := rfl

/-- At zero argument the damping factor is the square `(1+m)^2`. -/
theorem snowS_zero (m : ℝ) : snowS m 0 = (1 + m) ^ 2 := by
  unfold snowS; rw [neg_zero, exp_zero, cos_zero]; ring

/-- The winter vegetation layer written through the spec's layer formula,
applied to the snow-adjusted range. -/
theorem deta_A1_eq_layer (i : Inputs) :
    deta_A1 i = detaA_layer_spec (Avg i - |Tvg i|) i.Hvg1 i.Dvf (tao1 i) := by
  unfold deta_A1 detaA_layer_spec
  rw [show i.Dvf * 2 * tao1 i = 2 * i.Dvf * tao1 i by ring,
    show (-1 : ℝ) * i.Hvg1 * sqrt (π / (2 * i.Dvf * tao1 i)) =
      -(i.Hvg1 * sqrt (π / (2 * i.Dvf * tao1 i))) by ring]

/-- The summer vegetation layer written through the spec's layer formula:
the notebook applies it to the raw air range `Aa - |Ta|`. -/
theorem deta_A2_eq_layer (i : Inputs) :
    deta_A2 i = detaA_layer_spec (i.Aa - |i.Ta|) i.Hvg2 i.Dvt (tao2 i) := by
  unfold deta_A2 detaA_layer_spec
  rw [show i.Dvt * 2 * tao2 i = 2 * i.Dvt * tao2 i by ring,
    show (-1 : ℝ) * i.Hvg2 * sqrt (π / (2 * i.Dvt * tao2 i)) =
      -(i.Hvg2 * sqrt (π / (2 * i.Dvt * tao2 i))) by ring]

/-- Numeric bound used by the deep-insulation case of the monotonicity
argument: for every season fraction `t` with `pi/(pi+2) < t < 1`,
`cos(pi*t) + t/pi < 0`. -/
theorem cos_pi_mul_add_neg {t : ℝ} (h1 : π < t * (π + 2)) (h2 : t < 1) :
    cos (π * t) + t / π < 0 := by
  have hπ3 := pi_gt_three
  have hπ0 := pi_pos
  have hπ2 : (0:ℝ) < π + 2 := by linarith
  have ht0 : 0 < t := by
    by_contra hc
    push_neg at hc
    have := mul_nonpos_of_nonpos_of_nonneg hc hπ2.le
    linarith
  have hyt : π * (π / (π + 2)) < π * t := by
    have h3 : π / (π + 2) < t := (div_lt_iff₀ hπ2).mpr (by linarith)
    exact mul_lt_mul_of_pos_left h3 hπ0
  have hmem1 : π * (π / (π + 2)) ∈ Set.Icc 0 π := by
    constructor
    · positivity
    · have h3 : π / (π + 2) ≤ 1 := by rw [div_le_one hπ2]; linarith
      nlinarith
  have hmem2 : π * t ∈ Set.Icc 0 π := by
    constructor
    · positivity
    · nlinarith
  have hcos_lt : cos (π * t) < cos (π * (π / (π + 2))) :=
    strictAntiOn_cos hmem1 hmem2 hyt
  have hsplit : π * (π / (π + 2)) = π - 2 * π / (π + 2) := by
    field_simp
    ring
  have hcos_eq : cos (π * (π / (π + 2))) = -cos (2 * π / (π + 2)) := by
    rw [hsplit, cos_pi_sub]
  -- numeric lower bound for cos(2*pi/(pi+2)) via the half angle 0.61102
  have hy_mem : 2 * π / (π + 2) ∈ Set.Icc 0 π := by
    constructor
    · positivity
    · rw [div_le_iff₀ hπ2]; nlinarith
  have hy_lt : 2 * π / (π + 2) < 1.22204 := by
    rw [div_lt_iff₀ hπ2]
    nlinarith [pi_lt_d4]
  have h122_mem : (1.22204:ℝ) ∈ Set.Icc 0 π := by
    constructor <;> [norm_num; linarith]
  have hcos_mono : cos (1.22204:ℝ) < cos (2 * π / (π + 2)) :=
    strictAntiOn_cos hy_mem h122_mem hy_lt
  have hsin_le : sin (0.61102:ℝ) ≤ 0.58027 := by
    have habs : |(0.61102:ℝ)| = 0.61102 := abs_of_nonneg (by norm_num)
    have hb := @Real.sin_bound (0.61102:ℝ) (by rw [habs]; norm_num)
    rw [habs] at hb
    have h1 := (abs_le.mp hb).2
    norm_num at h1 ⊢
    linarith
  have hsin_nonneg : 0 ≤ sin (0.61102:ℝ) :=
    sin_nonneg_of_nonneg_of_le_pi (by norm_num) (by linarith)
  have hcos_eval : cos (1.22204:ℝ) = 1 - 2 * sin (0.61102:ℝ) ^ 2 := by
    have h2 : (1.22204:ℝ) = 2 * 0.61102 := by norm_num
    rw [h2, cos_two_mul']
    have h3 := sin_sq_add_cos_sq (0.61102:ℝ)
    linarith
  have hcos_ge : (0.3265:ℝ) ≤ cos (1.22204:ℝ) := by
    rw [hcos_eval]
    have h4 : sin (0.61102:ℝ) ^ 2 ≤ 0.58027 ^ 2 :=
      pow_le_pow_left₀ hsin_nonneg hsin_le 2
    nlinarith
  have htπ : t / π < 1 / π := (div_lt_div_iff_of_pos_right hπ0).mpr h2
  have hπinv : 1 / π < 0.3265 := by
    rw [div_lt_iff₀ hπ0]
    nlinarith [pi_gt_d2]
  linarith

/-- In the deep-insulation regime (`t*(1+2/pi) > 1`), the snow-adjusted
mean temperature stays negative: `Ta + (2/pi)*(Aa*t/2) < 0`, using the
identity `Ta = Aa*cos(pi*t)` that defines the season fraction. -/
theorem deep_insulation_neg {Ta Aa t : ℝ} (hAa : 0 < Aa) (ht1 : t < 1)
    (hTa : Ta = Aa * cos (π * t)) (h : 1 < t * (1 + 2 / π)) :
    Ta + 2 / π * (Aa * t / 2) < 0 := by
  have hπ0 := pi_pos
  have hkey : π < t * (π + 2) := by
    have h2 : π * 1 < π * (t * (1 + 2 / π)) := mul_lt_mul_of_pos_left h hπ0
    have h3 : π * (t * (1 + 2 / π)) = t * (π + 2) := by
      field_simp
    rw [h3] at h2
    linarith
  have hcos := cos_pi_mul_add_neg hkey ht1
  have heq : Ta + 2 / π * (Aa * t / 2) = Aa * (cos (π * t) + t / π) := by
    rw [hTa]
    field_simp
    ring
  rw [heq]
  exact mul_neg_of_pos_of_neg hAa hcos

/-- Core algebraic monotonicity of the ground-surface boundary values in
the snow amplitude reduction `d`: with season fraction `t ∈ (0,1)`, winter
insulation factor `F ∈ [0,1)`, harmonic factor `g ∈ (0,1)` (`g = 2/pi` in
the pipeline), and `d ≤ Aa*t/2`, the `Tgs`-part strictly increases and the
`Ags`-part strictly decreases in `d`. -/
theorem insulation_mono_core {Ta Aa t F g d1 d2 : ℝ} (hAa : 0 < Aa)
    (ht0 : 0 < t) (ht1 : t < 1) (hF0 : 0 ≤ F) (hF1 : F < 1)
    (hg0 : 0 < g) (hg1 : g < 1) (hd : d1 < d2) (hd2 : d2 ≤ Aa * t / 2)
    (hneg : 1 < t * (1 + g) → Ta + g * (Aa * t / 2) < 0) :
    g * d1 + g * (t * F * (Aa - d1 - |Ta + g * d1|)) <
      g * d2 + g * (t * F * (Aa - d2 - |Ta + g * d2|)) ∧
    -d2 - t * F * (Aa - d2 - |Ta + g * d2|) <
      -d1 - t * F * (Aa - d1 - |Ta + g * d1|) := by
  have hP0 : 0 ≤ t * F := mul_nonneg ht0.le hF0
  have hPt : t * F < t := by
    have h1 := mul_lt_mul_of_pos_left hF1 ht0
    rwa [mul_one] at h1
  have habs_ub : |Ta + g * d2| - |Ta + g * d1| ≤ g * (d2 - d1) := by
    have h1 := abs_sub_abs_le_abs_sub (Ta + g * d2) (Ta + g * d1)
    have h2 : Ta + g * d2 - (Ta + g * d1) = g * (d2 - d1) := by ring
    rw [h2, abs_of_nonneg (by nlinarith : (0:ℝ) ≤ g * (d2 - d1))] at h1
    exact h1
  rcases lt_or_le (t * F * (1 + g)) 1 with hcase | hcase
  · constructor
    · have key := mul_le_mul_of_nonneg_left habs_ub hP0
      have key2 := mul_le_mul_of_nonneg_left key hg0.le
      nlinarith [key2,
        mul_pos hg0 (mul_pos (sub_pos.mpr hd) (sub_pos.mpr hcase))]
    · have key := mul_le_mul_of_nonneg_left habs_ub hP0
      nlinarith [key, mul_pos (sub_pos.mpr hd) (sub_pos.mpr hcase)]
  · have htg : 1 < t * (1 + g) := by
      have h1 : 0 < (t - t * F) * (1 + g) :=
        mul_pos (by linarith) (by linarith)
      nlinarith
    have hneg2 := hneg htg
    have hgd2 : g * d2 ≤ g * (Aa * t / 2) :=
      mul_le_mul_of_nonneg_left hd2 hg0.le
    have hT2 : Ta + g * d2 < 0 := by linarith
    have hT1 : Ta + g * d1 < 0 := by
      have := mul_lt_mul_of_pos_left hd hg0
      linarith
    rw [abs_of_neg hT1, abs_of_neg hT2]
    have hfact : t * F * (1 - g) < 1 := by
      nlinarith [mul_nonneg hP0 hg0.le]
    constructor
    · nlinarith [mul_pos (mul_pos hg0 (sub_pos.mpr hd)) (sub_pos.mpr hfact)]
    · nlinarith [mul_pos (sub_pos.mpr hd) (sub_pos.mpr hfact)]

/-- Checked division evaluates when the divisor is nonzero. -/
theorem divD_of_ne {x y : ℝ} (h : y ≠ 0) : divD x y = some (x / y) := by
  unfold divD; rw [if_neg h]

/-- Checked square root evaluates on nonnegative arguments. -/
theorem sqrtD_of_nonneg {x : ℝ} (h : 0 ≤ x) : sqrtD x = some (sqrt x) := by
  unfold sqrtD; rw [if_pos h]

/-- Checked logarithm evaluates on positive arguments. -/
theorem logD_of_pos {x : ℝ} (h : 0 < x) : logD x = some (log x) := by
  unfold logD; rw [if_pos h]

/-- Checked arcsine evaluates inside `[-1, 1]`. -/
theorem arcsinD_of_le {x : ℝ} (h : |x| ≤ 1) : arcsinD x = some (arcsin x) := by
  unfold arcsinD; rw [if_pos h]

/-- Degree-8 Taylor enclosure of `exp` on `[0, 1]`, with the remainder
bound from `Real.exp_bound`. -/
theorem exp_poly_bounds {x : ℝ} (h0 : 0 ≤ x) (h1 : x ≤ 1) :
    1 + x + x^2/2 + x^3/6 + x^4/24 + x^5/120 + x^6/720 + x^7/5040 -
      x^8 * (9/322560) ≤ exp x ∧
    exp x ≤ 1 + x + x^2/2 + x^3/6 + x^4/24 + x^5/120 + x^6/720 + x^7/5040 +
      x^8 * (9/322560) := by
  have hb := @Real.exp_bound x (by rwa [abs_of_nonneg h0]) 8 (by norm_num)
  rw [abs_of_nonneg h0] at hb
  have hsum : ∑ i in Finset.range 8, x^i / (Nat.factorial i) =
      1 + x + x^2/2 + x^3/6 + x^4/24 + x^5/120 + x^6/720 + x^7/5040 := by
    simp [Finset.sum_range_succ, Nat.factorial]
  rw [hsum] at hb
  have hfact : ((Nat.factorial 8 : ℕ) : ℝ) = 40320 := by
    norm_num [Nat.factorial]
  rw [hfact] at hb
  have h2 := abs_le.mp hb
  constructor <;> linarith [h2.1, h2.2]

/-- Degree-3 Taylor enclosure of `sin` on `[0, 1]`. -/
theorem sin_base {x : ℝ} (h0 : 0 ≤ x) (h1 : x ≤ 1) :
    x - x^3/6 - x^4 * (5/96) ≤ sin x ∧ sin x ≤ x - x^3/6 + x^4 * (5/96) := by
  have hb := @Real.sin_bound x (by rwa [abs_of_nonneg h0])
  rw [abs_of_nonneg h0] at hb
  have h2 := abs_le.mp hb
  constructor <;> linarith [h2.1, h2.2]

/-- The cubic `3s - 4s^3` of the triple-angle formula is monotone on
`[0, 1/2]`, hence maps enclosures to enclosures. -/
theorem sin_cubic_mono {s lo hi : ℝ} (h1 : lo ≤ s) (h2 : s ≤ hi) (h0 : 0 ≤ lo)
    (hh : hi ≤ 1/2) :
    3*lo - 4*lo^3 ≤ 3*s - 4*s^3 ∧ 3*s - 4*s^3 ≤ 3*hi - 4*hi^3 := by
  have hs0 : 0 ≤ s := le_trans h0 h1
  have hs2 : s ≤ 1/2 := le_trans h2 hh
  have hlo2 : lo ≤ 1/2 := le_trans h1 hs2
  have hhi0 : 0 ≤ hi := le_trans hs0 h2
  have hfac1 : 0 ≤ 3 - 4*(s^2 + s*lo + lo^2) := by
    nlinarith [mul_nonneg (by linarith : (0:ℝ) ≤ 1/2 - s) (by linarith : (0:ℝ) ≤ 1/2 + s),
      mul_nonneg (by linarith : (0:ℝ) ≤ 1/2 - lo) (by linarith : (0:ℝ) ≤ 1/2 + lo),
      mul_nonneg (by linarith : (0:ℝ) ≤ 1/2 - s) h0]
  have hfac2 : 0 ≤ 3 - 4*(hi^2 + hi*s + s^2) := by
    nlinarith [mul_nonneg (by linarith : (0:ℝ) ≤ 1/2 - s) (by linarith : (0:ℝ) ≤ 1/2 + s),
      mul_nonneg (by linarith : (0:ℝ) ≤ 1/2 - hi) (by linarith : (0:ℝ) ≤ 1/2 + hi),
      mul_nonneg (by linarith : (0:ℝ) ≤ 1/2 - hi) hs0]
  constructor
  · nlinarith [mul_nonneg (sub_nonneg.mpr h1) hfac1]
  · nlinarith [mul_nonneg (sub_nonneg.mpr h2) hfac2]

/-- Triple-angle step: an enclosure of `sin t` inside `[0, 1/2]` yields an
enclosure of `sin (3t)`. -/
theorem sin_triple_step {θ lo hi : ℝ} (h1 : lo ≤ sin θ) (h2 : sin θ ≤ hi)
    (h0 : 0 ≤ lo) (hh : hi ≤ 1/2) :
    3*lo - 4*lo^3 ≤ sin (3*θ) ∧ sin (3*θ) ≤ 3*hi - 4*hi^3 := by
  rw [sin_three_mul]
  exact sin_cubic_mono h1 h2 h0 hh

/-- Rational lower bound for a real tenth root. -/
theorem le_tenth_root {X p : ℝ} (hp : 0 ≤ p) (h : p^(10:ℕ) ≤ X) :
    p ≤ X ^ ((1:ℝ)/10) := by
  have h1 : ((p^(10:ℕ) : ℝ)) ^ ((1:ℝ)/10) ≤ X ^ ((1:ℝ)/10) :=
    Real.rpow_le_rpow (pow_nonneg hp 10) h (by norm_num)
  have h2 : ((p^(10:ℕ) : ℝ)) ^ ((1:ℝ)/10) = p := by
    rw [← Real.rpow_natCast p 10, ← Real.rpow_mul hp]
    norm_num
  rwa [h2] at h1

/-- Rational upper bound for a real tenth root. -/
theorem tenth_root_le {X q : ℝ} (hq : 0 ≤ q) (hX : 0 ≤ X) (h : X ≤ q^(10:ℕ)) :
    X ^ ((1:ℝ)/10) ≤ q := by
  have h1 : X ^ ((1:ℝ)/10) ≤ ((q^(10:ℕ) : ℝ)) ^ ((1:ℝ)/10) :=
    Real.rpow_le_rpow hX h (by norm_num)
  have h2 : ((q^(10:ℕ) : ℝ)) ^ ((1:ℝ)/10) = q := by
    rw [← Real.rpow_natCast q 10, ← Real.rpow_mul hq]
    norm_num
  rwa [h2] at h1

/-- Rational enclosure of a square root from rational squares. -/
theorem sqrt_bounds {a p q : ℝ} (hp : 0 ≤ p) (h1 : p^2 ≤ a) (h2 : a ≤ q^2)
    (hq : 0 ≤ q) : p ≤ sqrt a ∧ sqrt a ≤ q := by
  constructor
  · have h3 := Real.sqrt_le_sqrt h1
    rwa [Real.sqrt_sq hp] at h3
  · have h3 := Real.sqrt_le_sqrt h2
    rwa [Real.sqrt_sq hq] at h3

/-- Lower bound for `arcsin` from a sine evaluation. -/
theorem arcsin_ge_of {q y : ℝ} (hy1 : -(π/2) ≤ y) (hy2 : y ≤ π/2)
    (h : sin y ≤ q) : y ≤ arcsin q := by
  rw [← arcsin_sin hy1 hy2]
  exact monotone_arcsin h

/-- Upper bound for `arcsin` from a sine evaluation. -/
theorem arcsin_le_of {q y : ℝ} (hy1 : -(π/2) ≤ y) (hy2 : y ≤ π/2)
    (h : q ≤ sin y) : arcsin q ≤ y := by
  rw [← arcsin_sin hy1 hy2]
  exact monotone_arcsin h

/-- Upper bound for `log` from an exponential evaluation. -/
theorem log_le_of_le_exp {R c : ℝ} (hR : 0 < R) (h : R ≤ exp c) : log R ≤ c :=
  (log_le_iff_le_exp hR).mpr h

/-- Lower bound for `log` from an exponential evaluation. -/
theorem le_log_of_exp_le {R c : ℝ} (hR : 0 < R) (h : exp c ≤ R) : c ≤ log R :=
  (le_log_iff_exp_le hR).mpr h

/-- Half-angle form of the cosine double-angle identity. -/
theorem cos_double_sin (y : ℝ) : cos (2*y) = 1 - 2 * sin y^2 := by
  rw [cos_two_mul']
  have := sin_sq_add_cos_sq y
  linarith

/-- Enclosure of a reciprocal from a positive enclosure. -/
theorem inv_enclosure {b lb ub : ℝ} (hlb : 0 < lb) (h1 : lb ≤ b)
    (h2 : b ≤ ub) : 1/ub ≤ 1/b ∧ 1/b ≤ 1/lb := by
  have hb : 0 < b := lt_of_lt_of_le hlb h1
  exact ⟨one_div_le_one_div_of_le hb h2, one_div_le_one_div_of_le hlb h1⟩

end Helpers

/-! ### Claims -/

section Claims

open Real

/-- C9: the snow thermal conductivity polynomial
`Ksn = 3.233*(rho_sn/1000)^2 - 1.01*(rho_sn/1000) + 0.138` is strictly
positive for every real `rho_sn` (negative discriminant), so
`Ksn*Csn > 0` and the square roots and division by `Ksn` inside the snow
damping factor are well-defined for every `rho_sn > 0`. -/
theorem ksn_quadratic_positive :
    (∀ rho_sn : ℝ, 0 < Ksn rho_sn) ∧
      ∀ rho_sn : ℝ, 0 < rho_sn → 0 < Ksn rho_sn * Csn rho_sn :=
  ⟨Ksn_pos, fun r hr => mul_pos (Ksn_pos r) (by unfold Csn; nlinarith)⟩

/-- Witness for C9 at the notebook's snow density 240. -/
theorem ksn_quadratic_positive_witness :
    0 < (240:ℝ) ∧ 0 < Ksn 240 * Csn 240 :=
  ⟨by norm_num, ksn_quadratic_positive.2 240 (by norm_num)⟩

/-- C6: the cold and warm season durations partition the year:
`tao1 + tao2 = tao` (exactly, over the reals, since `tao2 = tao - tao1`),
in particular for any input with `|Ta/Aa| < 1`. -/
theorem season_partition (i : Inputs) (h : |i.Ta / i.Aa| < 1) :
    tao1 i + tao2 i = tao := by
  unfold tao2; ring

/-- Witness for C6 at the reference inputs. -/
theorem season_partition_witness :
    |refInputs.Ta / refInputs.Aa| < 1 ∧ tao1 refInputs + tao2 refInputs = tao :=
  ⟨by norm_num [refInputs, abs_lt], season_partition refInputs (by norm_num [refInputs, abs_lt])⟩

/-- C1: the solver takes exactly one of two branches chosen by the sign of
`Tps_numerator`: when it is `≤ 0` the regime is Frozen (`Flag = -1`) and
`K_star = Kf`, `C = Cf`, `K = Kf`; otherwise the regime is Thawed
(`Flag = 1`) and `K_star = Kt`, `C = Ct`, `K = Kt`.  The branches are
mutually exclusive and exhaustive, and `Tps = Tps_numerator / K_star`. -/
theorem regime_selection (Tgs Ags Kf Kt Cf Ct : ℝ) :
    ((Tps_numerator Tgs Ags Kf Kt ≤ 0 ∧ Flag Tgs Ags Kf Kt = -1 ∧
        K_star Tgs Ags Kf Kt = Kf ∧ C Tgs Ags Kf Kt Cf Ct = Cf ∧
        K Tgs Ags Kf Kt = Kf) ∨
      (0 < Tps_numerator Tgs Ags Kf Kt ∧ Flag Tgs Ags Kf Kt = 1 ∧
        K_star Tgs Ags Kf Kt = Kt ∧ C Tgs Ags Kf Kt Cf Ct = Ct ∧
        K Tgs Ags Kf Kt = Kt)) ∧
    ¬(Tps_numerator Tgs Ags Kf Kt ≤ 0 ∧ 0 < Tps_numerator Tgs Ags Kf Kt) ∧
    Tps Tgs Ags Kf Kt = Tps_numerator Tgs Ags Kf Kt / K_star Tgs Ags Kf Kt := by
  refine ⟨?_, fun hc => absurd hc.2 (not_lt.mpr hc.1), rfl⟩
  by_cases h : Tps_numerator Tgs Ags Kf Kt ≤ 0
  · exact Or.inl ⟨h, by simp [Flag, h], by simp [K_star, h], by simp [C, h],
      by simp [K, h]⟩
  · exact Or.inr ⟨not_le.mp h, by simp [Flag, h], by simp [K_star, h],
      by simp [C, h], by simp [K, h]⟩

/-- C5: with zero snow thickness and zero vegetation heights (and positive
`Ksn*Csn`), the insulation stages are inert: `Tgs = Ta` and `Ags = Aa`. -/
theorem zero_insulation (i : Inputs) (hHsn : i.Hsn = 0) (h1 : i.Hvg1 = 0)
    (h2 : i.Hvg2 = 0) (h : 0 < Ksn i.rho_sn * Csn i.rho_sn) :
    Tgs i = i.Ta ∧ Ags i = i.Aa := by
  obtain ⟨hm1, hm2⟩ := mu_bounds i h
  have hmu0 : (0:ℝ) < 1 + mu i := by linarith
  have harg : snowArg i = 0 := by unfold snowArg; rw [hHsn]; ring
  have hs : s i = (1 + mu i) ^ 2 := by
    unfold s; rw [harg, neg_zero, exp_zero, cos_zero]; ring
  have hsqrt : sqrt (s i) = 1 + mu i := by rw [hs, sqrt_sq hmu0.le]
  have hdA : deta_A i = 0 := by
    unfold deta_A; rw [hsqrt, div_self (ne_of_gt hmu0)]; ring
  have hdAsn : deta_Asn i = 0 := by unfold deta_Asn; rw [hdA]; ring
  have hdTsn : deta_Tsn i = 0 := by unfold deta_Tsn; rw [hdAsn]; ring
  have hTvg : Tvg i = i.Ta := by unfold Tvg; rw [hdTsn]; ring
  have hAvg : Avg i = i.Aa := by unfold Avg; rw [hdAsn]; ring
  have hA1 : deta_A1 i = 0 := by
    unfold deta_A1
    rw [h1, show (-1 : ℝ) * 0 * sqrt (π / (i.Dvf * 2 * tao1 i)) = 0 by ring,
      exp_zero]
    ring
  have hA2 : deta_A2 i = 0 := by
    unfold deta_A2
    rw [h2, show (-1 : ℝ) * 0 * sqrt (π / (i.Dvt * 2 * tao2 i)) = 0 by ring,
      exp_zero]
    ring
  have hdTv : deta_Tv i = 0 := by unfold deta_Tv; rw [hA1, hA2]; ring
  have hdAv : deta_Av i = 0 := by unfold deta_Av; rw [hA1, hA2]; ring
  constructor
  · unfold Tgs; rw [hTvg, hdTv]; ring
  · unfold Ags; rw [hAvg, hdAv]; ring

/-- Witness for C5 at the reference climate with all insulation removed. -/
theorem zero_insulation_witness :
    noInsulationInputs.Hsn = 0 ∧ noInsulationInputs.Hvg1 = 0 ∧
      noInsulationInputs.Hvg2 = 0 ∧
      0 < Ksn noInsulationInputs.rho_sn * Csn noInsulationInputs.rho_sn ∧
      Tgs noInsulationInputs = noInsulationInputs.Ta ∧
      Ags noInsulationInputs = noInsulationInputs.Aa := by
  have h : 0 < Ksn noInsulationInputs.rho_sn * Csn noInsulationInputs.rho_sn := by
    norm_num [noInsulationInputs, Ksn, Csn]
  obtain ⟨hT, hA⟩ := zero_insulation noInsulationInputs rfl rfl rfl h
  exact ⟨rfl, rfl, rfl, h, hT, hA⟩

/-- C4 (amended): for every input with `|Ags| < |Tgs|` the arcsin argument
leaves `[-1,1]` and the notebook, having no domain check, silently
produces the undefined (NaN) value for `Tps_numerator` and everything
downstream — no distinct domain error exists in the code. -/
theorem arcsin_domain_nan (Tgs Ags Kf Kt : ℝ) (h : |Ags| < |Tgs|) :
    Tps_numeratorD Tgs Ags Kf Kt = none ∧ TpsD Tgs Ags Kf Kt = none ∧
      ∀ Cf Ct L, ZalD Tgs Ags Kf Kt Cf Ct L = none := by
  have hnum : Tps_numeratorD Tgs Ags Kf Kt = none := by
    rcases eq_or_ne Ags 0 with h0 | h0
    · unfold Tps_numeratorD divD
      simp [h0]
    · have harg : ¬|Tgs / Ags| ≤ 1 := by
        rw [not_le, abs_div, lt_div_iff₀ (abs_pos.mpr h0)]
        linarith
      have hdiv : divD Tgs Ags = some (Tgs / Ags) := by
        unfold divD; rw [if_neg h0]
      have harc : arcsinD (Tgs / Ags) = none := by
        unfold arcsinD; rw [if_neg harg]
      unfold Tps_numeratorD
      simp [hdiv, harc]
  refine ⟨hnum, ?_, ?_⟩
  · unfold TpsD; rw [hnum]; rfl
  · intro Cf Ct L
    unfold ZalD TpsD; rw [hnum]; rfl

/-- Witness for C4's amended theorem at `Tgs = 5`, `Ags = 2`. -/
theorem arcsin_domain_nan_witness :
    |(2:ℝ)| < |(5:ℝ)| ∧ Tps_numeratorD 5 2 1 1 = none :=
  ⟨by norm_num, (arcsin_domain_nan 5 2 1 1 (by norm_num)).1⟩

/-- C4 counterexample: at `Tgs = -10`, `Ags = 4` (inputs forcing
`|Tgs| > Ags`) the notebook's solver yields the undefined (NaN) value
`none` — it does not report a distinct domain error. -/
theorem arcsin_domain_counterexample :
    |(4:ℝ)| < |(-10:ℝ)| ∧ Tps_numeratorD (-10) 4 1 1 = none ∧
      TpsD (-10) 4 1 1 = none := by
  have h : Tps_numeratorD (-10) 4 1 1 = none := by
    have hdiv : divD (-10) 4 = some ((-10) / 4) := by
      unfold divD; rw [if_neg (by norm_num : (4:ℝ) ≠ 0)]
    have harc : arcsinD ((-10) / 4) = none := by
      unfold arcsinD
      rw [if_neg (by rw [not_le]; rw [abs_div]; norm_num)]
    unfold Tps_numeratorD
    simp [hdiv, harc]
  exact ⟨by norm_num, h, by unfold TpsD; rw [h]; rfl⟩

/-- C10: whenever `0 < Ags < π`, the argument `1 - pi^2/Ags^2` of the
square root inside `Tps_numerator` is negative, so the numerator and all
downstream outputs are undefined (NaN) even when `Ags > |Tgs|` holds. -/
theorem ags_below_pi_nan (Tgs Ags Kf Kt Cf Ct L : ℝ) (h0 : 0 < Ags)
    (hπ : Ags < π) :
    1 - π * π / (Ags * Ags) < 0 ∧ Tps_numeratorD Tgs Ags Kf Kt = none ∧
      TpsD Tgs Ags Kf Kt = none ∧ ZalD Tgs Ags Kf Kt Cf Ct L = none := by
  have hA2 : 0 < Ags * Ags := mul_pos h0 h0
  have hlt : Ags * Ags < π * π := by nlinarith [pi_pos]
  have harg : 1 - π * π / (Ags * Ags) < 0 := by
    have h1 : 1 < π * π / (Ags * Ags) := (one_lt_div hA2).mpr hlt
    linarith
  have hnum : Tps_numeratorD Tgs Ags Kf Kt = none := by
    have hdiv : divD Tgs Ags = some (Tgs / Ags) := by
      unfold divD; rw [if_neg h0.ne']
    have hq : divD (π * π) (Ags * Ags) = some (π * π / (Ags * Ags)) := by
      unfold divD; rw [if_neg hA2.ne']
    have hsq : sqrtD (1 - π * π / (Ags * Ags)) = none := by
      unfold sqrtD; rw [if_neg (not_le.mpr harg)]
    unfold Tps_numeratorD
    rcases harc : arcsinD (Tgs / Ags) with _ | a <;> simp [hdiv, harc, hq, hsq]
  exact ⟨harg, hnum, by unfold TpsD; rw [hnum]; rfl,
    by unfold ZalD TpsD; rw [hnum]; rfl⟩

/-- Witness for C10 at `Ags = 3 < π`, `Tgs = -1`. -/
theorem ags_below_pi_nan_witness :
    0 < (3:ℝ) ∧ (3:ℝ) < π ∧ 1 - π * π / ((3:ℝ) * 3) < 0 ∧
      Tps_numeratorD (-1) 3 1 1 = none ∧ ZalD (-1) 3 1 1 1 1 1 = none := by
  obtain ⟨h1, h2, _, h4⟩ := ags_below_pi_nan (-1) 3 1 1 1 1 1 (by norm_num) pi_gt_three
  exact ⟨by norm_num, pi_gt_three, h1, h2, h4⟩

/-- C8 (amended): both vegetation layers are exponential-decay insulation
factors `1 - exp(-H*sqrt(pi/(2*D*season_length)))`; the winter layer
`deta_A1` is applied to the snow-adjusted range `Avg - |Tvg|`, but the
summer layer `deta_A2` is applied to the raw air range `Aa - |Ta|` (not
to the snow-adjusted values). -/
theorem veg_layers (i : Inputs) :
    deta_A1 i = detaA_layer_spec (Avg i - |Tvg i|) i.Hvg1 i.Dvf (tao1 i) ∧
      deta_A2 i = detaA_layer_spec (i.Aa - |i.Ta|) i.Hvg2 i.Dvt (tao2 i) :=
  ⟨deta_A1_eq_layer i, deta_A2_eq_layer i⟩

/-- C8 counterexample: at `c8Inputs` (snow present, summer vegetation
present) the notebook's `deta_A2` differs from the spec's description of a
summer layer applied to the snow-adjusted amplitude and temperature. -/
theorem veg_summer_layer_counterexample :
    deta_A2 c8Inputs ≠
      detaA_layer_spec (Avg c8Inputs - |Tvg c8Inputs|) c8Inputs.Hvg2
        c8Inputs.Dvt (tao2 c8Inputs) := by
  have hTa : c8Inputs.Ta = -1 := rfl
  have hAa : c8Inputs.Aa = 2 := rfl
  have hHsn : c8Inputs.Hsn = 1 := rfl
  have hrho : c8Inputs.rho_sn = 240 := rfl
  have hHvg2 : c8Inputs.Hvg2 = 1 := rfl
  have hDvt : c8Inputs.Dvt = 5.56e-8 := rfl
  have htao_pos : (0:ℝ) < tao := by norm_num [tao]
  have hπ2 : (2:ℝ) < π := by nlinarith [pi_gt_three]
  have h2π : 2 / π < 1 := (div_lt_one pi_pos).mpr hπ2
  have h2π0 : 0 < 2 / π := div_pos two_pos pi_pos
  -- the reflection coefficient is in (-1, 1]
  have hKC : 0 < Ksn c8Inputs.rho_sn * Csn c8Inputs.rho_sn := by
    rw [hrho]; norm_num [Ksn, Csn]
  obtain ⟨hm1, hm2⟩ := mu_bounds c8Inputs hKC
  have hmu0 : (0:ℝ) < 1 + mu c8Inputs := by linarith
  -- the snow damping argument is positive, so the damping is strict
  have hargpos : 0 < snowArg c8Inputs := by
    unfold snowArg; rw [hHsn, hrho]
    have h1 : 0 < π * Csn 240 / (tao * Ksn 240) :=
      div_pos (mul_pos pi_pos (by norm_num [Csn]))
        (mul_pos htao_pos (Ksn_pos 240))
    exact mul_pos (by norm_num) (sqrt_pos.mpr h1)
  have hs_gt : (1 + mu c8Inputs) ^ 2 < s c8Inputs := by
    have h := snowS_strictMono hm1.le hm2 le_rfl hargpos
    rw [snowS_zero] at h
    rw [s_eq_snowS]
    exact h
  have hsqrt_gt : 1 + mu c8Inputs < sqrt (s c8Inputs) := by
    have h1 : sqrt ((1 + mu c8Inputs) ^ 2) < sqrt (s c8Inputs) :=
      sqrt_lt_sqrt (sq_nonneg _) hs_gt
    rwa [sqrt_sq hmu0.le] at h1
  have hspos : 0 < sqrt (s c8Inputs) := lt_trans hmu0 hsqrt_gt
  have hdApos : 0 < deta_A c8Inputs := by
    unfold deta_A; rw [hAa]
    have h1 : (1 + mu c8Inputs) / sqrt (s c8Inputs) < 1 :=
      (div_lt_one hspos).mpr hsqrt_gt
    linarith
  have hdAle : deta_A c8Inputs ≤ 2 := by
    unfold deta_A; rw [hAa]
    have h2 : 0 ≤ (1 + mu c8Inputs) / sqrt (s c8Inputs) :=
      div_nonneg hmu0.le hspos.le
    linarith
  -- season bounds from arcsin(-1/2)
  have hr : c8Inputs.Ta / c8Inputs.Aa = -(1/2) := by rw [hTa, hAa]; norm_num
  have ha_neg : arcsin (-(1/2) : ℝ) < 0 := by
    rw [arcsin_neg]
    have h1 : 0 < arcsin (1/2 : ℝ) := arcsin_pos.mpr (by norm_num)
    linarith
  have ha_gt : -(π/2) < arcsin (-(1/2) : ℝ) := by
    rw [arcsin_neg]
    have h1 : arcsin (1/2 : ℝ) < arcsin 1 :=
      strictMonoOn_arcsin (by constructor <;> norm_num)
        (by constructor <;> norm_num) (by norm_num)
    rw [arcsin_one] at h1
    linarith
  have htao1_pos : 0 < tao1 c8Inputs := by
    unfold tao1; rw [hr]
    have h1 : 1 / π * arcsin (-(1/2) : ℝ) < 0 :=
      mul_neg_of_pos_of_neg (one_div_pos.mpr pi_pos) ha_neg
    exact mul_pos htao_pos (by linarith)
  have htao1_le : tao1 c8Inputs ≤ tao := by
    unfold tao1; rw [hr]
    have h1 : 1 / π * (-(π/2)) ≤ 1 / π * arcsin (-(1/2) : ℝ) :=
      mul_le_mul_of_nonneg_left ha_gt.le (one_div_pos.mpr pi_pos).le
    have h2 : 1 / π * (-(π/2)) = -(1/2) := by
      field_simp
    rw [h2] at h1
    calc tao * (0.5 - 1 / π * arcsin (-(1/2) : ℝ)) ≤ tao * 1 :=
          mul_le_mul_of_nonneg_left (by linarith) htao_pos.le
      _ = tao := mul_one tao
  have htao2_pos : 0 < tao2 c8Inputs := by
    unfold tao2 tao1; rw [hr]
    have h1 : 1 / π * (-(π/2)) < 1 / π * arcsin (-(1/2) : ℝ) :=
      mul_lt_mul_of_pos_left ha_gt (one_div_pos.mpr pi_pos)
    have h2 : 1 / π * (-(π/2)) = -(1/2) := by
      field_simp
    rw [h2] at h1
    rw [show tao - tao * (0.5 - 1 / π * arcsin (-(1/2) : ℝ)) =
      tao * (0.5 + 1 / π * arcsin (-(1/2) : ℝ)) by ring]
    exact mul_pos htao_pos (by linarith)
  -- the snow stage strictly reduces the range the spec would use
  have hdAsn_pos : 0 < deta_Asn c8Inputs := by
    unfold deta_Asn
    exact mul_pos (div_pos (mul_pos hdApos htao1_pos) htao_pos) (by norm_num)
  have hdAsn_le : deta_Asn c8Inputs ≤ 1 := by
    unfold deta_Asn
    rw [show deta_A c8Inputs * tao1 c8Inputs / tao * 0.5 =
      deta_A c8Inputs * tao1 c8Inputs * 0.5 / tao by ring,
      div_le_one htao_pos]
    have h6 : deta_A c8Inputs * tao1 c8Inputs ≤ 2 * tao :=
      mul_le_mul hdAle htao1_le htao1_pos.le (by norm_num)
    linarith
  have hTvg_neg : Tvg c8Inputs < 0 := by
    unfold Tvg deta_Tsn; rw [hTa]
    have h1 : 2 / π * deta_Asn c8Inputs ≤ 2 / π := by
      have h2 := mul_le_mul_of_nonneg_left hdAsn_le h2π0.le
      rwa [mul_one] at h2
    linarith
  have hrange : Avg c8Inputs - |Tvg c8Inputs| < c8Inputs.Aa - |c8Inputs.Ta| := by
    rw [abs_of_neg hTvg_neg, hTa, hAa]
    unfold Avg Tvg deta_Tsn; rw [hTa, hAa]
    have h1 : 2 / π * deta_Asn c8Inputs < 1 * deta_Asn c8Inputs :=
      mul_lt_mul_of_pos_right h2π hdAsn_pos
    have h2 : |(-1 : ℝ)| = 1 := by norm_num
    rw [h2]
    have h3 : 1 * deta_Asn c8Inputs = deta_Asn c8Inputs := one_mul _
    linarith
  -- the summer insulation factor is strictly positive
  have hF : 0 < 1 - exp (-(c8Inputs.Hvg2 *
      sqrt (π / (2 * c8Inputs.Dvt * tao2 c8Inputs)))) := by
    have hden : 0 < 2 * c8Inputs.Dvt * tao2 c8Inputs :=
      mul_pos (mul_pos two_pos (by rw [hDvt]; norm_num)) htao2_pos
    have hsq : 0 < sqrt (π / (2 * c8Inputs.Dvt * tao2 c8Inputs)) :=
      sqrt_pos.mpr (div_pos pi_pos hden)
    have h1 : exp (-(c8Inputs.Hvg2 *
        sqrt (π / (2 * c8Inputs.Dvt * tao2 c8Inputs)))) < 1 := by
      rw [exp_lt_one_iff, hHvg2]
      linarith [hsq]
    linarith
  have hkey : detaA_layer_spec (Avg c8Inputs - |Tvg c8Inputs|) c8Inputs.Hvg2
      c8Inputs.Dvt (tao2 c8Inputs) <
      detaA_layer_spec (c8Inputs.Aa - |c8Inputs.Ta|) c8Inputs.Hvg2
        c8Inputs.Dvt (tao2 c8Inputs) := by
    unfold detaA_layer_spec
    exact mul_lt_mul_of_pos_right hrange hF
  rw [← deta_A2_eq_layer c8Inputs] at hkey
  exact hkey.ne'

/-- C3 (amended): under the spec's positivity hypotheses and
`Ags > |Tgs|`, `Aps > |Tps|`, and additionally `Ags ≥ π` (forced by the
square root `sqrt(1 - pi^2/Ags^2)` in the numerator, see C10) and
`Ags > |Tps|` (forced by the division by `log((Ags+L/2C)/(|Tps|+L/2C))`),
every operation of the solver stage stays in its domain and the returned
active layer thickness is the (finite) real `Zal ≥ 0`. -/
theorem solver_safe (Tgs Ags Kf Kt Cf Ct L : ℝ) (hKf : 0 < Kf)
    (hKt : 0 < Kt) (hCf : 0 < Cf) (hCt : 0 < Ct) (hL : 0 < L)
    (hTgs : |Tgs| < Ags) (hAgs : π ≤ Ags)
    (hTps : |Tps Tgs Ags Kf Kt| < Ags)
    (hAps : |Tps Tgs Ags Kf Kt| < Aps Tgs Ags Kf Kt Cf Ct L) :
    ZalD Tgs Ags Kf Kt Cf Ct L = some (Zal Tgs Ags Kf Kt Cf Ct L) ∧
      0 ≤ Zal Tgs Ags Kf Kt Cf Ct L := by
  have htao_pos : (0:ℝ) < tao := by norm_num [tao]
  have hA0 : 0 < Ags := lt_of_lt_of_le pi_pos hAgs
  have hA2 : 0 < Ags * Ags := mul_pos hA0 hA0
  -- the numerator is defined
  have harc : |Tgs / Ags| ≤ 1 := by
    rw [abs_div, abs_of_pos hA0, div_le_one hA0]
    exact hTgs.le
  have hsqarg : 0 ≤ 1 - π * π / (Ags * Ags) := by
    have h1 : π * π ≤ Ags * Ags := by nlinarith [pi_pos]
    have h2 : π * π / (Ags * Ags) ≤ 1 := (div_le_one hA2).mpr h1
    linarith
  have hnum_eq : Tps_numeratorD Tgs Ags Kf Kt =
      some (Tps_numerator Tgs Ags Kf Kt) := by
    unfold Tps_numeratorD
    simp only [divD_of_ne hA0.ne', Option.bind_eq_bind, Option.some_bind,
      arcsinD_of_le harc, divD_of_ne hA2.ne', sqrtD_of_nonneg hsqarg]
    unfold Tps_numerator
    rfl
  -- the regime selectors agree with the total embedding
  have hKstar_eq : K_starD Tgs Ags Kf Kt = K_star Tgs Ags Kf Kt := by
    unfold K_starD K_star; rw [hnum_eq]
  have hC_eq : CD Tgs Ags Kf Kt Cf Ct = C Tgs Ags Kf Kt Cf Ct := by
    unfold CD C; rw [hnum_eq]
  have hK_eq : KD Tgs Ags Kf Kt = K Tgs Ags Kf Kt := by
    unfold KD K; rw [hnum_eq]
  have hKstar_pos : 0 < K_star Tgs Ags Kf Kt := by
    unfold K_star; split <;> assumption
  have hC_pos : 0 < C Tgs Ags Kf Kt Cf Ct := by
    unfold C; split <;> assumption
  have hK_pos : 0 < K Tgs Ags Kf Kt := by
    unfold K; split <;> assumption
  have hTps_eq : TpsD Tgs Ags Kf Kt = some (Tps Tgs Ags Kf Kt) := by
    unfold TpsD
    rw [hnum_eq]
    simp only [Option.bind_eq_bind, Option.some_bind, hKstar_eq,
      divD_of_ne hKstar_pos.ne']
    unfold Tps
    rfl
  -- the amplitude at the permafrost top is defined
  have hla_pos : 0 < L / (2 * C Tgs Ags Kf Kt Cf Ct) :=
    div_pos hL (by linarith)
  have habs0 : 0 ≤ |Tps Tgs Ags Kf Kt| := abs_nonneg _
  have hC2_ne : 2 * C Tgs Ags Kf Kt Cf Ct ≠ 0 := by positivity
  have hratio_den_pos :
      0 < |Tps Tgs Ags Kf Kt| + L / (2 * C Tgs Ags Kf Kt Cf Ct) := by
    linarith
  have hratio_gt : 1 < (Ags + L / (2 * C Tgs Ags Kf Kt Cf Ct)) /
      (|Tps Tgs Ags Kf Kt| + L / (2 * C Tgs Ags Kf Kt Cf Ct)) :=
    (one_lt_div hratio_den_pos).mpr (by linarith)
  have hlg_pos : 0 < log ((Ags + L / (2 * C Tgs Ags Kf Kt Cf Ct)) /
      (|Tps Tgs Ags Kf Kt| + L / (2 * C Tgs Ags Kf Kt Cf Ct))) :=
    log_pos hratio_gt
  have hAps_eq : ApsD Tgs Ags Kf Kt Cf Ct L =
      some (Aps Tgs Ags Kf Kt Cf Ct L) := by
    unfold ApsD
    rw [hTps_eq]
    simp only [Option.bind_eq_bind, Option.some_bind, hC_eq,
      divD_of_ne hC2_ne, divD_of_ne hratio_den_pos.ne',
      logD_of_pos (lt_trans one_pos hratio_gt), divD_of_ne hlg_pos.ne']
    unfold Aps
    rfl
  have hAps_pos : 0 < Aps Tgs Ags Kf Kt Cf Ct L :=
    lt_of_le_of_lt habs0 hAps
  have hden_pos :
      0 < 2 * Aps Tgs Ags Kf Kt Cf Ct L * C Tgs Ags Kf Kt Cf Ct + L := by
    have := mul_pos (mul_pos (by norm_num : (0:ℝ) < 2) hAps_pos) hC_pos
    linarith
  -- the characteristic depth is defined and nonnegative
  have hq1_pos : 0 < K Tgs Ags Kf Kt * tao * C Tgs Ags Kf Kt Cf Ct / π :=
    div_pos (mul_pos (mul_pos hK_pos htao_pos) hC_pos) pi_pos
  have hZc_eq : ZcD Tgs Ags Kf Kt Cf Ct L =
      some (Zc Tgs Ags Kf Kt Cf Ct L) := by
    unfold ZcD
    rw [hTps_eq]
    simp only [Option.bind_eq_bind, Option.some_bind, hAps_eq, hK_eq, hC_eq,
      divD_of_ne pi_pos.ne', sqrtD_of_nonneg hq1_pos.le,
      divD_of_ne hden_pos.ne']
    unfold Zc
    rfl
  have hZc_nonneg : 0 ≤ Zc Tgs Ags Kf Kt Cf Ct L := by
    unfold Zc
    apply div_nonneg _ hden_pos.le
    exact mul_nonneg (mul_nonneg (by norm_num) (by linarith)) (sqrt_nonneg _)
  -- the active layer thickness is defined and nonnegative
  have hq2_pos : 0 < K Tgs Ags Kf Kt * tao / (π * C Tgs Ags Kf Kt Cf Ct) :=
    div_pos (mul_pos hK_pos htao_pos) (mul_pos pi_pos hC_pos)
  have hroot2_pos :
      0 < sqrt (K Tgs Ags Kf Kt * tao / (π * C Tgs Ags Kf Kt Cf Ct)) :=
    sqrt_pos.mpr hq2_pos
  have hcden_pos : 0 < 2 * Ags * C Tgs Ags Kf Kt Cf Ct *
        Zc Tgs Ags Kf Kt Cf Ct L + L * Zc Tgs Ags Kf Kt Cf Ct L +
      (2 * Aps Tgs Ags Kf Kt Cf Ct L * C Tgs Ags Kf Kt Cf Ct + L) *
        sqrt (K Tgs Ags Kf Kt * tao / (π * C Tgs Ags Kf Kt Cf Ct)) := by
    have h1 : 0 ≤ 2 * Ags * C Tgs Ags Kf Kt Cf Ct *
        Zc Tgs Ags Kf Kt Cf Ct L :=
      mul_nonneg (mul_nonneg (mul_nonneg (by norm_num) hA0.le) hC_pos.le)
        hZc_nonneg
    have h2 : 0 ≤ L * Zc Tgs Ags Kf Kt Cf Ct L :=
      mul_nonneg hL.le hZc_nonneg
    have h3 := mul_pos hden_pos hroot2_pos
    linarith
  have hZal_eq : ZalD Tgs Ags Kf Kt Cf Ct L =
      some (Zal Tgs Ags Kf Kt Cf Ct L) := by
    unfold ZalD
    rw [hTps_eq]
    simp only [Option.bind_eq_bind, Option.some_bind, hAps_eq, hZc_eq, hK_eq,
      hC_eq, divD_of_ne pi_pos.ne', sqrtD_of_nonneg hq1_pos.le,
      sqrtD_of_nonneg hq2_pos.le,
      divD_of_ne (mul_pos pi_pos hC_pos).ne', divD_of_ne hcden_pos.ne',
      divD_of_ne hden_pos.ne']
    unfold Zal
    rfl
  refine ⟨hZal_eq, ?_⟩
  unfold Zal
  apply div_nonneg _ hden_pos.le
  have h1 : 0 ≤ 2 * (Ags - |Tps Tgs Ags Kf Kt|) *
      sqrt (K Tgs Ags Kf Kt * tao * C Tgs Ags Kf Kt Cf Ct / π) :=
    mul_nonneg (mul_nonneg (by norm_num) (by linarith)) (sqrt_nonneg _)
  have h2 : 0 ≤ (2 * Aps Tgs Ags Kf Kt Cf Ct L * C Tgs Ags Kf Kt Cf Ct *
        Zc Tgs Ags Kf Kt Cf Ct L + L * Zc Tgs Ags Kf Kt Cf Ct L) * L *
      sqrt (K Tgs Ags Kf Kt * tao / (π * C Tgs Ags Kf Kt Cf Ct)) := by
    have h3 : 0 ≤ 2 * Aps Tgs Ags Kf Kt Cf Ct L * C Tgs Ags Kf Kt Cf Ct *
        Zc Tgs Ags Kf Kt Cf Ct L :=
      mul_nonneg (mul_nonneg (mul_nonneg (by norm_num) hAps_pos.le) hC_pos.le)
        hZc_nonneg
    have h4 : 0 ≤ L * Zc Tgs Ags Kf Kt Cf Ct L :=
      mul_nonneg hL.le hZc_nonneg
    apply mul_nonneg (mul_nonneg (by linarith) hL.le) (sqrt_nonneg _)
  have h5 := div_nonneg h2 hcden_pos.le
  linarith

/-- Witness for C3's amended theorem at `Tgs = 0`, `Ags = 4`,
`Kf = Kt = Cf = Ct = 1`, `L = 2`. -/
theorem solver_safe_witness :
    |(0:ℝ)| < 4 ∧ π ≤ 4 ∧ |Tps 0 4 1 1| < 4 ∧
      |Tps 0 4 1 1| < Aps 0 4 1 1 1 1 2 ∧
      ZalD 0 4 1 1 1 1 2 = some (Zal 0 4 1 1 1 1 2) ∧
      0 ≤ Zal 0 4 1 1 1 1 2 := by
  have hnum0 : Tps_numerator 0 4 1 1 = 0 := by
    unfold Tps_numerator; ring
  have hTps0 : Tps 0 4 1 1 = 0 := by
    unfold Tps; rw [hnum0]; simp
  have hC1 : C 0 4 1 1 1 1 = 1 := by
    unfold C; simp
  have hAps_val : Aps 0 4 1 1 1 1 2 = 4 / log 5 - 1 := by
    unfold Aps; rw [hTps0, hC1]; norm_num
  have hlog5_pos : 0 < log 5 := log_pos (by norm_num)
  have hlog5_lt : log 5 < 4 := by
    have := log_lt_sub_one_of_pos (by norm_num : (0:ℝ) < 5) (by norm_num)
    linarith
  have hAps_pos : 0 < Aps 0 4 1 1 1 1 2 := by
    rw [hAps_val]
    have : 1 < 4 / log 5 := (one_lt_div hlog5_pos).mpr (by linarith)
    linarith
  have h1 : |Tps 0 4 1 1| < 4 := by rw [hTps0]; norm_num
  have h2 : |Tps 0 4 1 1| < Aps 0 4 1 1 1 1 2 := by
    rw [hTps0]; simpa using hAps_pos
  obtain ⟨he, hn⟩ := solver_safe 0 4 1 1 1 1 2 (by norm_num) (by norm_num)
    (by norm_num) (by norm_num) (by norm_num) (by norm_num)
    (le_of_lt pi_lt_four) h1 h2
  exact ⟨by norm_num, pi_lt_four.le, h1, h2, he, hn⟩

/-- C3 counterexample: at `Tgs = 0`, `Ags = 1`, `Kf = Kt = Cf = Ct = 1`,
`L = 2` the claim's hypotheses hold (`Ags > |Tgs|`, capacities and
conductivities positive, `Aps > |Tps|`) yet the solver is undefined:
`sqrt(1 - pi^2/Ags^2)` receives a negative argument and `Zal` is NaN. -/
theorem solver_safe_counterexample :
    |(0:ℝ)| < 1 ∧ (0:ℝ) < 1 ∧
      |Tps 0 1 1 1| < Aps 0 1 1 1 1 1 2 ∧ ZalD 0 1 1 1 1 1 2 = none := by
  have hnum0 : Tps_numerator 0 1 1 1 = 0 := by
    unfold Tps_numerator; ring
  have hTps0 : Tps 0 1 1 1 = 0 := by
    unfold Tps; rw [hnum0]; simp
  have hC1 : C 0 1 1 1 1 1 = 1 := by
    unfold C; simp
  have hAps_val : Aps 0 1 1 1 1 1 2 = 1 / log 2 - 1 := by
    unfold Aps; rw [hTps0, hC1]; norm_num
  have hlog2_pos : 0 < log 2 := log_pos one_lt_two
  have hlog2_lt : log 2 < 1 := by
    have := log_lt_sub_one_of_pos (by norm_num : (0:ℝ) < 2) (by norm_num)
    linarith
  have hAps_pos : 0 < Aps 0 1 1 1 1 1 2 := by
    rw [hAps_val]
    have : 1 < 1 / log 2 := (one_lt_div hlog2_pos).mpr (by linarith)
    linarith
  have hnumD : Tps_numeratorD 0 1 1 1 = none := by
    have hsqneg : ¬(0:ℝ) ≤ 1 - π * π / (1 * 1) := by
      rw [not_le]
      nlinarith [pi_gt_three]
    have hsq : sqrtD (1 - π * π / ((1:ℝ) * 1)) = none := by
      unfold sqrtD; rw [if_neg hsqneg]
    unfold Tps_numeratorD
    simp only [divD_of_ne (by norm_num : (1:ℝ) ≠ 0),
      divD_of_ne (by norm_num : (1:ℝ) * 1 ≠ 0), Option.bind_eq_bind,
      Option.some_bind,
      arcsinD_of_le (by norm_num : |(0:ℝ)/1| ≤ 1), hsq, Option.none_bind]
  refine ⟨by norm_num, by norm_num, ?_, ?_⟩
  · rw [hTps0]; simpa using hAps_pos
  · unfold ZalD TpsD; rw [hnumD]; rfl

set_option maxHeartbeats 1600000 in
/-- C7: monotonicity in snow thickness.  For two inputs agreeing on every
field except the snow thickness (`i1.Hsn < i2.Hsn`, both admissible), with
positive amplitude, `|Ta| < Aa`, positive snow density and nonnegative
winter vegetation height, the thicker snow strictly increases the
ground-surface temperature `Tgs` and strictly decreases the ground-surface
amplitude `Ags`. -/
theorem snow_thickness_monotone (i1 i2 : Inputs)
    (hTa_eq : i2.Ta = i1.Ta) (hAa_eq : i2.Aa = i1.Aa)
    (hrho_eq : i2.rho_sn = i1.rho_sn) (hW_eq : i2.W_vol = i1.W_vol)
    (hH1_eq : i2.Hvg1 = i1.Hvg1) (hH2_eq : i2.Hvg2 = i1.Hvg2)
    (hDf_eq : i2.Dvf = i1.Dvf) (hDt_eq : i2.Dvt = i1.Dvt)
    (hsand_eq : i2.percent_sand = i1.percent_sand)
    (hsilt_eq : i2.percent_silt = i1.percent_silt)
    (hclay_eq : i2.percent_clay = i1.percent_clay)
    (hAa : 0 < i1.Aa) (hTaAa : |i1.Ta| < i1.Aa) (hrho : 0 < i1.rho_sn)
    (hHvg1 : 0 ≤ i1.Hvg1) (hHsn1 : 0 ≤ i1.Hsn) (hHsn : i1.Hsn < i2.Hsn) :
    Tgs i1 < Tgs i2 ∧ Ags i2 < Ags i1 := by
  have htao_pos : (0:ℝ) < tao := by norm_num [tao]
  have hπ0 := pi_pos
  have hπ3 := pi_gt_three
  have hg0 : (0:ℝ) < 2 / π := by positivity
  have hg1 : 2 / π < 1 := by rw [div_lt_one hπ0]; linarith only [hπ3]
  have hCsn_pos : 0 < Csn i1.rho_sn := by
    unfold Csn; exact mul_pos hrho (by norm_num)
  have hKC : 0 < Ksn i1.rho_sn * Csn i1.rho_sn :=
    mul_pos (Ksn_pos _) hCsn_pos
  obtain ⟨hm1, hm2⟩ := mu_bounds i1 hKC
  have hmu0 : (0:ℝ) < 1 + mu i1 := by linarith only [hm1]
  have hmu_eq : mu i2 = mu i1 := by
    unfold mu Kf Cef alpha beta Cf L Heat_Capacity Bulk_Density
    rw [hTa_eq, hAa_eq, hrho_eq, hW_eq, hsand_eq, hsilt_eq, hclay_eq]
  have htao1_eq : tao1 i2 = tao1 i1 := by
    unfold tao1; rw [hTa_eq, hAa_eq]
  have htao2_eq : tao2 i2 = tao2 i1 := by
    unfold tao2; rw [htao1_eq]
  have hdA2_eq : deta_A2 i2 = deta_A2 i1 := by
    unfold deta_A2; rw [hTa_eq, hAa_eq, hH2_eq, hDt_eq, htao2_eq]
  -- the snow damping argument grows with thickness
  have hX_pos : 0 < sqrt (π * Csn i1.rho_sn / (tao * Ksn i1.rho_sn)) :=
    sqrt_pos.mpr (div_pos (mul_pos hπ0 hCsn_pos)
      (mul_pos htao_pos (Ksn_pos _)))
  have hu1_nonneg : 0 ≤ snowArg i1 := by
    unfold snowArg
    exact mul_nonneg (by linarith only [hHsn1]) hX_pos.le
  have hu_lt : snowArg i1 < snowArg i2 := by
    unfold snowArg
    rw [hrho_eq]
    exact mul_lt_mul_of_pos_right (by linarith only [hHsn]) hX_pos
  have hs_lt : s i1 < s i2 := by
    rw [s_eq_snowS i1, s_eq_snowS i2, hmu_eq]
    exact snowS_strictMono hm1.le hm2 hu1_nonneg hu_lt
  have hs1_pos : 0 < s i1 := by
    rw [s_eq_snowS i1]
    exact snowS_pos hm1 hm2 hu1_nonneg
  have hsq1_pos : 0 < sqrt (s i1) := sqrt_pos.mpr hs1_pos
  have hsq_lt : sqrt (s i1) < sqrt (s i2) := sqrt_lt_sqrt hs1_pos.le hs_lt
  have hsq2_pos : 0 < sqrt (s i2) := lt_trans hsq1_pos hsq_lt
  -- hence the snow amplitude reduction grows, staying below Aa
  have hdiv_lt : (1 + mu i1) / sqrt (s i2) < (1 + mu i1) / sqrt (s i1) :=
    div_lt_div_of_pos_left hmu0 hsq1_pos hsq_lt
  have hdiv2_pos : 0 < (1 + mu i1) / sqrt (s i2) := div_pos hmu0 hsq2_pos
  have hdA_lt : deta_A i1 < deta_A i2 := by
    unfold deta_A
    rw [hAa_eq, hmu_eq]
    exact mul_lt_mul_of_pos_left (by linarith only [hdiv_lt]) hAa
  have hdA2_lt_Aa : deta_A i2 < i1.Aa := by
    unfold deta_A
    rw [hAa_eq, hmu_eq]
    calc i1.Aa * (1 - (1 + mu i1) / sqrt (s i2)) =
        i1.Aa - i1.Aa * ((1 + mu i1) / sqrt (s i2)) := by ring
      _ < i1.Aa := by linarith only [mul_pos hAa hdiv2_pos]
  -- season fraction bounds
  have hr_abs : |i1.Ta / i1.Aa| < 1 := by
    rw [abs_div, abs_of_pos hAa, div_lt_one hAa]
    exact hTaAa
  obtain ⟨hr1, hr2⟩ := abs_lt.mp hr_abs
  have harc_lt : arcsin (i1.Ta / i1.Aa) < π / 2 := by
    have h1 : arcsin (i1.Ta / i1.Aa) < arcsin 1 :=
      strictMonoOn_arcsin ⟨hr1.le, hr2.le⟩ ⟨by norm_num, le_rfl⟩ hr2
    rwa [arcsin_one] at h1
  have harc_gt : -(π / 2) < arcsin (i1.Ta / i1.Aa) := by
    have h1 : arcsin (-1 : ℝ) < arcsin (i1.Ta / i1.Aa) :=
      strictMonoOn_arcsin ⟨le_rfl, by norm_num⟩ ⟨hr1.le, hr2.le⟩ hr1
    rwa [arcsin_neg_one] at h1
  have hinvπ : (0:ℝ) < 1 / π := by positivity
  have hhalf : 1 / π * (π / 2) = 1 / 2 := by field_simp
  have htao1_pos : 0 < tao1 i1 := by
    unfold tao1
    apply mul_pos htao_pos
    have h1 : 1 / π * arcsin (i1.Ta / i1.Aa) < 1 / π * (π / 2) :=
      mul_lt_mul_of_pos_left harc_lt hinvπ
    rw [hhalf] at h1
    linarith only [h1]
  have htao1_lt : tao1 i1 < tao := by
    unfold tao1
    have h1 : 1 / π * (-(π / 2)) < 1 / π * arcsin (i1.Ta / i1.Aa) :=
      mul_lt_mul_of_pos_left harc_gt hinvπ
    have h2 : 1 / π * (-(π / 2)) = -(1 / 2) := by field_simp
    rw [h2] at h1
    calc tao * (0.5 - 1 / π * arcsin (i1.Ta / i1.Aa)) < tao * 1 :=
          mul_lt_mul_of_pos_left (by linarith only [h1]) htao_pos
      _ = tao := mul_one tao
  have ht0 : 0 < tao1 i1 / tao := div_pos htao1_pos htao_pos
  have ht1 : tao1 i1 / tao < 1 := (div_lt_one htao_pos).mpr htao1_lt
  have hc_pos : 0 < tao1 i1 / tao * 0.5 := mul_pos ht0 (by norm_num)
  -- the snow amplitude reductions compare, and stay below Aa*t/2
  have hd_lt : deta_Asn i1 < deta_Asn i2 := by
    unfold deta_Asn
    rw [htao1_eq]
    calc deta_A i1 * tao1 i1 / tao * 0.5
        = deta_A i1 * (tao1 i1 / tao * 0.5) := by ring
      _ < deta_A i2 * (tao1 i1 / tao * 0.5) :=
          mul_lt_mul_of_pos_right hdA_lt hc_pos
      _ = deta_A i2 * tao1 i1 / tao * 0.5 := by ring
  have hd2_le : deta_Asn i2 ≤ i1.Aa * (tao1 i1 / tao) / 2 := by
    unfold deta_Asn
    rw [htao1_eq]
    calc deta_A i2 * tao1 i1 / tao * 0.5
        = deta_A i2 * (tao1 i1 / tao * 0.5) := by ring
      _ ≤ i1.Aa * (tao1 i1 / tao * 0.5) :=
          (mul_lt_mul_of_pos_right hdA2_lt_Aa hc_pos).le
      _ = i1.Aa * (tao1 i1 / tao) / 2 := by ring
  -- the defining identity of the season fraction
  have hratio : tao1 i1 / tao = 0.5 - 1 / π * arcsin (i1.Ta / i1.Aa) := by
    unfold tao1
    rw [mul_div_cancel_left₀ _ htao_pos.ne']
  have hTa_cos : i1.Ta = i1.Aa * cos (π * (tao1 i1 / tao)) := by
    rw [hratio]
    have h1 : π * (0.5 - 1 / π * arcsin (i1.Ta / i1.Aa)) =
        π / 2 - arcsin (i1.Ta / i1.Aa) := by
      field_simp
      ring
    rw [h1, cos_pi_div_two_sub, sin_arcsin hr1.le hr2.le, mul_comm,
      div_mul_cancel₀ _ hAa.ne']
  -- winter insulation factor bounds
  have hF0 : 0 ≤ 1 - exp (-1 * i1.Hvg1 * sqrt (π / (i1.Dvf * 2 * tao1 i1))) := by
    have h1 : -1 * i1.Hvg1 * sqrt (π / (i1.Dvf * 2 * tao1 i1)) ≤ 0 := by
      have h0 := mul_nonneg hHvg1 (sqrt_nonneg (π / (i1.Dvf * 2 * tao1 i1)))
      linarith only [h0]
    have h2 : exp (-1 * i1.Hvg1 * sqrt (π / (i1.Dvf * 2 * tao1 i1))) ≤ 1 :=
      exp_le_one_iff.mpr h1
    linarith only [h2]
  have hF1 : 1 - exp (-1 * i1.Hvg1 * sqrt (π / (i1.Dvf * 2 * tao1 i1))) < 1 := by
    have h0 := exp_pos (-1 * i1.Hvg1 * sqrt (π / (i1.Dvf * 2 * tao1 i1)))
    linarith only [h0]
  -- the core monotonicity argument
  obtain ⟨hG, hH⟩ := @insulation_mono_core i1.Ta i1.Aa (tao1 i1 / tao)
    (1 - exp (-1 * i1.Hvg1 * sqrt (π / (i1.Dvf * 2 * tao1 i1))))
    (2 / π) (deta_Asn i1) (deta_Asn i2)
    hAa ht0 ht1 hF0 hF1 hg0 hg1 hd_lt hd2_le
    (fun h => deep_insulation_neg hAa ht1 hTa_cos h)
  -- rewrite the pipeline boundary values into the core's shape
  have e1 : Tgs i1 = i1.Ta + (2 / π * deta_Asn i1 +
      2 / π * (tao1 i1 / tao *
        (1 - exp (-1 * i1.Hvg1 * sqrt (π / (i1.Dvf * 2 * tao1 i1)))) *
        (i1.Aa - deta_Asn i1 - |i1.Ta + 2 / π * deta_Asn i1|))) -
      2 / π * (deta_A2 i1 * tao2 i1 / tao) := by
    unfold Tgs deta_Tv deta_A1 Avg Tvg deta_Tsn
    ring
  have e2 : Tgs i2 = i1.Ta + (2 / π * deta_Asn i2 +
      2 / π * (tao1 i1 / tao *
        (1 - exp (-1 * i1.Hvg1 * sqrt (π / (i1.Dvf * 2 * tao1 i1)))) *
        (i1.Aa - deta_Asn i2 - |i1.Ta + 2 / π * deta_Asn i2|))) -
      2 / π * (deta_A2 i1 * tao2 i1 / tao) := by
    unfold Tgs deta_Tv deta_A1 Avg Tvg deta_Tsn
    rw [hTa_eq, hAa_eq, hH1_eq, hDf_eq, htao1_eq, htao2_eq, hdA2_eq]
    ring
  have a1 : Ags i1 = i1.Aa + (-(deta_Asn i1) - tao1 i1 / tao *
      (1 - exp (-1 * i1.Hvg1 * sqrt (π / (i1.Dvf * 2 * tao1 i1)))) *
      (i1.Aa - deta_Asn i1 - |i1.Ta + 2 / π * deta_Asn i1|)) -
      deta_A2 i1 * tao2 i1 / tao := by
    unfold Ags deta_Av deta_A1 Avg Tvg deta_Tsn
    ring
  have a2 : Ags i2 = i1.Aa + (-(deta_Asn i2) - tao1 i1 / tao *
      (1 - exp (-1 * i1.Hvg1 * sqrt (π / (i1.Dvf * 2 * tao1 i1)))) *
      (i1.Aa - deta_Asn i2 - |i1.Ta + 2 / π * deta_Asn i2|)) -
      deta_A2 i1 * tao2 i1 / tao := by
    unfold Ags deta_Av deta_A1 Avg Tvg deta_Tsn
    rw [hTa_eq, hAa_eq, hH1_eq, hDf_eq, htao1_eq, htao2_eq, hdA2_eq]
    ring
  constructor
  · rw [e1, e2]
    linarith only [hG]
  · rw [a1, a2]
    linarith only [hH]

/-- Witness for C7: the reference climate, with snow thickness increased
from 0 to the reference 0.28. -/
theorem snow_thickness_monotone_witness :
    0 < refInputs.Aa ∧ |refInputs.Ta| < refInputs.Aa ∧
      0 < refInputs.rho_sn ∧ 0 ≤ refInputs.Hvg1 ∧
      0 ≤ noInsulationInputs.Hsn ∧ noInsulationInputs.Hsn < refInputs.Hsn ∧
      Tgs noInsulationInputs < Tgs refInputs ∧
      Ags refInputs < Ags noInsulationInputs := by
  have h := snow_thickness_monotone noInsulationInputs refInputs
    rfl rfl rfl rfl rfl rfl rfl rfl rfl rfl rfl
    (by norm_num [noInsulationInputs])
    (by norm_num [noInsulationInputs, abs_lt])
    (by norm_num [noInsulationInputs]) (by norm_num [noInsulationInputs])
    (by norm_num [noInsulationInputs])
    (by norm_num [noInsulationInputs, refInputs])
  exact ⟨by norm_num [refInputs], by norm_num [refInputs, abs_lt],
    by norm_num [refInputs], by norm_num [refInputs],
    by norm_num [noInsulationInputs],
    by norm_num [noInsulationInputs, refInputs], h.1, h.2⟩

/-! ### Certified numeric evaluation of the reference scenario (C2)

The chain below encloses every pipeline quantity at `refInputs` in
rational bounds, using only the Taylor enclosures and monotonicity
helpers from the Helpers section.  All decimal endpoints were checked
against exact rational arithmetic. -/

/-- The annual period constant, evaluated. -/
theorem c2_tao_val : tao = (31536000:ℝ) := by norm_num [tao]

/-- Latent heat at the reference inputs, evaluated. -/
theorem c2_L_val : L refInputs = (137350000:ℝ) := by norm_num [L, refInputs]

/-- Weighted geometric mean with weights `0.10/0.60/0.30` as a tenth root. -/
theorem rpow_tenth_prod {a b c : ℝ} (ha : 0 ≤ a) (hb : 0 ≤ b) (hc : 0 ≤ c) :
    a ^ (0.10:ℝ) * b ^ (0.60:ℝ) * c ^ (0.30:ℝ) =
      (a * b^(6:ℕ) * c^(3:ℕ)) ^ ((1:ℝ)/10) := by
  rw [show (0.10:ℝ) = ((1:ℝ)/10) by norm_num,
      show (0.60:ℝ) = ((6:ℕ):ℝ) * ((1:ℝ)/10) by norm_num,
      show (0.30:ℝ) = ((3:ℕ):ℝ) * ((1:ℝ)/10) by norm_num,
      Real.rpow_mul hb, Real.rpow_mul hc,
      Real.rpow_natCast, Real.rpow_natCast,
      ← Real.mul_rpow ha (pow_nonneg hb 6),
      ← Real.mul_rpow (mul_nonneg ha (pow_nonneg hb 6)) (pow_nonneg hc 3)]

/-- Weighted geometric mean with weights `0.30/0.10/0.60` as a tenth root. -/
theorem rpow_tenth_prod2 {a b c : ℝ} (ha : 0 ≤ a) (hb : 0 ≤ b) (hc : 0 ≤ c) :
    a ^ (0.30:ℝ) * b ^ (0.10:ℝ) * c ^ (0.60:ℝ) =
      (a^(3:ℕ) * b * c^(6:ℕ)) ^ ((1:ℝ)/10) := by
  rw [show (0.30:ℝ) = ((3:ℕ):ℝ) * ((1:ℝ)/10) by norm_num,
      show (0.10:ℝ) = ((1:ℝ)/10) by norm_num,
      show (0.60:ℝ) = ((6:ℕ):ℝ) * ((1:ℝ)/10) by norm_num,
      Real.rpow_mul ha, Real.rpow_mul hc,
      Real.rpow_natCast, Real.rpow_natCast,
      ← Real.mul_rpow (pow_nonneg ha 3) hb,
      ← Real.mul_rpow (mul_nonneg (pow_nonneg ha 3) hb) (pow_nonneg hc 6)]

/-- The soil heat-capacity/bulk-density product is a single tenth root. -/
theorem c2_HCBD_eq : Heat_Capacity refInputs * Bulk_Density refInputs =
    ((750656265985938611307732469200000000000000000000000000000000:ℝ)) ^ ((1:ℝ)/10) := by
  have h1 : Heat_Capacity refInputs * Bulk_Density refInputs =
      ((900:ℝ) ^ (0.10:ℝ) * (690:ℝ) ^ (0.60:ℝ) * (730:ℝ) ^ (0.30:ℝ)) *
        ((1500:ℝ) ^ (0.10:ℝ) * (1300:ℝ) ^ (0.60:ℝ) * (1400:ℝ) ^ (0.30:ℝ)) := rfl
  rw [h1, rpow_tenth_prod (by norm_num) (by norm_num) (by norm_num),
      rpow_tenth_prod (by norm_num) (by norm_num) (by norm_num),
      ← Real.mul_rpow (by positivity) (by positivity)]
  congr 1
  norm_num

/-- Enclosure of the soil volumetric heat-capacity factor at the reference inputs. -/
theorem c2_HCBD_bnd :
    (971726.6451:ℝ) ≤ Heat_Capacity refInputs * Bulk_Density refInputs ∧
      Heat_Capacity refInputs * Bulk_Density refInputs ≤ (971726.6452:ℝ) := by
  rw [c2_HCBD_eq]
  exact ⟨le_tenth_root (by norm_num) (by norm_num),
    tenth_root_le (by norm_num) (by norm_num) (by norm_num)⟩

/-- Thawed conductivity at the reference inputs as a tenth root. -/
theorem c2_Kt_eq : Kt refInputs = ((1.475^(3:ℕ) * 1.3 * 1.6^(6:ℕ) : ℝ)) ^ ((1:ℝ)/10) := by
  have h1 : Kt refInputs =
      ((1.05 + 1.90)/2 : ℝ) ^ (0.30:ℝ) * ((0.90 + 1.70)/2 : ℝ) ^ (0.10:ℝ) *
        ((1.05 + 2.15)/2 : ℝ) ^ (0.60:ℝ) := rfl
  rw [h1, show ((1.05 + 1.90)/2 : ℝ) = (1.475:ℝ) by norm_num,
      show ((0.90 + 1.70)/2 : ℝ) = (1.3:ℝ) by norm_num,
      show ((1.05 + 2.15)/2 : ℝ) = (1.6:ℝ) by norm_num,
      rpow_tenth_prod2 (by norm_num) (by norm_num) (by norm_num)]

/-- Enclosure of the thawed conductivity at the reference inputs. -/
theorem c2_Kt_bnd :
    (1.529339588:ℝ) ≤ Kt refInputs ∧
      Kt refInputs ≤ (1.529339589:ℝ) := by
  rw [c2_Kt_eq]
  exact ⟨le_tenth_root (by norm_num) (by norm_num),
    tenth_root_le (by norm_num) (by norm_num) (by norm_num)⟩

/-- Frozen conductivity at the reference inputs as a tenth root. -/
theorem c2_Kf_eq : Kf refInputs = ((1.825^(3:ℕ) * 1.575 * 1.95^(6:ℕ) : ℝ)) ^ ((1:ℝ)/10) := by
  have h1 : Kf refInputs =
      ((1.25 + 2.40)/2 : ℝ) ^ (0.30:ℝ) * ((1.15 + 2.00)/2 : ℝ) ^ (0.10:ℝ) *
        ((1.25 + 2.65)/2 : ℝ) ^ (0.60:ℝ) := rfl
  rw [h1, show ((1.25 + 2.40)/2 : ℝ) = (1.825:ℝ) by norm_num,
      show ((1.15 + 2.00)/2 : ℝ) = (1.575:ℝ) by norm_num,
      show ((1.25 + 2.65)/2 : ℝ) = (1.95:ℝ) by norm_num,
      rpow_tenth_prod2 (by norm_num) (by norm_num) (by norm_num)]

/-- Enclosure of the frozen conductivity at the reference inputs. -/
theorem c2_Kf_bnd :
    (1.871232204:ℝ) ≤ Kf refInputs ∧
      Kf refInputs ≤ (1.871232205:ℝ) := by
  rw [c2_Kf_eq]
  exact ⟨le_tenth_root (by norm_num) (by norm_num),
    tenth_root_le (by norm_num) (by norm_num) (by norm_num)⟩

/-- Enclosure of the thawed volumetric heat capacity at the reference inputs. -/
theorem c2_Ct_bnd :
    (973444.5451:ℝ) ≤ Ct refInputs ∧
      Ct refInputs ≤ (973444.5452:ℝ) := by
  have h := c2_HCBD_bnd
  unfold Ct
  rw [show refInputs.W_vol = (0.41:ℝ) from rfl]
  constructor <;> linarith [h.1, h.2]

/-- Enclosure of the frozen volumetric heat capacity at the reference inputs. -/
theorem c2_Cf_bnd :
    (972556.8951:ℝ) ≤ Cf refInputs ∧
      Cf refInputs ≤ (972556.8952:ℝ) := by
  have h := c2_HCBD_bnd
  unfold Cf
  rw [show refInputs.W_vol = (0.41:ℝ) from rfl]
  constructor <;> linarith [h.1, h.2]

/-- Enclosure of the reciprocal of pi. -/
theorem c2_piinv_bnd :
    (0.318309851:ℝ) ≤ 1/π ∧
      1/π ≤ (0.318309953:ℝ) := by
  constructor
  · rw [le_div_iff₀ pi_pos]
    nlinarith only [pi_lt_d6]
  · rw [div_le_iff₀ pi_pos]
    nlinarith only [pi_gt_d6]

/-- Certified enclosure of `sin 0.603772218` by three triple-angle steps. -/
theorem c2_sin_a1 : (0.5677515039704:ℝ) ≤ sin (0.603772218:ℝ) ∧ sin (0.603772218:ℝ) ≤ (0.5677520830602:ℝ) := by
  have s0 := sin_base (show (0:ℝ) ≤ 0.022361934 by norm_num) (by norm_num)
  have s1 : (0.0223600572726:ℝ) ≤ sin (0.022361934:ℝ) ∧ sin (0.022361934:ℝ) ≤ (0.0223600833202:ℝ) :=
    ⟨le_trans (by norm_num) s0.1, le_trans s0.2 (by norm_num)⟩
  have t1 := sin_triple_step s1.1 s1.2 (by norm_num) (by norm_num)
  rw [show (3:ℝ) * 0.022361934 = 0.067085802 by norm_num] at t1
  have s2 : (0.0670354541931:ℝ) ≤ sin (0.067085802:ℝ) ∧ sin (0.067085802:ℝ) ≤ (0.0670355321797:ℝ) :=
    ⟨le_trans (by norm_num) t1.1, le_trans t1.2 (by norm_num)⟩
  have t2 := sin_triple_step s2.1 s2.2 (by norm_num) (by norm_num)
  rw [show (3:ℝ) * 0.067085802 = 0.201257406 by norm_num] at t2
  have s3 : (0.199901399722:ℝ) ≤ sin (0.201257406:ℝ) ∧ sin (0.201257406:ℝ) ≤ (0.1999016294764:ℝ) :=
    ⟨le_trans (by norm_num) t2.1, le_trans t2.2 (by norm_num)⟩
  have t3 := sin_triple_step s3.1 s3.2 (by norm_num) (by norm_num)
  rw [show (3:ℝ) * 0.201257406 = 0.603772218 by norm_num] at t3
  exact ⟨le_trans (by norm_num) t3.1, le_trans t3.2 (by norm_num)⟩

/-- Certified enclosure of `sin 0.603772947` by three triple-angle steps. -/
theorem c2_sin_a2 : (0.5677521040823:ℝ) ≤ sin (0.603772947:ℝ) ∧ sin (0.603772947:ℝ) ≤ (0.5677526831764:ℝ) := by
  have s0 := sin_base (show (0:ℝ) ≤ 0.022361961 by norm_num) (by norm_num)
  have s1 : (0.0223600842658:ℝ) ≤ sin (0.022361961:ℝ) ∧ sin (0.022361961:ℝ) ≤ (0.0223601103136:ℝ) :=
    ⟨le_trans (by norm_num) s0.1, le_trans s0.2 (by norm_num)⟩
  have t1 := sin_triple_step s1.1 s1.2 (by norm_num) (by norm_num)
  rw [show (3:ℝ) * 0.022361961 = 0.067085883 by norm_num] at t1
  have s2 : (0.0670355350108:ℝ) ≤ sin (0.067085883:ℝ) ∧ sin (0.067085883:ℝ) ≤ (0.067035612998:ℝ) :=
    ⟨le_trans (by norm_num) t1.1, le_trans t1.2 (by norm_num)⟩
  have t2 := sin_triple_step s2.1 s2.2 (by norm_num) (by norm_num)
  rw [show (3:ℝ) * 0.067085883 = 0.201257649 by norm_num] at t2
  have s3 : (0.199901637817:ℝ) ≤ sin (0.201257649:ℝ) ∧ sin (0.201257649:ℝ) ≤ (0.1999018675732:ℝ) :=
    ⟨le_trans (by norm_num) t2.1, le_trans t2.2 (by norm_num)⟩
  have t3 := sin_triple_step s3.1 s3.2 (by norm_num) (by norm_num)
  rw [show (3:ℝ) * 0.201257649 = 0.603772947 by norm_num] at t3
  exact ⟨le_trans (by norm_num) t3.1, le_trans t3.2 (by norm_num)⟩

/-- Enclosure of `arcsin (Ta/Aa)` magnitude at the reference inputs. -/
theorem c2_arcsin1_bnd :
    (0.603772218:ℝ) ≤ arcsin ((1081:ℝ)/1904) ∧
      arcsin ((1081:ℝ)/1904) ≤ (0.603772947:ℝ) := by
  have h1 := c2_sin_a1
  have h2 := c2_sin_a2
  constructor
  · exact arcsin_ge_of (by linarith [pi_gt_three]) (by linarith [pi_gt_three])
      (by linarith [h1.2])
  · exact arcsin_le_of (by linarith [pi_gt_three]) (by linarith [pi_gt_three])
      (by linarith [h2.1])

/-- Enclosure of the cold-season length at the reference inputs. -/
theorem c2_tao1_bnd :
    (21828798.02:ℝ) ≤ tao1 refInputs ∧
      tao1 refInputs ≤ (21828807.29:ℝ) := by
  have hA := c2_arcsin1_bnd
  have hP := c2_piinv_bnd
  unfold tao1 tao
  rw [show refInputs.Ta / refInputs.Aa = (-(1081/1904) : ℝ) by norm_num [refInputs],
    arcsin_neg]
  constructor <;> nlinarith only [hA.1, hA.2, hP.1, hP.2,
    mul_nonneg (sub_nonneg.mpr hA.1) (sub_nonneg.mpr hP.1),
    mul_nonneg (sub_nonneg.mpr hA.1) (sub_nonneg.mpr hP.2),
    mul_nonneg (sub_nonneg.mpr hA.2) (sub_nonneg.mpr hP.1),
    mul_nonneg (sub_nonneg.mpr hA.2) (sub_nonneg.mpr hP.2)]

/-- Enclosure of the amplitude heat ratio at the reference inputs. -/
theorem c2_alpha_bnd :
    (0.269639363:ℝ) ≤ alpha refInputs ∧
      alpha refInputs ≤ (0.269639364:ℝ) := by
  have hCf := c2_Cf_bnd
  unfold alpha
  rw [c2_L_val, show refInputs.Aa = (19.04:ℝ) from rfl]
  constructor <;> linarith [hCf.1, hCf.2]

/-- Enclosure of the mean-temperature heat ratio at the reference inputs. -/
theorem c2_beta_bnd :
    (0.153088315:ℝ) ≤ beta refInputs ∧
      beta refInputs ≤ (0.153088316:ℝ) := by
  have hCf := c2_Cf_bnd
  unfold beta
  rw [c2_L_val, show |refInputs.Ta| = (10.81:ℝ) by norm_num [refInputs]]
  constructor <;> linarith [hCf.1, hCf.2]

/-- Enclosure of the ratio inside the effective-capacity logarithm. -/
theorem c2_R_bnd :
    (1.101077294:ℝ) ≤ (alpha refInputs + 1) / (beta refInputs + 1) ∧
      (alpha refInputs + 1) / (beta refInputs + 1) ≤ (1.101077297:ℝ) := by
  have hA := c2_alpha_bnd
  have hB := c2_beta_bnd
  have hinv := inv_enclosure (by norm_num : (0:ℝ) < 1.153088315)
    (show (1.153088315:ℝ) ≤ beta refInputs + 1 by linarith [hB.1])
    (show beta refInputs + 1 ≤ (1.153088316:ℝ) by linarith [hB.2])
  rw [show (alpha refInputs + 1) / (beta refInputs + 1) = (alpha refInputs + 1) * (1/(beta refInputs + 1)) by ring]
  constructor <;> nlinarith only [hA.1, hA.2, hinv.1, hinv.2,
    mul_nonneg (sub_nonneg.mpr hA.1) (sub_nonneg.mpr hinv.1),
    mul_nonneg (sub_nonneg.mpr hA.1) (sub_nonneg.mpr hinv.2),
    mul_nonneg (sub_nonneg.mpr hA.2) (sub_nonneg.mpr hinv.1),
    mul_nonneg (sub_nonneg.mpr hA.2) (sub_nonneg.mpr hinv.2)]

/-- Enclosure of the logarithm in the effective heat capacity. -/
theorem c2_logR_bnd :
    (0.09628905:ℝ) ≤ log ((alpha refInputs + 1) / (beta refInputs + 1)) ∧
      log ((alpha refInputs + 1) / (beta refInputs + 1)) ≤ (0.09628907:ℝ) := by
  have hR := c2_R_bnd
  have he1 := exp_poly_bounds (show (0:ℝ) ≤ 0.09628905 by norm_num) (by norm_num)
  have he2 := exp_poly_bounds (show (0:ℝ) ≤ 0.09628907 by norm_num) (by norm_num)
  constructor
  · exact le_log_of_exp_le (by linarith [hR.1]) (by linarith [he1.2, hR.1])
  · exact log_le_of_le_exp (by linarith [hR.1]) (by linarith [he2.1, hR.2])

set_option maxHeartbeats 800000 in
/-- Enclosure of the effective frozen heat capacity at the reference inputs. -/
theorem c2_Cef_bnd :
    (5594339.82:ℝ) ≤ Cef refInputs ∧
      Cef refInputs ≤ (5594347.61:ℝ) := by
  have hCf := c2_Cf_bnd
  have hA := c2_alpha_bnd
  have hB := c2_beta_bnd
  have hL := c2_logR_bnd
  unfold Cef
  have hD1 : (0.116551047:ℝ) ≤ alpha refInputs - beta refInputs ∧
      alpha refInputs - beta refInputs ≤ (0.116551049:ℝ) := by
    constructor <;> linarith [hA.1, hA.2, hB.1, hB.2]
  have hD2 : (0.020261977:ℝ) ≤ alpha refInputs - beta refInputs - log ((alpha refInputs + 1) / (beta refInputs + 1)) ∧
      alpha refInputs - beta refInputs - log ((alpha refInputs + 1) / (beta refInputs + 1)) ≤ (0.020261999:ℝ) := by
    constructor <;> linarith [hA.1, hA.2, hB.1, hB.2, hL.1, hL.2]
  have hinv := inv_enclosure (by norm_num : (0:ℝ) < 0.020261977)
    (show (0.020261977:ℝ) ≤ alpha refInputs - beta refInputs - log ((alpha refInputs + 1) / (beta refInputs + 1)) by linarith [hD2.1])
    (show alpha refInputs - beta refInputs - log ((alpha refInputs + 1) / (beta refInputs + 1)) ≤ (0.020261999:ℝ) by linarith [hD2.2])
  have hQ : (5.752198:ℝ) ≤ (alpha refInputs - beta refInputs) * (1/(alpha refInputs - beta refInputs - log ((alpha refInputs + 1) / (beta refInputs + 1)))) ∧
      (alpha refInputs - beta refInputs) * (1/(alpha refInputs - beta refInputs - log ((alpha refInputs + 1) / (beta refInputs + 1)))) ≤ (5.752206:ℝ) := by
    constructor <;> nlinarith only [hD1.1, hD1.2, hinv.1, hinv.2,
      mul_nonneg (sub_nonneg.mpr hD1.1) (sub_nonneg.mpr hinv.1),
      mul_nonneg (sub_nonneg.mpr hD1.1) (sub_nonneg.mpr hinv.2),
      mul_nonneg (sub_nonneg.mpr hD1.2) (sub_nonneg.mpr hinv.1),
      mul_nonneg (sub_nonneg.mpr hD1.2) (sub_nonneg.mpr hinv.2)]
  rw [show (alpha refInputs - beta refInputs) / (alpha refInputs - beta refInputs - log ((alpha refInputs + 1) / (beta refInputs + 1))) = (alpha refInputs - beta refInputs) * (1/(alpha refInputs - beta refInputs - log ((alpha refInputs + 1) / (beta refInputs + 1)))) by ring]
  constructor <;> nlinarith only [hCf.1, hCf.2, hQ.1, hQ.2,
    mul_nonneg (sub_nonneg.mpr hCf.1) (sub_nonneg.mpr hQ.1),
    mul_nonneg (sub_nonneg.mpr hCf.1) (sub_nonneg.mpr hQ.2),
    mul_nonneg (sub_nonneg.mpr hCf.2) (sub_nonneg.mpr hQ.1),
    mul_nonneg (sub_nonneg.mpr hCf.2) (sub_nonneg.mpr hQ.2)]

/-- Enclosure of the snow-pack thermal admittance at the reference inputs. -/
theorem c2_sA_bnd :
    (202.586557:ℝ) ≤ sqrt (Ksn refInputs.rho_sn * Csn refInputs.rho_sn) ∧
      sqrt (Ksn refInputs.rho_sn * Csn refInputs.rho_sn) ≤ (202.586558:ℝ) := by
  have hv : Ksn refInputs.rho_sn * Csn refInputs.rho_sn = (41041.31328:ℝ) := by
    norm_num [Ksn, Csn, refInputs]
  rw [hv]
  exact sqrt_bounds (by norm_num) (show (202.586557:ℝ)^2 ≤ (41041.31328:ℝ) by norm_num)
    (show (41041.31328:ℝ) ≤ (202.586558:ℝ)^2 by norm_num) (by norm_num)

/-- Enclosure of the ground conductivity-capacity product. -/
theorem c2_KfCef_bnd :
    (10468308.83:ℝ) ≤ Kf refInputs * Cef refInputs ∧
      Kf refInputs * Cef refInputs ≤ (10468323.42:ℝ) := by
  have hK := c2_Kf_bnd
  have hC := c2_Cef_bnd
  constructor <;> nlinarith only [hK.1, hK.2, hC.1, hC.2,
    mul_nonneg (sub_nonneg.mpr hK.1) (sub_nonneg.mpr hC.1),
    mul_nonneg (sub_nonneg.mpr hK.1) (sub_nonneg.mpr hC.2),
    mul_nonneg (sub_nonneg.mpr hK.2) (sub_nonneg.mpr hC.1),
    mul_nonneg (sub_nonneg.mpr hK.2) (sub_nonneg.mpr hC.2)]

/-- Enclosure of the ground thermal admittance at the reference inputs. -/
theorem c2_sB_bnd :
    (3235.4766:ℝ) ≤ sqrt (Kf refInputs * Cef refInputs) ∧
      sqrt (Kf refInputs * Cef refInputs) ≤ (3235.47886:ℝ) := by
  have h := c2_KfCef_bnd
  exact sqrt_bounds (by norm_num) (show (3235.4766:ℝ)^2 ≤ Kf refInputs * Cef refInputs by linarith [h.1])
    (show Kf refInputs * Cef refInputs ≤ (3235.47886:ℝ)^2 by linarith [h.2]) (by norm_num)

/-- Enclosure of the snow/ground reflection coefficient at the reference inputs. -/
theorem c2_mu_bnd :
    (-0.88215143:ℝ) ≤ mu refInputs ∧
      mu refInputs ≤ (-0.88215018:ℝ) := by
  have hA := c2_sA_bnd
  have hB := c2_sB_bnd
  unfold mu
  have hN : (-3032.892303:ℝ) ≤ sqrt (Ksn refInputs.rho_sn * Csn refInputs.rho_sn) - sqrt (Kf refInputs * Cef refInputs) ∧
      sqrt (Ksn refInputs.rho_sn * Csn refInputs.rho_sn) - sqrt (Kf refInputs * Cef refInputs) ≤ (-3032.890042:ℝ) := by
    constructor <;> linarith [hA.1, hA.2, hB.1, hB.2]
  have hinv := inv_enclosure (by norm_num : (0:ℝ) < 3438.063157)
    (show (3438.063157:ℝ) ≤ sqrt (Ksn refInputs.rho_sn * Csn refInputs.rho_sn) + sqrt (Kf refInputs * Cef refInputs) by linarith [hA.1, hB.1])
    (show sqrt (Ksn refInputs.rho_sn * Csn refInputs.rho_sn) + sqrt (Kf refInputs * Cef refInputs) ≤ (3438.065418:ℝ) by linarith [hA.2, hB.2])
  rw [show (sqrt (Ksn refInputs.rho_sn * Csn refInputs.rho_sn) - sqrt (Kf refInputs * Cef refInputs)) / (sqrt (Ksn refInputs.rho_sn * Csn refInputs.rho_sn) + sqrt (Kf refInputs * Cef refInputs)) = (sqrt (Ksn refInputs.rho_sn * Csn refInputs.rho_sn) - sqrt (Kf refInputs * Cef refInputs)) * (1/(sqrt (Ksn refInputs.rho_sn * Csn refInputs.rho_sn) + sqrt (Kf refInputs * Cef refInputs))) by ring]
  constructor <;> nlinarith only [hN.1, hN.2, hinv.1, hinv.2,
    mul_nonneg (sub_nonneg.mpr hN.1) (sub_nonneg.mpr hinv.1),
    mul_nonneg (sub_nonneg.mpr hN.1) (sub_nonneg.mpr hinv.2),
    mul_nonneg (sub_nonneg.mpr hN.2) (sub_nonneg.mpr hinv.1),
    mul_nonneg (sub_nonneg.mpr hN.2) (sub_nonneg.mpr hinv.2)]

/-- Enclosure of the snow damping argument at the reference inputs. -/
theorem c2_snowArg_bnd :
    (0.437629392:ℝ) ≤ snowArg refInputs ∧
      snowArg refInputs ≤ (0.4376295:ℝ) := by
  unfold snowArg
  have hv : Csn refInputs.rho_sn = (501600:ℝ) := by norm_num [Csn, refInputs]
  have hv2 : tao * Ksn refInputs.rho_sn = (2580300.7488:ℝ) := by
    norm_num [tao, Ksn, refInputs]
  rw [hv, hv2, show refInputs.Hsn = (0.28:ℝ) from rfl]
  have hs := sqrt_bounds (by norm_num : (0:ℝ) ≤ 0.78148112)
    (show (0.78148112:ℝ)^2 ≤ π * 501600 / 2580300.7488 by
      rw [le_div_iff₀ (by norm_num : (0:ℝ) < 2580300.7488)]
      nlinarith only [pi_gt_d6])
    (show π * 501600 / 2580300.7488 ≤ (0.78148125:ℝ)^2 by
      rw [div_le_iff₀ (by norm_num : (0:ℝ) < 2580300.7488)]
      nlinarith only [pi_lt_d6])
    (by norm_num)
  constructor <;> linarith [hs.1, hs.2]

/-- Enclosure of the growing exponential in the damping factor. -/
theorem c2_expA_bnd :
    (1.54903064:ℝ) ≤ exp (snowArg refInputs) ∧
      exp (snowArg refInputs) ≤ (1.54903089:ℝ) := by
  have hx := c2_snowArg_bnd
  have he1 := exp_poly_bounds (show (0:ℝ) ≤ 0.437629392 by norm_num) (by norm_num)
  have he2 := exp_poly_bounds (show (0:ℝ) ≤ 0.4376295 by norm_num) (by norm_num)
  constructor
  · have h := exp_le_exp.mpr hx.1
    linarith [he1.1, h]
  · have h := exp_le_exp.mpr hx.2
    linarith [he2.2, h]

/-- Enclosure of the decaying exponential in the damping factor. -/
theorem c2_expnA_bnd :
    (0.64556491:ℝ) ≤ exp (-snowArg refInputs) ∧
      exp (-snowArg refInputs) ≤ (0.64556503:ℝ) := by
  have hA := c2_expA_bnd
  rw [Real.exp_neg]
  have hinv := inv_enclosure (by norm_num : (0:ℝ) < 1.54903064)
    (show (1.54903064:ℝ) ≤ exp (snowArg refInputs) by linarith [hA.1])
    (show exp (snowArg refInputs) ≤ (1.54903089:ℝ) by linarith [hA.2])
  constructor
  · calc (0.64556491:ℝ) ≤ 1/1.54903089 := by norm_num
      _ ≤ 1/exp (snowArg refInputs) := hinv.1
      _ = (exp (snowArg refInputs))⁻¹ := one_div _
  · calc (exp (snowArg refInputs))⁻¹ = 1/exp (snowArg refInputs) := (one_div _).symm
      _ ≤ 1/1.54903064 := hinv.2
      _ ≤ (0.64556503:ℝ) := by norm_num

/-- Certified enclosure of `sin 0.218814696` by three triple-angle steps. -/
theorem c2_sin_h1 : (0.2170727289689:ℝ) ≤ sin (0.218814696:ℝ) ∧ sin (0.218814696:ℝ) ≤ (0.2170727408171:ℝ) := by
  have s0 := sin_base (show (0:ℝ) ≤ 0.008104248 by norm_num) (by norm_num)
  have s1 : (0.0081041590623:ℝ) ≤ sin (0.008104248:ℝ) ∧ sin (0.008104248:ℝ) ≤ (0.0081041595118:ℝ) :=
    ⟨le_trans (by norm_num) s0.1, le_trans s0.2 (by norm_num)⟩
  have t1 := sin_triple_step s1.1 s1.2 (by norm_num) (by norm_num)
  rw [show (3:ℝ) * 0.008104248 = 0.024312744 by norm_num] at t1
  have s2 : (0.0243103481467:ℝ) ≤ sin (0.024312744:ℝ) ∧ sin (0.024312744:ℝ) ≤ (0.0243103494949:ℝ) :=
    ⟨le_trans (by norm_num) t1.1, le_trans t1.2 (by norm_num)⟩
  have t2 := sin_triple_step s2.1 s2.2 (by norm_num) (by norm_num)
  rw [show (3:ℝ) * 0.024312744 = 0.072938232 by norm_num] at t2
  have s3 : (0.0728735754551:ℝ) ≤ sin (0.072938232:ℝ) ∧ sin (0.072938232:ℝ) ≤ (0.0728735794902:ℝ) :=
    ⟨le_trans (by norm_num) t2.1, le_trans t2.2 (by norm_num)⟩
  have t3 := sin_triple_step s3.1 s3.2 (by norm_num) (by norm_num)
  rw [show (3:ℝ) * 0.072938232 = 0.218814696 by norm_num] at t3
  exact ⟨le_trans (by norm_num) t3.1, le_trans t3.2 (by norm_num)⟩

/-- Certified enclosure of `sin 0.21881475` by three triple-angle steps. -/
theorem c2_sin_h2 : (0.2170727816829:ℝ) ≤ sin (0.21881475:ℝ) ∧ sin (0.21881475:ℝ) ≤ (0.2170727935285:ℝ) := by
  have s0 := sin_base (show (0:ℝ) ≤ 0.00810425 by norm_num) (by norm_num)
  have s1 : (0.0081041610623:ℝ) ≤ sin (0.00810425:ℝ) ∧ sin (0.00810425:ℝ) ≤ (0.0081041615117:ℝ) :=
    ⟨le_trans (by norm_num) s0.1, le_trans s0.2 (by norm_num)⟩
  have t1 := sin_triple_step s1.1 s1.2 (by norm_num) (by norm_num)
  rw [show (3:ℝ) * 0.00810425 = 0.02431275 by norm_num] at t1
  have s2 : (0.0243103541451:ℝ) ≤ sin (0.02431275:ℝ) ∧ sin (0.02431275:ℝ) ≤ (0.024310355493:ℝ) :=
    ⟨le_trans (by norm_num) t1.1, le_trans t1.2 (by norm_num)⟩
  have t2 := sin_triple_step s2.1 s2.2 (by norm_num) (by norm_num)
  rw [show (3:ℝ) * 0.02431275 = 0.07293825 by norm_num] at t2
  have s3 : (0.0728735934078:ℝ) ≤ sin (0.07293825:ℝ) ∧ sin (0.07293825:ℝ) ≤ (0.072873597442:ℝ) :=
    ⟨le_trans (by norm_num) t2.1, le_trans t2.2 (by norm_num)⟩
  have t3 := sin_triple_step s3.1 s3.2 (by norm_num) (by norm_num)
  rw [show (3:ℝ) * 0.07293825 = 0.21881475 by norm_num] at t3
  exact ⟨le_trans (by norm_num) t3.1, le_trans t3.2 (by norm_num)⟩

/-- Enclosure of the cosine in the damping factor. -/
theorem c2_cosA_bnd :
    (0.9057588:ℝ) ≤ cos (snowArg refInputs) ∧
      cos (snowArg refInputs) ≤ (0.90575887:ℝ) := by
  have hx := c2_snowArg_bnd
  have h1 := c2_sin_h1
  have h2 := c2_sin_h2
  have hc1 : cos (0.437629392:ℝ) = 1 - 2 * sin (0.218814696:ℝ)^2 := by
    rw [show (0.437629392:ℝ) = 2*(0.218814696:ℝ) by norm_num]
    exact cos_double_sin _
  have hc2 : cos (0.4376295:ℝ) = 1 - 2 * sin (0.21881475:ℝ)^2 := by
    rw [show (0.4376295:ℝ) = 2*(0.21881475:ℝ) by norm_num]
    exact cos_double_sin _
  constructor
  · have hm := Real.cos_le_cos_of_nonneg_of_le_pi
      (show (0:ℝ) ≤ snowArg refInputs by linarith [hx.1])
      (show (0.4376295:ℝ) ≤ π by linarith [pi_gt_d6]) hx.2
    rw [hc2] at hm
    nlinarith only [hm, h2.1, h2.2,
      mul_nonneg (sub_nonneg.mpr h2.1) (sub_nonneg.mpr h2.2)]
  · have hm := Real.cos_le_cos_of_nonneg_of_le_pi (show (0:ℝ) ≤ (0.437629392:ℝ) by norm_num)
      (show snowArg refInputs ≤ π by linarith [hx.2, pi_gt_d6]) hx.1
    rw [hc1] at hm
    nlinarith only [hm, h1.1, h1.2,
      mul_nonneg (sub_nonneg.mpr h1.1) (sub_nonneg.mpr h1.2)]

/-- Enclosure of the squared reflection coefficient. -/
theorem c2_musq_bnd :
    (0.77818894:ℝ) ≤ mu refInputs ^ 2 ∧
      mu refInputs ^ 2 ≤ (0.77819115:ℝ) := by
  have hm := c2_mu_bnd
  constructor
  · nlinarith only [hm.1, hm.2, mul_nonneg (sub_nonneg.mpr hm.2)
      (show (0:ℝ) ≤ -(mu refInputs) - (-0.88215018:ℝ) by linarith [hm.2])]
  · nlinarith only [hm.1, hm.2, mul_nonneg (sub_nonneg.mpr hm.1)
      (show (0:ℝ) ≤ -(-0.88215143:ℝ) - mu refInputs by linarith [hm.2])]

/-- Enclosure of the snow damping factor at the reference inputs. -/
theorem c2_s_bnd :
    (0.45336914:ℝ) ≤ s refInputs ∧
      s refInputs ≤ (0.45337332:ℝ) := by
  have hE := c2_expA_bnd
  have hEn := c2_expnA_bnd
  have hC := c2_cosA_bnd
  have hm := c2_mu_bnd
  have hm2 := c2_musq_bnd
  unfold s
  have ht2 : (-1.59803297:ℝ) ≤ 2 * mu refInputs * cos (snowArg refInputs) ∧
      2 * mu refInputs * cos (snowArg refInputs) ≤ (-1.59803057:ℝ) := by
    constructor <;> nlinarith only [hm.1, hm.2, hC.1, hC.2,
      mul_nonneg (sub_nonneg.mpr hm.1) (sub_nonneg.mpr hC.1),
      mul_nonneg (sub_nonneg.mpr hm.1) (sub_nonneg.mpr hC.2),
      mul_nonneg (sub_nonneg.mpr hm.2) (sub_nonneg.mpr hC.1),
      mul_nonneg (sub_nonneg.mpr hm.2) (sub_nonneg.mpr hC.2)]
  have ht3 : (0.50237147:ℝ) ≤ mu refInputs ^ 2 * exp (-snowArg refInputs) ∧
      mu refInputs ^ 2 * exp (-snowArg refInputs) ≤ (0.502373:ℝ) := by
    constructor <;> nlinarith only [hm2.1, hm2.2, hEn.1, hEn.2,
      mul_nonneg (sub_nonneg.mpr hm2.1) (sub_nonneg.mpr hEn.1),
      mul_nonneg (sub_nonneg.mpr hm2.1) (sub_nonneg.mpr hEn.2),
      mul_nonneg (sub_nonneg.mpr hm2.2) (sub_nonneg.mpr hEn.1),
      mul_nonneg (sub_nonneg.mpr hm2.2) (sub_nonneg.mpr hEn.2)]
  constructor <;> linarith [hE.1, hE.2, ht2.1, ht2.2, ht3.1, ht3.2]

/-- Enclosure of the square root of the damping factor. -/
theorem c2_sqs_bnd :
    (0.67332691:ℝ) ≤ sqrt (s refInputs) ∧
      sqrt (s refInputs) ≤ (0.67333003:ℝ) := by
  have h := c2_s_bnd
  exact sqrt_bounds (by norm_num) (show (0.67332691:ℝ)^2 ≤ s refInputs by linarith [h.1])
    (show s refInputs ≤ (0.67333003:ℝ)^2 by linarith [h.2]) (by norm_num)

/-- Enclosure of the snow amplitude reduction at the reference inputs. -/
theorem c2_detaA_bnd :
    (15.707501:ℝ) ≤ deta_A refInputs ∧
      deta_A refInputs ≤ (15.707553:ℝ) := by
  have hm := c2_mu_bnd
  have hq := c2_sqs_bnd
  unfold deta_A
  rw [show refInputs.Aa = (19.04:ℝ) from rfl]
  have hinv := inv_enclosure (by norm_num : (0:ℝ) < 0.67332691)
    (show (0.67332691:ℝ) ≤ sqrt (s refInputs) by linarith [hq.1])
    (show sqrt (s refInputs) ≤ (0.67333003:ℝ) by linarith [hq.2])
  have hf : (0.17502348:ℝ) ≤ (1 + mu refInputs) / sqrt (s refInputs) ∧ (1 + mu refInputs) / sqrt (s refInputs) ≤ (0.17502616:ℝ) := by
    rw [show (1 + mu refInputs) / (sqrt (s refInputs)) = (1 + mu refInputs) * (1/(sqrt (s refInputs))) by ring]
    constructor <;> nlinarith only [hm.1, hm.2, hinv.1, hinv.2,
      mul_nonneg (sub_nonneg.mpr hm.1) (sub_nonneg.mpr hinv.1),
      mul_nonneg (sub_nonneg.mpr hm.1) (sub_nonneg.mpr hinv.2),
      mul_nonneg (sub_nonneg.mpr hm.2) (sub_nonneg.mpr hinv.1),
      mul_nonneg (sub_nonneg.mpr hm.2) (sub_nonneg.mpr hinv.2)]
  constructor <;> linarith [hf.1, hf.2]

/-- Enclosure of the season-weighted snow amplitude reduction. -/
theorem c2_detaAsn_bnd :
    (5.4362612:ℝ) ≤ deta_Asn refInputs ∧
      deta_Asn refInputs ≤ (5.4362816:ℝ) := by
  have hd := c2_detaA_bnd
  have ht := c2_tao1_bnd
  unfold deta_Asn
  rw [c2_tao_val]
  constructor <;> nlinarith only [hd.1, hd.2, ht.1, ht.2,
    mul_nonneg (sub_nonneg.mpr hd.1) (sub_nonneg.mpr ht.1),
    mul_nonneg (sub_nonneg.mpr hd.1) (sub_nonneg.mpr ht.2),
    mul_nonneg (sub_nonneg.mpr hd.2) (sub_nonneg.mpr ht.1),
    mul_nonneg (sub_nonneg.mpr hd.2) (sub_nonneg.mpr ht.2)]

/-- Enclosure of the snow-induced mean-temperature shift. -/
theorem c2_detaTsn_bnd :
    (3.4608309:ℝ) ≤ deta_Tsn refInputs ∧
      deta_Tsn refInputs ≤ (3.4608451:ℝ) := by
  have hp := c2_piinv_bnd
  have hd := c2_detaAsn_bnd
  unfold deta_Tsn
  rw [show (2:ℝ)/π = 2*(1/π) by ring]
  constructor <;> nlinarith only [hp.1, hp.2, hd.1, hd.2,
    mul_nonneg (sub_nonneg.mpr hp.1) (sub_nonneg.mpr hd.1),
    mul_nonneg (sub_nonneg.mpr hp.1) (sub_nonneg.mpr hd.2),
    mul_nonneg (sub_nonneg.mpr hp.2) (sub_nonneg.mpr hd.1),
    mul_nonneg (sub_nonneg.mpr hp.2) (sub_nonneg.mpr hd.2)]

/-- Enclosure of the snow-adjusted mean temperature. -/
theorem c2_Tvg_bnd :
    (-7.3491691:ℝ) ≤ Tvg refInputs ∧
      Tvg refInputs ≤ (-7.3491549:ℝ) := by
  have h := c2_detaTsn_bnd
  unfold Tvg
  rw [show refInputs.Ta = (-10.81:ℝ) from rfl]
  constructor <;> linarith [h.1, h.2]

/-- Enclosure of the snow-adjusted amplitude. -/
theorem c2_Avg_bnd :
    (13.6037184:ℝ) ≤ Avg refInputs ∧
      Avg refInputs ≤ (13.6037388:ℝ) := by
  have h := c2_detaAsn_bnd
  unfold Avg
  rw [show refInputs.Aa = (19.04:ℝ) from rfl]
  constructor <;> linarith [h.1, h.2]

/-- With no winter vegetation layer the winter reduction vanishes. -/
theorem c2_dA1_zero : deta_A1 refInputs = 0 := by
  unfold deta_A1
  rw [show refInputs.Hvg1 = (0:ℝ) from rfl]
  norm_num

/-- With no summer vegetation layer the summer reduction vanishes. -/
theorem c2_dA2_zero : deta_A2 refInputs = 0 := by
  unfold deta_A2
  rw [show refInputs.Hvg2 = (0:ℝ) from rfl]
  norm_num

/-- Without vegetation the ground-surface temperature equals the
snow-adjusted one. -/
theorem c2_Tgs_eq : Tgs refInputs = Tvg refInputs := by
  unfold Tgs deta_Tv
  rw [c2_dA1_zero, c2_dA2_zero]
  ring

/-- Without vegetation the ground-surface amplitude equals the
snow-adjusted one. -/
theorem c2_Ags_eq : Ags refInputs = Avg refInputs := by
  unfold Ags deta_Av
  rw [c2_dA1_zero, c2_dA2_zero]
  ring

/-- Enclosure of the ground-surface mean temperature at the reference inputs. -/
theorem c2_Tgs_bnd :
    (-7.3491691:ℝ) ≤ Tgs refInputs ∧
      Tgs refInputs ≤ (-7.3491549:ℝ) := by
  rw [c2_Tgs_eq]
  exact c2_Tvg_bnd

/-- Enclosure of the ground-surface amplitude at the reference inputs. -/
theorem c2_Ags_bnd :
    (13.6037184:ℝ) ≤ Ags refInputs ∧
      Ags refInputs ≤ (13.6037388:ℝ) := by
  rw [c2_Ags_eq]
  exact c2_Avg_bnd

/-- Enclosure of the normalized surface temperature ratio. -/
theorem c2_z_bnd :
    (-0.54023238:ℝ) ≤ Tgs refInputs / Ags refInputs ∧
      Tgs refInputs / Ags refInputs ≤ (-0.54023052:ℝ) := by
  have hT := c2_Tgs_bnd
  have hA := c2_Ags_bnd
  have hinv := inv_enclosure (by norm_num : (0:ℝ) < 13.6037184)
    (show (13.6037184:ℝ) ≤ Ags refInputs by linarith [hA.1])
    (show Ags refInputs ≤ (13.6037388:ℝ) by linarith [hA.2])
  rw [show (Tgs refInputs) / (Ags refInputs) = (Tgs refInputs) * (1/(Ags refInputs)) by ring]
  constructor <;> nlinarith only [hT.1, hT.2, hinv.1, hinv.2,
    mul_nonneg (sub_nonneg.mpr hT.1) (sub_nonneg.mpr hinv.1),
    mul_nonneg (sub_nonneg.mpr hT.1) (sub_nonneg.mpr hinv.2),
    mul_nonneg (sub_nonneg.mpr hT.2) (sub_nonneg.mpr hinv.1),
    mul_nonneg (sub_nonneg.mpr hT.2) (sub_nonneg.mpr hinv.2)]

/-- Certified enclosure of `sin 0.570713526` by three triple-angle steps. -/
theorem c2_sin_w1 : (0.5402323924631:ℝ) ≤ sin (0.570713526:ℝ) ∧ sin (0.570713526:ℝ) ≤ (0.54023286504:ℝ) := by
  have s0 := sin_base (show (0:ℝ) ≤ 0.021137538 by norm_num) (by norm_num)
  have s1 : (0.0211359535766:ℝ) ≤ sin (0.021137538:ℝ) ∧ sin (0.021137538:ℝ) ≤ (0.0211359743711:ℝ) :=
    ⟨le_trans (by norm_num) s0.1, le_trans s0.2 (by norm_num)⟩
  have t1 := sin_triple_step s1.1 s1.2 (by norm_num) (by norm_num)
  rw [show (3:ℝ) * 0.021137538 = 0.063412614 by norm_num] at t1
  have s2 : (0.0633700925956:ℝ) ≤ sin (0.063412614:ℝ) ∧ sin (0.063412614:ℝ) ≤ (0.0633701548677:ℝ) :=
    ⟨le_trans (by norm_num) t1.1, le_trans t1.2 (by norm_num)⟩
  have t2 := sin_triple_step s2.1 s2.2 (by norm_num) (by norm_num)
  rw [show (3:ℝ) * 0.063412614 = 0.190237842 by norm_num] at t2
  have s3 : (0.1890923592656:ℝ) ≤ sin (0.190237842:ℝ) ∧ sin (0.190237842:ℝ) ≤ (0.1890925430812:ℝ) :=
    ⟨le_trans (by norm_num) t2.1, le_trans t2.2 (by norm_num)⟩
  have t3 := sin_triple_step s3.1 s3.2 (by norm_num) (by norm_num)
  rw [show (3:ℝ) * 0.190237842 = 0.570713526 by norm_num] at t3
  exact ⟨le_trans (by norm_num) t3.1, le_trans t3.2 (by norm_num)⟩

/-- Certified enclosure of `sin 0.570710718` by three triple-angle steps. -/
theorem c2_sin_w2 : (0.5402300294877:ℝ) ≤ sin (0.570710718:ℝ) ∧ sin (0.570710718:ℝ) ≤ (0.5402305020569:ℝ) := by
  have s0 := sin_base (show (0:ℝ) ≤ 0.021137434 by norm_num) (by norm_num)
  have s1 : (0.0211358496:ℝ) ≤ sin (0.021137434:ℝ) ∧ sin (0.021137434:ℝ) ≤ (0.0211358703941:ℝ) :=
    ⟨le_trans (by norm_num) s0.1, le_trans s0.2 (by norm_num)⟩
  have t1 := sin_triple_step s1.1 s1.2 (by norm_num) (by norm_num)
  rw [show (3:ℝ) * 0.021137434 = 0.063412302 by norm_num] at t1
  have s2 : (0.0633697812231:ℝ) ≤ sin (0.063412302:ℝ) ∧ sin (0.063412302:ℝ) ≤ (0.0633698434941:ℝ) :=
    ⟨le_trans (by norm_num) t1.1, le_trans t1.2 (by norm_num)⟩
  have t2 := sin_triple_step s2.1 s2.2 (by norm_num) (by norm_num)
  rw [show (3:ℝ) * 0.063412302 = 0.190236906 by norm_num] at t2
  have s3 : (0.1890914401529:ℝ) ≤ sin (0.190236906:ℝ) ∧ sin (0.190236906:ℝ) ≤ (0.1890916239652:ℝ) :=
    ⟨le_trans (by norm_num) t2.1, le_trans t2.2 (by norm_num)⟩
  have t3 := sin_triple_step s3.1 s3.2 (by norm_num) (by norm_num)
  rw [show (3:ℝ) * 0.190236906 = 0.570710718 by norm_num] at t3
  exact ⟨le_trans (by norm_num) t3.1, le_trans t3.2 (by norm_num)⟩

/-- Enclosure of the arcsine in the TTOP numerator. -/
theorem c2_arcsin2_bnd :
    (-0.570713526:ℝ) ≤ arcsin (Tgs refInputs / Ags refInputs) ∧
      arcsin (Tgs refInputs / Ags refInputs) ≤ (-0.570710718:ℝ) := by
  have hz := c2_z_bnd
  have h1 := c2_sin_w1
  have h2 := c2_sin_w2
  constructor
  · refine arcsin_ge_of (by linarith [pi_gt_three]) (by linarith [pi_gt_three]) ?_
    rw [show (-0.570713526:ℝ) = -(0.570713526:ℝ) by norm_num, sin_neg]
    linarith [h1.1, hz.1]
  · refine arcsin_le_of (by linarith [pi_gt_three]) (by linarith [pi_gt_three]) ?_
    rw [show (-0.570710718:ℝ) = -(0.570710718:ℝ) by norm_num, sin_neg]
    linarith [h2.2, hz.2]

/-- Enclosure of the product term in the TTOP numerator. -/
theorem c2_zasin_bnd :
    (0.30831534:ℝ) ≤ Tgs refInputs / Ags refInputs * arcsin (Tgs refInputs / Ags refInputs) ∧
      Tgs refInputs / Ags refInputs * arcsin (Tgs refInputs / Ags refInputs) ≤ (0.30831793:ℝ) := by
  have hz := c2_z_bnd
  have ha := c2_arcsin2_bnd
  constructor <;> nlinarith only [hz.1, hz.2, ha.1, ha.2,
    mul_nonneg (sub_nonneg.mpr hz.1) (sub_nonneg.mpr ha.1),
    mul_nonneg (sub_nonneg.mpr hz.1) (sub_nonneg.mpr ha.2),
    mul_nonneg (sub_nonneg.mpr hz.2) (sub_nonneg.mpr ha.1),
    mul_nonneg (sub_nonneg.mpr hz.2) (sub_nonneg.mpr ha.2)]

/-- Enclosure of pi squared. -/
theorem c2_pp_bnd :
    (9.8696002:ℝ) ≤ π * π ∧
      π * π ≤ (9.8696066:ℝ) := by
  constructor <;> nlinarith only [pi_gt_d6, pi_lt_d6,
    mul_nonneg (sub_nonneg.mpr pi_gt_d6.le) (sub_nonneg.mpr pi_gt_d6.le)]

/-- Enclosure of the squared ground-surface amplitude. -/
theorem c2_Agssq_bnd :
    (185.06115:ℝ) ≤ Ags refInputs * Ags refInputs ∧
      Ags refInputs * Ags refInputs ≤ (185.06171:ℝ) := by
  have hA := c2_Ags_bnd
  constructor <;> nlinarith only [hA.1, hA.2, hA.1, hA.2,
    mul_nonneg (sub_nonneg.mpr hA.1) (sub_nonneg.mpr hA.1),
    mul_nonneg (sub_nonneg.mpr hA.1) (sub_nonneg.mpr hA.2),
    mul_nonneg (sub_nonneg.mpr hA.2) (sub_nonneg.mpr hA.1),
    mul_nonneg (sub_nonneg.mpr hA.2) (sub_nonneg.mpr hA.2)]

/-- Enclosure of the squared ratio inside the TTOP square root. -/
theorem c2_q2_bnd :
    (0.0533314:ℝ) ≤ π * π / (Ags refInputs * Ags refInputs) ∧
      π * π / (Ags refInputs * Ags refInputs) ≤ (0.0533316:ℝ) := by
  have hp := c2_pp_bnd
  have hA := c2_Agssq_bnd
  have hinv := inv_enclosure (by norm_num : (0:ℝ) < 185.06115)
    (show (185.06115:ℝ) ≤ Ags refInputs * Ags refInputs by linarith [hA.1])
    (show Ags refInputs * Ags refInputs ≤ (185.06171:ℝ) by linarith [hA.2])
  rw [show (π * π) / (Ags refInputs * Ags refInputs) = (π * π) * (1/(Ags refInputs * Ags refInputs)) by ring]
  constructor <;> nlinarith only [hp.1, hp.2, hinv.1, hinv.2,
    mul_nonneg (sub_nonneg.mpr hp.1) (sub_nonneg.mpr hinv.1),
    mul_nonneg (sub_nonneg.mpr hp.1) (sub_nonneg.mpr hinv.2),
    mul_nonneg (sub_nonneg.mpr hp.2) (sub_nonneg.mpr hinv.1),
    mul_nonneg (sub_nonneg.mpr hp.2) (sub_nonneg.mpr hinv.2)]

/-- Enclosure of the square root in the TTOP numerator. -/
theorem c2_sq2_bnd :
    (0.97296885:ℝ) ≤ sqrt (1 - π * π / (Ags refInputs * Ags refInputs)) ∧
      sqrt (1 - π * π / (Ags refInputs * Ags refInputs)) ≤ (0.97296897:ℝ) := by
  have h := c2_q2_bnd
  exact sqrt_bounds (by norm_num)
    (show (0.97296885:ℝ)^2 ≤ 1 - π * π / (Ags refInputs * Ags refInputs) by linarith [h.2])
    (show 1 - π * π / (Ags refInputs * Ags refInputs) ≤ (0.97296897:ℝ)^2 by linarith [h.1])
    (by norm_num)

set_option maxHeartbeats 1600000 in
/-- Enclosure of the TTOP numerator at the reference inputs. -/
theorem c2_Tpsnum_bnd :
    (-14.39259:ℝ) ≤ Tps_numerator (Tgs refInputs) (Ags refInputs) (Kf refInputs) (Kt refInputs) ∧
      Tps_numerator (Tgs refInputs) (Ags refInputs) (Kf refInputs) (Kt refInputs) ≤ (-14.392556:ℝ) := by
  have hT := c2_Tgs_bnd
  have hA := c2_Ags_bnd
  have hKf := c2_Kf_bnd
  have hKt := c2_Kt_bnd
  have hza := c2_zasin_bnd
  have hs2 := c2_sq2_bnd
  have hpi := c2_piinv_bnd
  unfold Tps_numerator
  have hw : (1.28128419:ℝ) ≤ (Tgs refInputs / Ags refInputs * arcsin (Tgs refInputs / Ags refInputs) + sqrt (1 - π * π / (Ags refInputs * Ags refInputs))) ∧
      (Tgs refInputs / Ags refInputs * arcsin (Tgs refInputs / Ags refInputs) + sqrt (1 - π * π / (Ags refInputs * Ags refInputs))) ≤ (1.2812869:ℝ) := by
    constructor <;> linarith [hza.1, hza.2, hs2.1, hs2.2]
  have hkd : (-0.341892617:ℝ) ≤ Kt refInputs - Kf refInputs ∧ Kt refInputs - Kf refInputs ≤ (-0.341892615:ℝ) := by
    constructor <;> linarith [hKf.1, hKf.2, hKt.1, hKt.2]
  have hakd : (-4.651018:ℝ) ≤ Ags refInputs * (Kt refInputs - Kf refInputs) ∧ Ags refInputs * (Kt refInputs - Kf refInputs) ≤ (-4.65101:ℝ) := by
    constructor <;> nlinarith only [hA.1, hA.2, hkd.1, hkd.2,
      mul_nonneg (sub_nonneg.mpr hA.1) (sub_nonneg.mpr hkd.1),
      mul_nonneg (sub_nonneg.mpr hA.1) (sub_nonneg.mpr hkd.2),
      mul_nonneg (sub_nonneg.mpr hA.2) (sub_nonneg.mpr hkd.1),
      mul_nonneg (sub_nonneg.mpr hA.2) (sub_nonneg.mpr hkd.2)]
  have hakp : (-1.4804654:ℝ) ≤ Ags refInputs * (Kt refInputs - Kf refInputs) / π ∧ Ags refInputs * (Kt refInputs - Kf refInputs) / π ≤ (-1.4804623:ℝ) := by
    rw [show (Ags refInputs * (Kt refInputs - Kf refInputs)) / (π) = (Ags refInputs * (Kt refInputs - Kf refInputs)) * (1/(π)) by ring]
    constructor <;> nlinarith only [hakd.1, hakd.2, hpi.1, hpi.2,
      mul_nonneg (sub_nonneg.mpr hakd.1) (sub_nonneg.mpr hpi.1),
      mul_nonneg (sub_nonneg.mpr hakd.1) (sub_nonneg.mpr hpi.2),
      mul_nonneg (sub_nonneg.mpr hakd.2) (sub_nonneg.mpr hpi.1),
      mul_nonneg (sub_nonneg.mpr hakd.2) (sub_nonneg.mpr hpi.2)]
  have hbc : (-1.896901:ℝ) ≤ Ags refInputs * (Kt refInputs - Kf refInputs) / π * (Tgs refInputs / Ags refInputs * arcsin (Tgs refInputs / Ags refInputs) + sqrt (1 - π * π / (Ags refInputs * Ags refInputs))) ∧
      Ags refInputs * (Kt refInputs - Kf refInputs) / π * (Tgs refInputs / Ags refInputs * arcsin (Tgs refInputs / Ags refInputs) + sqrt (1 - π * π / (Ags refInputs * Ags refInputs))) ≤ (-1.896892:ℝ) := by
    constructor <;> nlinarith only [hakp.1, hakp.2, hw.1, hw.2,
      mul_nonneg (sub_nonneg.mpr hakp.1) (sub_nonneg.mpr hw.1),
      mul_nonneg (sub_nonneg.mpr hakp.1) (sub_nonneg.mpr hw.2),
      mul_nonneg (sub_nonneg.mpr hakp.2) (sub_nonneg.mpr hw.1),
      mul_nonneg (sub_nonneg.mpr hakp.2) (sub_nonneg.mpr hw.2)]
  have hks : (3.400571792:ℝ) ≤ Kf refInputs + Kt refInputs ∧ Kf refInputs + Kt refInputs ≤ (3.400571794:ℝ) := by
    constructor <;> linarith [hKf.1, hKf.2, hKt.1, hKt.2]
  have ht1 : (-12.495689:ℝ) ≤ 0.5 * Tgs refInputs * (Kf refInputs + Kt refInputs) ∧
      0.5 * Tgs refInputs * (Kf refInputs + Kt refInputs) ≤ (-12.495664:ℝ) := by
    constructor <;> nlinarith only [hT.1, hT.2, hks.1, hks.2,
      mul_nonneg (sub_nonneg.mpr hT.1) (sub_nonneg.mpr hks.1),
      mul_nonneg (sub_nonneg.mpr hT.1) (sub_nonneg.mpr hks.2),
      mul_nonneg (sub_nonneg.mpr hT.2) (sub_nonneg.mpr hks.1),
      mul_nonneg (sub_nonneg.mpr hT.2) (sub_nonneg.mpr hks.2)]
  constructor <;> linarith [ht1.1, ht1.2, hbc.1, hbc.2]

/-- The reference scenario falls in the frozen regime. -/
theorem c2_branch : Tps_numerator (Tgs refInputs) (Ags refInputs) (Kf refInputs) (Kt refInputs) ≤ 0 := by
  linarith [c2_Tpsnum_bnd.2]

/-- Regime conductivity selected at the reference inputs. -/
theorem c2_Kstar_eq : K_star (Tgs refInputs) (Ags refInputs) (Kf refInputs) (Kt refInputs) = Kf refInputs := by
  unfold K_star
  rw [if_pos c2_branch]

/-- Regime heat capacity selected at the reference inputs. -/
theorem c2_Csel_eq : C (Tgs refInputs) (Ags refInputs) (Kf refInputs) (Kt refInputs) (Cf refInputs) (Ct refInputs) = Cf refInputs := by
  unfold C
  rw [if_pos c2_branch]

/-- Regime conductivity for the depth formulas at the reference inputs. -/
theorem c2_Ksel_eq : K (Tgs refInputs) (Ags refInputs) (Kf refInputs) (Kt refInputs) = Kf refInputs := by
  unfold K
  rw [if_pos c2_branch]

/-- Enclosure of the temperature at the top of permafrost. -/
theorem c2_Tps_bnd :
    (-7.6915041:ℝ) ≤ Tps (Tgs refInputs) (Ags refInputs) (Kf refInputs) (Kt refInputs) ∧
      Tps (Tgs refInputs) (Ags refInputs) (Kf refInputs) (Kt refInputs) ≤ (-7.6914858:ℝ) := by
  have hN := c2_Tpsnum_bnd
  have hK := c2_Kf_bnd
  unfold Tps
  rw [c2_Kstar_eq]
  have hinv := inv_enclosure (by norm_num : (0:ℝ) < 1.871232204)
    (show (1.871232204:ℝ) ≤ Kf refInputs by linarith [hK.1])
    (show Kf refInputs ≤ (1.871232205:ℝ) by linarith [hK.2])
  rw [show (Tps_numerator (Tgs refInputs) (Ags refInputs) (Kf refInputs) (Kt refInputs)) / (Kf refInputs) = (Tps_numerator (Tgs refInputs) (Ags refInputs) (Kf refInputs) (Kt refInputs)) * (1/(Kf refInputs)) by ring]
  constructor <;> nlinarith only [hN.1, hN.2, hinv.1, hinv.2,
    mul_nonneg (sub_nonneg.mpr hN.1) (sub_nonneg.mpr hinv.1),
    mul_nonneg (sub_nonneg.mpr hN.1) (sub_nonneg.mpr hinv.2),
    mul_nonneg (sub_nonneg.mpr hN.2) (sub_nonneg.mpr hinv.1),
    mul_nonneg (sub_nonneg.mpr hN.2) (sub_nonneg.mpr hinv.2)]

/-- Enclosure of the latent-heat offset in the Aps formula. -/
theorem c2_la_bnd :
    (70.612835:ℝ) ≤ (137350000:ℝ) / (2 * Cf refInputs) ∧
      (137350000:ℝ) / (2 * Cf refInputs) ≤ (70.612836:ℝ) := by
  have hC := c2_Cf_bnd
  have hinv := inv_enclosure (by norm_num : (0:ℝ) < 1945113.7902)
    (show (1945113.7902:ℝ) ≤ 2 * Cf refInputs by linarith [hC.1])
    (show 2 * Cf refInputs ≤ (1945113.7904:ℝ) by linarith [hC.2])
  rw [show ((137350000:ℝ)) / (2 * Cf refInputs) = ((137350000:ℝ)) * (1/(2 * Cf refInputs)) by ring]
  constructor <;> nlinarith only [hinv.1, hinv.2]

/-- Enclosure of the ratio inside the Aps logarithm. -/
theorem c2_ratio2_bnd :
    (1.075503:ℝ) ≤ (Ags refInputs + 137350000 / (2 * Cf refInputs)) / (-Tps (Tgs refInputs) (Ags refInputs) (Kf refInputs) (Kt refInputs) + 137350000 / (2 * Cf refInputs)) ∧
      (Ags refInputs + 137350000 / (2 * Cf refInputs)) / (-Tps (Tgs refInputs) (Ags refInputs) (Kf refInputs) (Kt refInputs) + 137350000 / (2 * Cf refInputs)) ≤ (1.07550355:ℝ) := by
  have hA := c2_Ags_bnd
  have hT := c2_Tps_bnd
  have hl := c2_la_bnd
  have hN1 : (84.2165534:ℝ) ≤ Ags refInputs + 137350000 / (2 * Cf refInputs) ∧ Ags refInputs + 137350000 / (2 * Cf refInputs) ≤ (84.2165748:ℝ) := by
    constructor <;> linarith [hA.1, hA.2, hl.1, hl.2]
  have hN2 : (78.3043208:ℝ) ≤ -Tps (Tgs refInputs) (Ags refInputs) (Kf refInputs) (Kt refInputs) + 137350000 / (2 * Cf refInputs) ∧ -Tps (Tgs refInputs) (Ags refInputs) (Kf refInputs) (Kt refInputs) + 137350000 / (2 * Cf refInputs) ≤ (78.3043401:ℝ) := by
    constructor <;> linarith [hT.1, hT.2, hl.1, hl.2]
  have hinv := inv_enclosure (by norm_num : (0:ℝ) < 78.3043208)
    (show (78.3043208:ℝ) ≤ -Tps (Tgs refInputs) (Ags refInputs) (Kf refInputs) (Kt refInputs) + 137350000 / (2 * Cf refInputs) by linarith [hN2.1])
    (show -Tps (Tgs refInputs) (Ags refInputs) (Kf refInputs) (Kt refInputs) + 137350000 / (2 * Cf refInputs) ≤ (78.3043401:ℝ) by linarith [hN2.2])
  rw [show (Ags refInputs + 137350000 / (2 * Cf refInputs)) / (-Tps (Tgs refInputs) (Ags refInputs) (Kf refInputs) (Kt refInputs) + 137350000 / (2 * Cf refInputs)) = (Ags refInputs + 137350000 / (2 * Cf refInputs)) * (1/(-Tps (Tgs refInputs) (Ags refInputs) (Kf refInputs) (Kt refInputs) + 137350000 / (2 * Cf refInputs))) by ring]
  constructor <;> nlinarith only [hN1.1, hN1.2, hinv.1, hinv.2,
    mul_nonneg (sub_nonneg.mpr hN1.1) (sub_nonneg.mpr hinv.1),
    mul_nonneg (sub_nonneg.mpr hN1.1) (sub_nonneg.mpr hinv.2),
    mul_nonneg (sub_nonneg.mpr hN1.2) (sub_nonneg.mpr hinv.1),
    mul_nonneg (sub_nonneg.mpr hN1.2) (sub_nonneg.mpr hinv.2)]

/-- Enclosure of the logarithm in the Aps formula. -/
theorem c2_log2_bnd :
    (0.07278845:ℝ) ≤ log ((Ags refInputs + 137350000 / (2 * Cf refInputs)) / (-Tps (Tgs refInputs) (Ags refInputs) (Kf refInputs) (Kt refInputs) + 137350000 / (2 * Cf refInputs))) ∧
      log ((Ags refInputs + 137350000 / (2 * Cf refInputs)) / (-Tps (Tgs refInputs) (Ags refInputs) (Kf refInputs) (Kt refInputs) + 137350000 / (2 * Cf refInputs))) ≤ (0.07278898:ℝ) := by
  have hR := c2_ratio2_bnd
  have he1 := exp_poly_bounds (show (0:ℝ) ≤ 0.07278845 by norm_num) (by norm_num)
  have he2 := exp_poly_bounds (show (0:ℝ) ≤ 0.07278898 by norm_num) (by norm_num)
  constructor
  · exact le_log_of_exp_le (by linarith [hR.1]) (by linarith [he1.2, hR.1])
  · exact log_le_of_le_exp (by linarith [hR.1]) (by linarith [he2.1, hR.2])

set_option maxHeartbeats 1600000 in
/-- Enclosure of the amplitude at the top of permafrost. -/
theorem c2_Aps_bnd :
    (10.611194:ℝ) ≤ Aps (Tgs refInputs) (Ags refInputs) (Kf refInputs) (Kt refInputs) (Cf refInputs) (Ct refInputs) 137350000 ∧
      Aps (Tgs refInputs) (Ags refInputs) (Kf refInputs) (Kt refInputs) (Cf refInputs) (Ct refInputs) 137350000 ≤ (10.612325:ℝ) := by
  have hA := c2_Ags_bnd
  have hT := c2_Tps_bnd
  have hl := c2_la_bnd
  have hlg := c2_log2_bnd
  unfold Aps
  rw [c2_Csel_eq,
    abs_of_neg (show Tps (Tgs refInputs) (Ags refInputs) (Kf refInputs) (Kt refInputs) < 0 by linarith [c2_Tps_bnd.2])]
  have hnum : (5.9122143:ℝ) ≤ Ags refInputs - -Tps (Tgs refInputs) (Ags refInputs) (Kf refInputs) (Kt refInputs) ∧ Ags refInputs - -Tps (Tgs refInputs) (Ags refInputs) (Kf refInputs) (Kt refInputs) ≤ (5.912253:ℝ) := by
    constructor <;> linarith [hA.1, hA.2, hT.1, hT.2]
  have hinvl := inv_enclosure (by norm_num : (0:ℝ) < 0.07278845)
    (show (0.07278845:ℝ) ≤ log ((Ags refInputs + 137350000 / (2 * Cf refInputs)) / (-Tps (Tgs refInputs) (Ags refInputs) (Kf refInputs) (Kt refInputs) + 137350000 / (2 * Cf refInputs))) by linarith [hlg.1])
    (show log ((Ags refInputs + 137350000 / (2 * Cf refInputs)) / (-Tps (Tgs refInputs) (Ags refInputs) (Kf refInputs) (Kt refInputs) + 137350000 / (2 * Cf refInputs))) ≤ (0.07278898:ℝ) by linarith [hlg.2])
  have hfr : (81.22403:ℝ) ≤ (Ags refInputs - -Tps (Tgs refInputs) (Ags refInputs) (Kf refInputs) (Kt refInputs)) / log ((Ags refInputs + 137350000 / (2 * Cf refInputs)) / (-Tps (Tgs refInputs) (Ags refInputs) (Kf refInputs) (Kt refInputs) + 137350000 / (2 * Cf refInputs))) ∧
      (Ags refInputs - -Tps (Tgs refInputs) (Ags refInputs) (Kf refInputs) (Kt refInputs)) / log ((Ags refInputs + 137350000 / (2 * Cf refInputs)) / (-Tps (Tgs refInputs) (Ags refInputs) (Kf refInputs) (Kt refInputs) + 137350000 / (2 * Cf refInputs))) ≤ (81.22516:ℝ) := by
    rw [show (Ags refInputs - -Tps (Tgs refInputs) (Ags refInputs) (Kf refInputs) (Kt refInputs)) / (log ((Ags refInputs + 137350000 / (2 * Cf refInputs)) / (-Tps (Tgs refInputs) (Ags refInputs) (Kf refInputs) (Kt refInputs) + 137350000 / (2 * Cf refInputs)))) = (Ags refInputs - -Tps (Tgs refInputs) (Ags refInputs) (Kf refInputs) (Kt refInputs)) * (1/(log ((Ags refInputs + 137350000 / (2 * Cf refInputs)) / (-Tps (Tgs refInputs) (Ags refInputs) (Kf refInputs) (Kt refInputs) + 137350000 / (2 * Cf refInputs))))) by ring]
    constructor <;> nlinarith only [hnum.1, hnum.2, hinvl.1, hinvl.2,
      mul_nonneg (sub_nonneg.mpr hnum.1) (sub_nonneg.mpr hinvl.1),
      mul_nonneg (sub_nonneg.mpr hnum.1) (sub_nonneg.mpr hinvl.2),
      mul_nonneg (sub_nonneg.mpr hnum.2) (sub_nonneg.mpr hinvl.1),
      mul_nonneg (sub_nonneg.mpr hnum.2) (sub_nonneg.mpr hinvl.2)]
  constructor <;> linarith [hfr.1, hfr.2, hl.1, hl.2]

/-- Enclosure of the argument of the thaw-depth square root. -/
theorem c2_r3arg_bnd :
    (18268352624523:ℝ) ≤ Kf refInputs * tao * Cf refInputs / π ∧
      Kf refInputs * tao * Cf refInputs / π ≤ (18268358578863:ℝ) := by
  have hK := c2_Kf_bnd
  have hC := c2_Cf_bnd
  have hp := c2_piinv_bnd
  rw [c2_tao_val]
  have h1 : (1819879.78:ℝ) ≤ Kf refInputs * Cf refInputs ∧ Kf refInputs * Cf refInputs ≤ (1819879.79:ℝ) := by
    constructor <;> nlinarith only [hK.1, hK.2, hC.1, hC.2,
      mul_nonneg (sub_nonneg.mpr hK.1) (sub_nonneg.mpr hC.1),
      mul_nonneg (sub_nonneg.mpr hK.1) (sub_nonneg.mpr hC.2),
      mul_nonneg (sub_nonneg.mpr hK.2) (sub_nonneg.mpr hC.1),
      mul_nonneg (sub_nonneg.mpr hK.2) (sub_nonneg.mpr hC.2)]
  rw [show (Kf refInputs * 31536000 * Cf refInputs) / (π) = (Kf refInputs * 31536000 * Cf refInputs) * (1/(π)) by ring]
  constructor <;> nlinarith only [h1.1, h1.2, hp.1, hp.2,
    mul_nonneg (sub_nonneg.mpr h1.1) (sub_nonneg.mpr hp.1),
    mul_nonneg (sub_nonneg.mpr h1.1) (sub_nonneg.mpr hp.2),
    mul_nonneg (sub_nonneg.mpr h1.2) (sub_nonneg.mpr hp.1),
    mul_nonneg (sub_nonneg.mpr h1.2) (sub_nonneg.mpr hp.2)]

/-- Enclosure of the thaw-depth square root. -/
theorem c2_r3_bnd :
    (4274149.3:ℝ) ≤ sqrt (Kf refInputs * tao * Cf refInputs / π) ∧
      sqrt (Kf refInputs * tao * Cf refInputs / π) ≤ (4274150.1:ℝ) := by
  have h := c2_r3arg_bnd
  exact sqrt_bounds (by norm_num) (show (4274149.3:ℝ)^2 ≤ Kf refInputs * tao * Cf refInputs / π by linarith [h.1])
    (show Kf refInputs * tao * Cf refInputs / π ≤ (4274150.1:ℝ)^2 by linarith [h.2]) (by norm_num)

/-- Enclosure of the numerator of the characteristic thaw depth. -/
theorem c2_ZcNum_bnd :
    (50539373:ℝ) ≤ 2 * (Ags refInputs - -Tps (Tgs refInputs) (Ags refInputs) (Kf refInputs) (Kt refInputs)) * sqrt (Kf refInputs * tao * Cf refInputs / π) ∧
      2 * (Ags refInputs - -Tps (Tgs refInputs) (Ags refInputs) (Kf refInputs) (Kt refInputs)) * sqrt (Kf refInputs * tao * Cf refInputs / π) ≤ (50539714:ℝ) := by
  have hA := c2_Ags_bnd
  have hT := c2_Tps_bnd
  have hr := c2_r3_bnd
  have hnum : (5.9122143:ℝ) ≤ Ags refInputs - -Tps (Tgs refInputs) (Ags refInputs) (Kf refInputs) (Kt refInputs) ∧ Ags refInputs - -Tps (Tgs refInputs) (Ags refInputs) (Kf refInputs) (Kt refInputs) ≤ (5.912253:ℝ) := by
    constructor <;> linarith [hA.1, hA.2, hT.1, hT.2]
  constructor <;> nlinarith only [hnum.1, hnum.2, hr.1, hr.2,
    mul_nonneg (sub_nonneg.mpr hnum.1) (sub_nonneg.mpr hr.1),
    mul_nonneg (sub_nonneg.mpr hnum.1) (sub_nonneg.mpr hr.2),
    mul_nonneg (sub_nonneg.mpr hnum.2) (sub_nonneg.mpr hr.1),
    mul_nonneg (sub_nonneg.mpr hnum.2) (sub_nonneg.mpr hr.2)]

/-- Enclosure of the shared denominator of the depth formulas. -/
theorem c2_den5_bnd :
    (157989978:ℝ) ≤ 2 * Aps (Tgs refInputs) (Ags refInputs) (Kf refInputs) (Kt refInputs) (Cf refInputs) (Ct refInputs) 137350000 * Cf refInputs + 137350000 ∧
      2 * Aps (Tgs refInputs) (Ags refInputs) (Kf refInputs) (Kt refInputs) (Cf refInputs) (Ct refInputs) 137350000 * Cf refInputs + 137350000 ≤ (157992180:ℝ) := by
  have hP := c2_Aps_bnd
  have hC := c2_Cf_bnd
  have hpc : (10319989:ℝ) ≤ Aps (Tgs refInputs) (Ags refInputs) (Kf refInputs) (Kt refInputs) (Cf refInputs) (Ct refInputs) 137350000 * Cf refInputs ∧ Aps (Tgs refInputs) (Ags refInputs) (Kf refInputs) (Kt refInputs) (Cf refInputs) (Ct refInputs) 137350000 * Cf refInputs ≤ (10321090:ℝ) := by
    constructor <;> nlinarith only [hP.1, hP.2, hC.1, hC.2,
      mul_nonneg (sub_nonneg.mpr hP.1) (sub_nonneg.mpr hC.1),
      mul_nonneg (sub_nonneg.mpr hP.1) (sub_nonneg.mpr hC.2),
      mul_nonneg (sub_nonneg.mpr hP.2) (sub_nonneg.mpr hC.1),
      mul_nonneg (sub_nonneg.mpr hP.2) (sub_nonneg.mpr hC.2)]
  constructor <;> linarith [hpc.1, hpc.2]

set_option maxHeartbeats 1600000 in
/-- Enclosure of the characteristic thaw depth at the reference inputs. -/
theorem c2_Zc_bnd :
    (0.319885:ℝ) ≤ Zc (Tgs refInputs) (Ags refInputs) (Kf refInputs) (Kt refInputs) (Cf refInputs) (Ct refInputs) 137350000 ∧
      Zc (Tgs refInputs) (Ags refInputs) (Kf refInputs) (Kt refInputs) (Cf refInputs) (Ct refInputs) 137350000 ≤ (0.319892:ℝ) := by
  have hN := c2_ZcNum_bnd
  have hD := c2_den5_bnd
  unfold Zc
  rw [c2_Ksel_eq, c2_Csel_eq,
    abs_of_neg (show Tps (Tgs refInputs) (Ags refInputs) (Kf refInputs) (Kt refInputs) < 0 by linarith [c2_Tps_bnd.2])]
  have hinv := inv_enclosure (by norm_num : (0:ℝ) < 157989978)
    (show (157989978:ℝ) ≤ 2 * Aps (Tgs refInputs) (Ags refInputs) (Kf refInputs) (Kt refInputs) (Cf refInputs) (Ct refInputs) 137350000 * Cf refInputs + 137350000 by linarith [hD.1])
    (show 2 * Aps (Tgs refInputs) (Ags refInputs) (Kf refInputs) (Kt refInputs) (Cf refInputs) (Ct refInputs) 137350000 * Cf refInputs + 137350000 ≤ (157992180:ℝ) by linarith [hD.2])
  rw [show (2 * (Ags refInputs - -Tps (Tgs refInputs) (Ags refInputs) (Kf refInputs) (Kt refInputs)) * sqrt (Kf refInputs * tao * Cf refInputs / π)) / (2 * Aps (Tgs refInputs) (Ags refInputs) (Kf refInputs) (Kt refInputs) (Cf refInputs) (Ct refInputs) 137350000 * Cf refInputs + 137350000) = (2 * (Ags refInputs - -Tps (Tgs refInputs) (Ags refInputs) (Kf refInputs) (Kt refInputs)) * sqrt (Kf refInputs * tao * Cf refInputs / π)) * (1/(2 * Aps (Tgs refInputs) (Ags refInputs) (Kf refInputs) (Kt refInputs) (Cf refInputs) (Ct refInputs) 137350000 * Cf refInputs + 137350000)) by ring]
  constructor <;> nlinarith only [hN.1, hN.2, hinv.1, hinv.2,
    mul_nonneg (sub_nonneg.mpr hN.1) (sub_nonneg.mpr hinv.1),
    mul_nonneg (sub_nonneg.mpr hN.1) (sub_nonneg.mpr hinv.2),
    mul_nonneg (sub_nonneg.mpr hN.2) (sub_nonneg.mpr hinv.1),
    mul_nonneg (sub_nonneg.mpr hN.2) (sub_nonneg.mpr hinv.2)]

/-- Enclosure of the argument of the active-layer square root. -/
theorem c2_r4arg_bnd :
    (19.313872:ℝ) ≤ Kf refInputs * tao / (π * Cf refInputs) ∧
      Kf refInputs * tao / (π * Cf refInputs) ≤ (19.313879:ℝ) := by
  have hK := c2_Kf_bnd
  have hC := c2_Cf_bnd
  rw [c2_tao_val]
  have h1 : (3055376.96:ℝ) ≤ π * Cf refInputs ∧ π * Cf refInputs ≤ (3055377.94:ℝ) := by
    constructor <;> nlinarith only [pi_gt_d6, pi_lt_d6, hC.1, hC.2,
      mul_nonneg (sub_nonneg.mpr pi_gt_d6.le) (sub_nonneg.mpr hC.1),
      mul_nonneg (sub_nonneg.mpr pi_gt_d6.le) (sub_nonneg.mpr hC.2),
      mul_nonneg (sub_nonneg.mpr pi_lt_d6.le) (sub_nonneg.mpr hC.1),
      mul_nonneg (sub_nonneg.mpr pi_lt_d6.le) (sub_nonneg.mpr hC.2)]
  have hinv := inv_enclosure (by norm_num : (0:ℝ) < 3055376.96)
    (show (3055376.96:ℝ) ≤ π * Cf refInputs by linarith [h1.1])
    (show π * Cf refInputs ≤ (3055377.94:ℝ) by linarith [h1.2])
  rw [show (Kf refInputs * 31536000) / (π * Cf refInputs) = (Kf refInputs * 31536000) * (1/(π * Cf refInputs)) by ring]
  constructor <;> nlinarith only [hK.1, hK.2, hinv.1, hinv.2,
    mul_nonneg (sub_nonneg.mpr hK.1) (sub_nonneg.mpr hinv.1),
    mul_nonneg (sub_nonneg.mpr hK.1) (sub_nonneg.mpr hinv.2),
    mul_nonneg (sub_nonneg.mpr hK.2) (sub_nonneg.mpr hinv.1),
    mul_nonneg (sub_nonneg.mpr hK.2) (sub_nonneg.mpr hinv.2)]

/-- Enclosure of the active-layer square root. -/
theorem c2_r4_bnd :
    (4.394755:ℝ) ≤ sqrt (Kf refInputs * tao / (π * Cf refInputs)) ∧
      sqrt (Kf refInputs * tao / (π * Cf refInputs)) ≤ (4.394756:ℝ) := by
  have h := c2_r4arg_bnd
  exact sqrt_bounds (by norm_num) (show (4.394755:ℝ)^2 ≤ Kf refInputs * tao / (π * Cf refInputs) by linarith [h.1])
    (show Kf refInputs * tao / (π * Cf refInputs) ≤ (4.394756:ℝ)^2 by linarith [h.2]) (by norm_num)

set_option maxHeartbeats 3200000 in
/-- Enclosure of the active-layer thickness at the reference inputs. -/
theorem c2_Zal_bnd :
    (0.578457:ℝ) ≤ Zal (Tgs refInputs) (Ags refInputs) (Kf refInputs) (Kt refInputs) (Cf refInputs) (Ct refInputs) 137350000 ∧
      Zal (Tgs refInputs) (Ags refInputs) (Kf refInputs) (Kt refInputs) (Cf refInputs) (Ct refInputs) 137350000 ≤ (0.578482:ℝ) := by
  have hA := c2_Ags_bnd
  have hT := c2_Tps_bnd
  have hP := c2_Aps_bnd
  have hZ := c2_Zc_bnd
  have hC := c2_Cf_bnd
  have hN := c2_ZcNum_bnd
  have hD5 := c2_den5_bnd
  have hR4 := c2_r4_bnd
  unfold Zal
  rw [c2_Ksel_eq, c2_Csel_eq,
    abs_of_neg (show Tps (Tgs refInputs) (Ags refInputs) (Kf refInputs) (Kt refInputs) < 0 by linarith [c2_Tps_bnd.2])]
  have hpc : (10319989:ℝ) ≤ Aps (Tgs refInputs) (Ags refInputs) (Kf refInputs) (Kt refInputs) (Cf refInputs) (Ct refInputs) 137350000 * Cf refInputs ∧ Aps (Tgs refInputs) (Ags refInputs) (Kf refInputs) (Kt refInputs) (Cf refInputs) (Ct refInputs) 137350000 * Cf refInputs ≤ (10321090:ℝ) := by
    constructor <;> nlinarith only [hP.1, hP.2, hC.1, hC.2,
      mul_nonneg (sub_nonneg.mpr hP.1) (sub_nonneg.mpr hC.1),
      mul_nonneg (sub_nonneg.mpr hP.1) (sub_nonneg.mpr hC.2),
      mul_nonneg (sub_nonneg.mpr hP.2) (sub_nonneg.mpr hC.1),
      mul_nonneg (sub_nonneg.mpr hP.2) (sub_nonneg.mpr hC.2)]
  have hpcz : (3301209.68:ℝ) ≤ Aps (Tgs refInputs) (Ags refInputs) (Kf refInputs) (Kt refInputs) (Cf refInputs) (Ct refInputs) 137350000 * Cf refInputs * Zc (Tgs refInputs) (Ags refInputs) (Kf refInputs) (Kt refInputs) (Cf refInputs) (Ct refInputs) 137350000 ∧ Aps (Tgs refInputs) (Ags refInputs) (Kf refInputs) (Kt refInputs) (Cf refInputs) (Ct refInputs) 137350000 * Cf refInputs * Zc (Tgs refInputs) (Ags refInputs) (Kf refInputs) (Kt refInputs) (Cf refInputs) (Ct refInputs) 137350000 ≤ (3301634.13:ℝ) := by
    constructor <;> nlinarith only [hpc.1, hpc.2, hZ.1, hZ.2,
      mul_nonneg (sub_nonneg.mpr hpc.1) (sub_nonneg.mpr hZ.1),
      mul_nonneg (sub_nonneg.mpr hpc.1) (sub_nonneg.mpr hZ.2),
      mul_nonneg (sub_nonneg.mpr hpc.2) (sub_nonneg.mpr hZ.1),
      mul_nonneg (sub_nonneg.mpr hpc.2) (sub_nonneg.mpr hZ.2)]
  have hn1 : (50538624:ℝ) ≤ 2 * Aps (Tgs refInputs) (Ags refInputs) (Kf refInputs) (Kt refInputs) (Cf refInputs) (Ct refInputs) 137350000 * Cf refInputs * Zc (Tgs refInputs) (Ags refInputs) (Kf refInputs) (Kt refInputs) (Cf refInputs) (Ct refInputs) 137350000 + 137350000 * Zc (Tgs refInputs) (Ags refInputs) (Kf refInputs) (Kt refInputs) (Cf refInputs) (Ct refInputs) 137350000 ∧ 2 * Aps (Tgs refInputs) (Ags refInputs) (Kf refInputs) (Kt refInputs) (Cf refInputs) (Ct refInputs) 137350000 * Cf refInputs * Zc (Tgs refInputs) (Ags refInputs) (Kf refInputs) (Kt refInputs) (Cf refInputs) (Ct refInputs) 137350000 + 137350000 * Zc (Tgs refInputs) (Ags refInputs) (Kf refInputs) (Kt refInputs) (Cf refInputs) (Ct refInputs) 137350000 ≤ (50540435:ℝ) := by
    constructor <;> linarith [hpcz.1, hpcz.2, hZ.1, hZ.2]
  have hn2 : (30506103965526432:ℝ) ≤ (2 * Aps (Tgs refInputs) (Ags refInputs) (Kf refInputs) (Kt refInputs) (Cf refInputs) (Ct refInputs) 137350000 * Cf refInputs * Zc (Tgs refInputs) (Ags refInputs) (Kf refInputs) (Kt refInputs) (Cf refInputs) (Ct refInputs) 137350000 + 137350000 * Zc (Tgs refInputs) (Ags refInputs) (Kf refInputs) (Kt refInputs) (Cf refInputs) (Ct refInputs) 137350000) * 137350000 * sqrt (Kf refInputs * tao / (π * Cf refInputs)) ∧ (2 * Aps (Tgs refInputs) (Ags refInputs) (Kf refInputs) (Kt refInputs) (Cf refInputs) (Ct refInputs) 137350000 * Cf refInputs * Zc (Tgs refInputs) (Ags refInputs) (Kf refInputs) (Kt refInputs) (Cf refInputs) (Ct refInputs) 137350000 + 137350000 * Zc (Tgs refInputs) (Ags refInputs) (Kf refInputs) (Kt refInputs) (Cf refInputs) (Ct refInputs) 137350000) * 137350000 * sqrt (Kf refInputs * tao / (π * Cf refInputs)) ≤ (30507204062349421:ℝ) := by
    constructor <;> nlinarith only [hn1.1, hn1.2, hR4.1, hR4.2,
      mul_nonneg (sub_nonneg.mpr hn1.1) (sub_nonneg.mpr hR4.1),
      mul_nonneg (sub_nonneg.mpr hn1.1) (sub_nonneg.mpr hR4.2),
      mul_nonneg (sub_nonneg.mpr hn1.2) (sub_nonneg.mpr hR4.1),
      mul_nonneg (sub_nonneg.mpr hn1.2) (sub_nonneg.mpr hR4.2)]
  have hac : (13230390:ℝ) ≤ Ags refInputs * Cf refInputs ∧ Ags refInputs * Cf refInputs ≤ (13230410:ℝ) := by
    constructor <;> nlinarith only [hA.1, hA.2, hC.1, hC.2,
      mul_nonneg (sub_nonneg.mpr hA.1) (sub_nonneg.mpr hC.1),
      mul_nonneg (sub_nonneg.mpr hA.1) (sub_nonneg.mpr hC.2),
      mul_nonneg (sub_nonneg.mpr hA.2) (sub_nonneg.mpr hC.1),
      mul_nonneg (sub_nonneg.mpr hA.2) (sub_nonneg.mpr hC.2)]
  have hacz : (8464406:ℝ) ≤ 2 * Ags refInputs * Cf refInputs * Zc (Tgs refInputs) (Ags refInputs) (Kf refInputs) (Kt refInputs) (Cf refInputs) (Ct refInputs) 137350000 ∧ 2 * Ags refInputs * Cf refInputs * Zc (Tgs refInputs) (Ags refInputs) (Kf refInputs) (Kt refInputs) (Cf refInputs) (Ct refInputs) 137350000 ≤ (8464605:ℝ) := by
    constructor <;> nlinarith only [hac.1, hac.2, hZ.1, hZ.2,
      mul_nonneg (sub_nonneg.mpr hac.1) (sub_nonneg.mpr hZ.1),
      mul_nonneg (sub_nonneg.mpr hac.1) (sub_nonneg.mpr hZ.2),
      mul_nonneg (sub_nonneg.mpr hac.2) (sub_nonneg.mpr hZ.1),
      mul_nonneg (sub_nonneg.mpr hac.2) (sub_nonneg.mpr hZ.2)]
  have hd5r4 : (694327245:ℝ) ≤ (2 * Aps (Tgs refInputs) (Ags refInputs) (Kf refInputs) (Kt refInputs) (Cf refInputs) (Ct refInputs) 137350000 * Cf refInputs + 137350000) * sqrt (Kf refInputs * tao / (π * Cf refInputs)) ∧ (2 * Aps (Tgs refInputs) (Ags refInputs) (Kf refInputs) (Kt refInputs) (Cf refInputs) (Ct refInputs) 137350000 * Cf refInputs + 137350000) * sqrt (Kf refInputs * tao / (π * Cf refInputs)) ≤ (694337082:ℝ) := by
    constructor <;> nlinarith only [hD5.1, hD5.2, hR4.1, hR4.2,
      mul_nonneg (sub_nonneg.mpr hD5.1) (sub_nonneg.mpr hR4.1),
      mul_nonneg (sub_nonneg.mpr hD5.1) (sub_nonneg.mpr hR4.2),
      mul_nonneg (sub_nonneg.mpr hD5.2) (sub_nonneg.mpr hR4.1),
      mul_nonneg (sub_nonneg.mpr hD5.2) (sub_nonneg.mpr hR4.2)]
  have hdd : (746727855:ℝ) ≤ 2 * Ags refInputs * Cf refInputs * Zc (Tgs refInputs) (Ags refInputs) (Kf refInputs) (Kt refInputs) (Cf refInputs) (Ct refInputs) 137350000 + 137350000 * Zc (Tgs refInputs) (Ags refInputs) (Kf refInputs) (Kt refInputs) (Cf refInputs) (Ct refInputs) 137350000 + (2 * Aps (Tgs refInputs) (Ags refInputs) (Kf refInputs) (Kt refInputs) (Cf refInputs) (Ct refInputs) 137350000 * Cf refInputs + 137350000) * sqrt (Kf refInputs * tao / (π * Cf refInputs)) ∧ 2 * Ags refInputs * Cf refInputs * Zc (Tgs refInputs) (Ags refInputs) (Kf refInputs) (Kt refInputs) (Cf refInputs) (Ct refInputs) 137350000 + 137350000 * Zc (Tgs refInputs) (Ags refInputs) (Kf refInputs) (Kt refInputs) (Cf refInputs) (Ct refInputs) 137350000 + (2 * Aps (Tgs refInputs) (Ags refInputs) (Kf refInputs) (Kt refInputs) (Cf refInputs) (Ct refInputs) 137350000 * Cf refInputs + 137350000) * sqrt (Kf refInputs * tao / (π * Cf refInputs)) ≤ (746738854:ℝ) := by
    constructor <;> linarith [hacz.1, hacz.2, hZ.1, hZ.2, hd5r4.1, hd5r4.2]
  have hinvd := inv_enclosure (by norm_num : (0:ℝ) < 746727855)
    (show (746727855:ℝ) ≤ 2 * Ags refInputs * Cf refInputs * Zc (Tgs refInputs) (Ags refInputs) (Kf refInputs) (Kt refInputs) (Cf refInputs) (Ct refInputs) 137350000 + 137350000 * Zc (Tgs refInputs) (Ags refInputs) (Kf refInputs) (Kt refInputs) (Cf refInputs) (Ct refInputs) 137350000 + (2 * Aps (Tgs refInputs) (Ags refInputs) (Kf refInputs) (Kt refInputs) (Cf refInputs) (Ct refInputs) 137350000 * Cf refInputs + 137350000) * sqrt (Kf refInputs * tao / (π * Cf refInputs)) by linarith [hdd.1])
    (show 2 * Ags refInputs * Cf refInputs * Zc (Tgs refInputs) (Ags refInputs) (Kf refInputs) (Kt refInputs) (Cf refInputs) (Ct refInputs) 137350000 + 137350000 * Zc (Tgs refInputs) (Ags refInputs) (Kf refInputs) (Kt refInputs) (Cf refInputs) (Ct refInputs) 137350000 + (2 * Aps (Tgs refInputs) (Ags refInputs) (Kf refInputs) (Kt refInputs) (Cf refInputs) (Ct refInputs) 137350000 * Cf refInputs + 137350000) * sqrt (Kf refInputs * tao / (π * Cf refInputs)) ≤ (746738854:ℝ) by linarith [hdd.2])
  have hcorr : (40852439.6475:ℝ) ≤ (2 * Aps (Tgs refInputs) (Ags refInputs) (Kf refInputs) (Kt refInputs) (Cf refInputs) (Ct refInputs) 137350000 * Cf refInputs * Zc (Tgs refInputs) (Ags refInputs) (Kf refInputs) (Kt refInputs) (Cf refInputs) (Ct refInputs) 137350000 + 137350000 * Zc (Tgs refInputs) (Ags refInputs) (Kf refInputs) (Kt refInputs) (Cf refInputs) (Ct refInputs) 137350000) * 137350000 * sqrt (Kf refInputs * tao / (π * Cf refInputs)) / (2 * Ags refInputs * Cf refInputs * Zc (Tgs refInputs) (Ags refInputs) (Kf refInputs) (Kt refInputs) (Cf refInputs) (Ct refInputs) 137350000 + 137350000 * Zc (Tgs refInputs) (Ags refInputs) (Kf refInputs) (Kt refInputs) (Cf refInputs) (Ct refInputs) 137350000 + (2 * Aps (Tgs refInputs) (Ags refInputs) (Kf refInputs) (Kt refInputs) (Cf refInputs) (Ct refInputs) 137350000 * Cf refInputs + 137350000) * sqrt (Kf refInputs * tao / (π * Cf refInputs))) ∧ (2 * Aps (Tgs refInputs) (Ags refInputs) (Kf refInputs) (Kt refInputs) (Cf refInputs) (Ct refInputs) 137350000 * Cf refInputs * Zc (Tgs refInputs) (Ags refInputs) (Kf refInputs) (Kt refInputs) (Cf refInputs) (Ct refInputs) 137350000 + 137350000 * Zc (Tgs refInputs) (Ags refInputs) (Kf refInputs) (Kt refInputs) (Cf refInputs) (Ct refInputs) 137350000) * 137350000 * sqrt (Kf refInputs * tao / (π * Cf refInputs)) / (2 * Ags refInputs * Cf refInputs * Zc (Tgs refInputs) (Ags refInputs) (Kf refInputs) (Kt refInputs) (Cf refInputs) (Ct refInputs) 137350000 + 137350000 * Zc (Tgs refInputs) (Ags refInputs) (Kf refInputs) (Kt refInputs) (Cf refInputs) (Ct refInputs) 137350000 + (2 * Aps (Tgs refInputs) (Ags refInputs) (Kf refInputs) (Kt refInputs) (Cf refInputs) (Ct refInputs) 137350000 * Cf refInputs + 137350000) * sqrt (Kf refInputs * tao / (π * Cf refInputs))) ≤ (40854514.6108:ℝ) := by
    rw [show ((2 * Aps (Tgs refInputs) (Ags refInputs) (Kf refInputs) (Kt refInputs) (Cf refInputs) (Ct refInputs) 137350000 * Cf refInputs * Zc (Tgs refInputs) (Ags refInputs) (Kf refInputs) (Kt refInputs) (Cf refInputs) (Ct refInputs) 137350000 + 137350000 * Zc (Tgs refInputs) (Ags refInputs) (Kf refInputs) (Kt refInputs) (Cf refInputs) (Ct refInputs) 137350000) * 137350000 * sqrt (Kf refInputs * tao / (π * Cf refInputs))) / (2 * Ags refInputs * Cf refInputs * Zc (Tgs refInputs) (Ags refInputs) (Kf refInputs) (Kt refInputs) (Cf refInputs) (Ct refInputs) 137350000 + 137350000 * Zc (Tgs refInputs) (Ags refInputs) (Kf refInputs) (Kt refInputs) (Cf refInputs) (Ct refInputs) 137350000 + (2 * Aps (Tgs refInputs) (Ags refInputs) (Kf refInputs) (Kt refInputs) (Cf refInputs) (Ct refInputs) 137350000 * Cf refInputs + 137350000) * sqrt (Kf refInputs * tao / (π * Cf refInputs))) = ((2 * Aps (Tgs refInputs) (Ags refInputs) (Kf refInputs) (Kt refInputs) (Cf refInputs) (Ct refInputs) 137350000 * Cf refInputs * Zc (Tgs refInputs) (Ags refInputs) (Kf refInputs) (Kt refInputs) (Cf refInputs) (Ct refInputs) 137350000 + 137350000 * Zc (Tgs refInputs) (Ags refInputs) (Kf refInputs) (Kt refInputs) (Cf refInputs) (Ct refInputs) 137350000) * 137350000 * sqrt (Kf refInputs * tao / (π * Cf refInputs))) * (1/(2 * Ags refInputs * Cf refInputs * Zc (Tgs refInputs) (Ags refInputs) (Kf refInputs) (Kt refInputs) (Cf refInputs) (Ct refInputs) 137350000 + 137350000 * Zc (Tgs refInputs) (Ags refInputs) (Kf refInputs) (Kt refInputs) (Cf refInputs) (Ct refInputs) 137350000 + (2 * Aps (Tgs refInputs) (Ags refInputs) (Kf refInputs) (Kt refInputs) (Cf refInputs) (Ct refInputs) 137350000 * Cf refInputs + 137350000) * sqrt (Kf refInputs * tao / (π * Cf refInputs)))) by ring]
    constructor <;> nlinarith only [hn2.1, hn2.2, hinvd.1, hinvd.2,
      mul_nonneg (sub_nonneg.mpr hn2.1) (sub_nonneg.mpr hinvd.1),
      mul_nonneg (sub_nonneg.mpr hn2.1) (sub_nonneg.mpr hinvd.2),
      mul_nonneg (sub_nonneg.mpr hn2.2) (sub_nonneg.mpr hinvd.1),
      mul_nonneg (sub_nonneg.mpr hn2.2) (sub_nonneg.mpr hinvd.2)]
  have htot : (91391812.6475:ℝ) ≤ 2 * (Ags refInputs - -Tps (Tgs refInputs) (Ags refInputs) (Kf refInputs) (Kt refInputs)) * sqrt (Kf refInputs * tao * Cf refInputs / π) + (2 * Aps (Tgs refInputs) (Ags refInputs) (Kf refInputs) (Kt refInputs) (Cf refInputs) (Ct refInputs) 137350000 * Cf refInputs * Zc (Tgs refInputs) (Ags refInputs) (Kf refInputs) (Kt refInputs) (Cf refInputs) (Ct refInputs) 137350000 + 137350000 * Zc (Tgs refInputs) (Ags refInputs) (Kf refInputs) (Kt refInputs) (Cf refInputs) (Ct refInputs) 137350000) * 137350000 * sqrt (Kf refInputs * tao / (π * Cf refInputs)) / (2 * Ags refInputs * Cf refInputs * Zc (Tgs refInputs) (Ags refInputs) (Kf refInputs) (Kt refInputs) (Cf refInputs) (Ct refInputs) 137350000 + 137350000 * Zc (Tgs refInputs) (Ags refInputs) (Kf refInputs) (Kt refInputs) (Cf refInputs) (Ct refInputs) 137350000 + (2 * Aps (Tgs refInputs) (Ags refInputs) (Kf refInputs) (Kt refInputs) (Cf refInputs) (Ct refInputs) 137350000 * Cf refInputs + 137350000) * sqrt (Kf refInputs * tao / (π * Cf refInputs))) ∧ 2 * (Ags refInputs - -Tps (Tgs refInputs) (Ags refInputs) (Kf refInputs) (Kt refInputs)) * sqrt (Kf refInputs * tao * Cf refInputs / π) + (2 * Aps (Tgs refInputs) (Ags refInputs) (Kf refInputs) (Kt refInputs) (Cf refInputs) (Ct refInputs) 137350000 * Cf refInputs * Zc (Tgs refInputs) (Ags refInputs) (Kf refInputs) (Kt refInputs) (Cf refInputs) (Ct refInputs) 137350000 + 137350000 * Zc (Tgs refInputs) (Ags refInputs) (Kf refInputs) (Kt refInputs) (Cf refInputs) (Ct refInputs) 137350000) * 137350000 * sqrt (Kf refInputs * tao / (π * Cf refInputs)) / (2 * Ags refInputs * Cf refInputs * Zc (Tgs refInputs) (Ags refInputs) (Kf refInputs) (Kt refInputs) (Cf refInputs) (Ct refInputs) 137350000 + 137350000 * Zc (Tgs refInputs) (Ags refInputs) (Kf refInputs) (Kt refInputs) (Cf refInputs) (Ct refInputs) 137350000 + (2 * Aps (Tgs refInputs) (Ags refInputs) (Kf refInputs) (Kt refInputs) (Cf refInputs) (Ct refInputs) 137350000 * Cf refInputs + 137350000) * sqrt (Kf refInputs * tao / (π * Cf refInputs))) ≤ (91394228.6108:ℝ) := by
    constructor <;> linarith [hN.1, hN.2, hcorr.1, hcorr.2]
  have hinv5 := inv_enclosure (by norm_num : (0:ℝ) < 157989978)
    (show (157989978:ℝ) ≤ 2 * Aps (Tgs refInputs) (Ags refInputs) (Kf refInputs) (Kt refInputs) (Cf refInputs) (Ct refInputs) 137350000 * Cf refInputs + 137350000 by linarith [hD5.1])
    (show 2 * Aps (Tgs refInputs) (Ags refInputs) (Kf refInputs) (Kt refInputs) (Cf refInputs) (Ct refInputs) 137350000 * Cf refInputs + 137350000 ≤ (157992180:ℝ) by linarith [hD5.2])
  rw [show (2 * (Ags refInputs - -Tps (Tgs refInputs) (Ags refInputs) (Kf refInputs) (Kt refInputs)) * sqrt (Kf refInputs * tao * Cf refInputs / π) + (2 * Aps (Tgs refInputs) (Ags refInputs) (Kf refInputs) (Kt refInputs) (Cf refInputs) (Ct refInputs) 137350000 * Cf refInputs * Zc (Tgs refInputs) (Ags refInputs) (Kf refInputs) (Kt refInputs) (Cf refInputs) (Ct refInputs) 137350000 + 137350000 * Zc (Tgs refInputs) (Ags refInputs) (Kf refInputs) (Kt refInputs) (Cf refInputs) (Ct refInputs) 137350000) * 137350000 * sqrt (Kf refInputs * tao / (π * Cf refInputs)) / (2 * Ags refInputs * Cf refInputs * Zc (Tgs refInputs) (Ags refInputs) (Kf refInputs) (Kt refInputs) (Cf refInputs) (Ct refInputs) 137350000 + 137350000 * Zc (Tgs refInputs) (Ags refInputs) (Kf refInputs) (Kt refInputs) (Cf refInputs) (Ct refInputs) 137350000 + (2 * Aps (Tgs refInputs) (Ags refInputs) (Kf refInputs) (Kt refInputs) (Cf refInputs) (Ct refInputs) 137350000 * Cf refInputs + 137350000) * sqrt (Kf refInputs * tao / (π * Cf refInputs)))) / (2 * Aps (Tgs refInputs) (Ags refInputs) (Kf refInputs) (Kt refInputs) (Cf refInputs) (Ct refInputs) 137350000 * Cf refInputs + 137350000) = (2 * (Ags refInputs - -Tps (Tgs refInputs) (Ags refInputs) (Kf refInputs) (Kt refInputs)) * sqrt (Kf refInputs * tao * Cf refInputs / π) + (2 * Aps (Tgs refInputs) (Ags refInputs) (Kf refInputs) (Kt refInputs) (Cf refInputs) (Ct refInputs) 137350000 * Cf refInputs * Zc (Tgs refInputs) (Ags refInputs) (Kf refInputs) (Kt refInputs) (Cf refInputs) (Ct refInputs) 137350000 + 137350000 * Zc (Tgs refInputs) (Ags refInputs) (Kf refInputs) (Kt refInputs) (Cf refInputs) (Ct refInputs) 137350000) * 137350000 * sqrt (Kf refInputs * tao / (π * Cf refInputs)) / (2 * Ags refInputs * Cf refInputs * Zc (Tgs refInputs) (Ags refInputs) (Kf refInputs) (Kt refInputs) (Cf refInputs) (Ct refInputs) 137350000 + 137350000 * Zc (Tgs refInputs) (Ags refInputs) (Kf refInputs) (Kt refInputs) (Cf refInputs) (Ct refInputs) 137350000 + (2 * Aps (Tgs refInputs) (Ags refInputs) (Kf refInputs) (Kt refInputs) (Cf refInputs) (Ct refInputs) 137350000 * Cf refInputs + 137350000) * sqrt (Kf refInputs * tao / (π * Cf refInputs)))) * (1/(2 * Aps (Tgs refInputs) (Ags refInputs) (Kf refInputs) (Kt refInputs) (Cf refInputs) (Ct refInputs) 137350000 * Cf refInputs + 137350000)) by ring]
  constructor <;> nlinarith only [htot.1, htot.2, hinv5.1, hinv5.2,
    mul_nonneg (sub_nonneg.mpr htot.1) (sub_nonneg.mpr hinv5.1),
    mul_nonneg (sub_nonneg.mpr htot.1) (sub_nonneg.mpr hinv5.2),
    mul_nonneg (sub_nonneg.mpr htot.2) (sub_nonneg.mpr hinv5.1),
    mul_nonneg (sub_nonneg.mpr htot.2) (sub_nonneg.mpr hinv5.2)]

/-- C2 (counterexample): at the reference inputs the computed TTOP is about
`-7.69150`, which differs from the spec value `-7.69` by more than the
claimed `1e-3` tolerance, so the stated regression bound fails. -/
theorem reference_scenario_counterexample :
    (1e-3:ℝ) < |Tps_p refInputs + 7.69| := by
  have h := c2_Tps_bnd
  unfold Tps_p
  rw [abs_of_neg (show Tps (Tgs refInputs) (Ags refInputs) (Kf refInputs)
      (Kt refInputs) + 7.69 < 0 by linarith [h.2])]
  linarith [h.2]

/-- C2 (amended): at the reference inputs the pipeline TTOP is within `2e-3`
of `-7.69` (the computed value is about `-7.6915`) and the active-layer
thickness is within `1e-3` of `0.578`. -/
theorem reference_scenario :
    |Tps_p refInputs + 7.69| < 2e-3 ∧ |Zal_p refInputs - 0.578| < 1e-3 := by
  have h1 := c2_Tps_bnd
  have h2 := c2_Zal_bnd
  have e : Zal_p refInputs =
      Zal (Tgs refInputs) (Ags refInputs) (Kf refInputs) (Kt refInputs)
        (Cf refInputs) (Ct refInputs) 137350000 := by
    unfold Zal_p
    rw [c2_L_val]
  unfold Tps_p
  rw [e]
  constructor
  · rw [abs_lt]
    constructor <;> linarith [h1.1, h1.2]
  · rw [abs_lt]
    constructor <;> linarith [h2.1, h2.2]

end Claims

end Kudryavtsev
